import Mathlib

/-!
Verification of the cross-section background renderer
(`src/website/background/src/geometry.rs`, `src/background/src/main.rs`,
`src/background/src/state.rs`).

The `f32` values of the source are embedded as exact rationals.  The
transcendental library functions used by the source (`sqrt`, `atan2`,
`cos`, `sin` and the constant pi) have no exact rational counterpart, so
they are collected in a parameter structure `FloatOps`; theorems that
need a property of one of them (for instance `sqrt 1 = 1`) take it as an
explicit hypothesis, which the genuine real-valued functions satisfy.
-/

namespace NB

/-- Rational model of geng's `vec3<f32>`. -/
structure Vec3 where
  x : ℚ
  y : ℚ
  z : ℚ
deriving DecidableEq, Repr

/-- Rational model of geng's `vec2<f32>`. -/
structure Vec2 where
  x : ℚ
  y : ℚ
deriving DecidableEq, Repr

instance : Add Vec3 := ⟨fun a b => ⟨a.x + b.x, a.y + b.y, a.z + b.z⟩⟩

instance : Sub Vec3 := ⟨fun a b => ⟨a.x - b.x, a.y - b.y, a.z - b.z⟩⟩

instance : SMul ℚ Vec3 := ⟨fun c v => ⟨c * v.x, c * v.y, c * v.z⟩⟩

instance : Add Vec2 := ⟨fun a b => ⟨a.x + b.x, a.y + b.y⟩⟩

instance : Sub Vec2 := ⟨fun a b => ⟨a.x - b.x, a.y - b.y⟩⟩

instance : SMul ℚ Vec2 := ⟨fun c v => ⟨c * v.x, c * v.y⟩⟩

@[simp] theorem Vec3.add_mk (ax ay az bx by_ bz : ℚ) :
    (⟨ax, ay, az⟩ + ⟨bx, by_, bz⟩ : Vec3) = ⟨ax + bx, ay + by_, az + bz⟩ := rfl

@[simp] theorem Vec3.sub_mk (ax ay az bx by_ bz : ℚ) :
    (⟨ax, ay, az⟩ - ⟨bx, by_, bz⟩ : Vec3) = ⟨ax - bx, ay - by_, az - bz⟩ := rfl

@[simp] theorem Vec3.smul_mk (c ax ay az : ℚ) :
    (c • (⟨ax, ay, az⟩ : Vec3)) = ⟨c * ax, c * ay, c * az⟩ := rfl

@[simp] theorem Vec2.add2_mk (ax ay bx by_ : ℚ) :
    (⟨ax, ay⟩ + ⟨bx, by_⟩ : Vec2) = ⟨ax + bx, ay + by_⟩ := rfl

@[simp] theorem Vec2.sub2_mk (ax ay bx by_ : ℚ) :
    (⟨ax, ay⟩ - ⟨bx, by_⟩ : Vec2) = ⟨ax - bx, ay - by_⟩ := rfl

@[simp] theorem Vec2.smul2_mk (c ax ay : ℚ) :
    (c • (⟨ax, ay⟩ : Vec2)) = ⟨c * ax, c * ay⟩ := rfl

@[simp] theorem Vec3.add_x (a b : Vec3) : (a + b).x = a.x + b.x := rfl

@[simp] theorem Vec3.add_y (a b : Vec3) : (a + b).y = a.y + b.y := rfl

@[simp] theorem Vec3.add_z (a b : Vec3) : (a + b).z = a.z + b.z := rfl

@[simp] theorem Vec3.sub_x (a b : Vec3) : (a - b).x = a.x - b.x := rfl

@[simp] theorem Vec3.sub_y (a b : Vec3) : (a - b).y = a.y - b.y := rfl

@[simp] theorem Vec3.sub_z (a b : Vec3) : (a - b).z = a.z - b.z := rfl

@[simp] theorem Vec3.smul_x (c : ℚ) (v : Vec3) : (c • v).x = c * v.x := rfl

@[simp] theorem Vec3.smul_y (c : ℚ) (v : Vec3) : (c • v).y = c * v.y := rfl

@[simp] theorem Vec3.smul_z (c : ℚ) (v : Vec3) : (c • v).z = c * v.z := rfl

@[simp] theorem Vec2.add2_x (a b : Vec2) : (a + b).x = a.x + b.x := rfl

@[simp] theorem Vec2.add2_y (a b : Vec2) : (a + b).y = a.y + b.y := rfl

@[simp] theorem Vec2.sub2_x (a b : Vec2) : (a - b).x = a.x - b.x := rfl

@[simp] theorem Vec2.sub2_y (a b : Vec2) : (a - b).y = a.y - b.y := rfl

theorem Vec3.ext_iff {a b : Vec3} : a = b ↔ a.x = b.x ∧ a.y = b.y ∧ a.z = b.z := by
  constructor
  · intro h; subst h; exact ⟨rfl, rfl, rfl⟩
  · intro h; cases a; cases b; simp_all

/-- Dot product, modelling `vec3::dot`. -/
def dot (a b : Vec3) : ℚ := a.x * b.x + a.y * b.y + a.z * b.z

/-- Squared length, modelling `vec3::len_sqr`. -/
def len_sqr (v : Vec3) : ℚ := dot v v

@[simp] theorem dot_mk (ax ay az bx by_ bz : ℚ) :
    dot ⟨ax, ay, az⟩ ⟨bx, by_, bz⟩ = ax * bx + ay * by_ + az * bz := rfl

@[simp] theorem len_sqr_mk (ax ay az : ℚ) :
    len_sqr ⟨ax, ay, az⟩ = ax * ax + ay * ay + az * az := by
  simp [len_sqr, dot]

theorem len_sqr_sub_comm (a b : Vec3) : len_sqr (a - b) = len_sqr (b - a) := by
  cases a; cases b; simp [len_sqr, dot]; ring

/-- The transcendental `f32` library functions used by the source, left
abstract: `sqrt`, two-argument arctangent (`vec2::arg`, taking the `y`
and `x` components), `cos`, `sin` and pi.  Theorems assume exactly the
properties of these functions that they need. -/
structure FloatOps where
  sqrt : ℚ → ℚ
  arg2 : ℚ → ℚ → ℚ
  cos : ℚ → ℚ
  sin : ℚ → ℚ
  pi : ℚ

/-- geng's `vec3::normalize_or_zero`: the zero vector is returned for a
vector of zero length, otherwise the vector divided by its length. -/
def normalize_or_zero (ops : FloatOps) (v : Vec3) : Vec3 :=
  let len := ops.sqrt (len_sqr v)
  if len = 0 then ⟨0, 0, 0⟩ else (1 / len) • v

/-- `Triangle` of `geometry.rs`: three vertices plus the derived unit
normal. -/
structure Triangle where
  v1 : Vec3
  v2 : Vec3
  v3 : Vec3
  normal : Vec3
deriving DecidableEq, Repr

/-- Cross product of two vectors, as written inline in `Triangle::new`. -/
def cross (ab ac : Vec3) : Vec3 :=
  ⟨ab.y * ac.z - ab.z * ac.y, ab.z * ac.x - ab.x * ac.z, ab.x * ac.y - ab.y * ac.x⟩

/-- `Triangle::new`: stores the vertices and the normalised cross product
of the two edges. -/
def Triangle.new (ops : FloatOps) (a b c : Vec3) : Triangle :=
  ⟨a, b, c, normalize_or_zero ops (cross (b - a) (c - a))⟩

/-- `Plane` of `geometry.rs`: a (not necessarily unit) normal and a scalar
offset. -/
structure Plane where
  normal : Vec3
  offset : ℚ
deriving DecidableEq, Repr

/-- `CrossSectionVertex`: a world point on the plane plus its 2-D
projection into the plane's local frame. -/
structure CrossSectionVertex where
  world_pos : Vec3
  projected : Vec2
deriving DecidableEq, Repr

/-- `Plane::distance`: signed distance of a point, using the re-normalised
normal. -/
def Plane.distance (ops : FloatOps) (P : Plane) (p : Vec3) : ℚ :=
  dot (normalize_or_zero ops P.normal) p - P.offset

/-- `Plane::project`: drop the point onto the plane along the normal. -/
def Plane.project (ops : FloatOps) (P : Plane) (p : Vec3) : Vec3 :=
  p - (P.distance ops p) • normalize_or_zero ops P.normal

/-- Rotation about the z axis (the linear part of `mat4::rotate_z`),
given the cosine and sine of the angle. -/
def rotZ (c s : ℚ) (v : Vec3) : Vec3 := ⟨c * v.x - s * v.y, s * v.x + c * v.y, v.z⟩

/-- Rotation about the y axis (the linear part of `mat4::rotate_y`),
given the cosine and sine of the angle. -/
def rotY (c s : ℚ) (v : Vec3) : Vec3 := ⟨c * v.x + s * v.z, v.y, -s * v.x + c * v.z⟩

/-- The affine map of `Plane::matrix` applied to a point:
`rotate_z(-rot_v) * rotate_y(rot_h) * translate(-normal.normalize_or_zero() * offset)`.
The 4x4 matrix of the source is modelled by the map it represents. -/
def Plane.matrix_apply (ops : FloatOps) (P : Plane) (p : Vec3) : Vec3 :=
  let flat : Vec2 := ⟨P.normal.x, P.normal.z⟩
  let rot_h := ops.arg2 flat.y flat.x
  let rot_v := ops.arg2 P.normal.y (ops.sqrt (flat.x * flat.x + flat.y * flat.y))
  let t := p - P.offset • normalize_or_zero ops P.normal
  rotZ (ops.cos (-rot_v)) (ops.sin (-rot_v)) (rotY (ops.cos rot_h) (ops.sin rot_h) t)

/-- `Plane::project2d`: project onto the plane, apply the plane's matrix,
and keep the `(z, y)` coordinates. -/
def Plane.project2d (ops : FloatOps) (P : Plane) (p : Vec3) : Vec2 :=
  let q := P.matrix_apply ops (P.project ops p)
  ⟨q.z, q.y⟩

/-- The epsilon `1e-5` used by `intersect_segment` and the cross-section
deduplication. -/
def eps : ℚ := 1 / 100000

/-- `Plane::intersect_segment`: reject near-parallel segments, otherwise
interpolate and accept only a parameter in `[0, 1]`. -/
def Plane.intersect_segment (ops : FloatOps) (P : Plane) (p1 p2 : Vec3) : Option Vec3 :=
  let d1 := P.distance ops p1
  let d2 := P.distance ops p2
  if |d1 - d2| < eps then none
  else
    let t := d1 / (d1 - d2)
    if 0 ≤ t ∧ t ≤ 1 then some (p1 + t • (p2 - p1)) else none

theorem Plane.intersect_segment_def (ops : FloatOps) (P : Plane) (p1 p2 : Vec3) :
    P.intersect_segment ops p1 p2 =
      (if |P.distance ops p1 - P.distance ops p2| < eps then none
       else if 0 ≤ P.distance ops p1 / (P.distance ops p1 - P.distance ops p2) ∧
                P.distance ops p1 / (P.distance ops p1 - P.distance ops p2) ≤ 1
         then some (p1 +
           (P.distance ops p1 / (P.distance ops p1 - P.distance ops p2)) • (p2 - p1))
         else none) := rfl

attribute [irreducible] Plane.intersect_segment

/-- `Plane::intersect_triangle`: collect the accepted edge intersections
of the three edges `(a,b)`, `(a,c)`, `(b,c)`; a pair is produced exactly
when two points were collected. -/
def Plane.intersect_triangle (ops : FloatOps) (P : Plane) (T : Triangle) :
    Option (Vec3 × Vec3) :=
  let pts := [(T.v1, T.v2), (T.v1, T.v3), (T.v2, T.v3)].filterMap
    (fun e => P.intersect_segment ops e.1 e.2)
  match pts with
  | [a, b] => some (a, b)
  | _ => none

/-- One step of the deduplicating accumulation inside `cross_sect`: a
point within squared distance `1e-5` of an already collected point is
dropped, otherwise it is appended together with its projection. -/
def dedup_push (ops : FloatOps) (P : Plane) (acc : List CrossSectionVertex) (p : Vec3) :
    List CrossSectionVertex :=
  if acc.any (fun q => len_sqr (q.world_pos - p) < eps) then acc
  else acc ++ [⟨p, P.project2d ops p⟩]

/-- The point-collection loop of `Plane::cross_sect`, before sorting. -/
def Plane.cross_sect_points (ops : FloatOps) (P : Plane) (tris : List Triangle) :
    List CrossSectionVertex :=
  tris.foldl
    (fun acc T =>
      match P.intersect_triangle ops T with
      | some (a, b) => dedup_push ops P (dedup_push ops P acc a) b
      | none => acc)
    []

/-- Stable insertion into a list sorted by a rational key (ascending). -/
def insertK {α : Type} (f : α → ℚ) (x : α) : List α → List α
  | [] => [x]
  | y :: ys => if f y ≤ f x then y :: insertK f x ys else x :: y :: ys

/-- Stable sort by a rational key (ascending), modelling `sort_by_key`. -/
def sortK {α : Type} (f : α → ℚ) : List α → List α
  | [] => []
  | x :: xs => insertK f x (sortK f xs)

theorem insertK_perm {α : Type} (f : α → ℚ) (x : α) (l : List α) :
    (insertK f x l).Perm (x :: l) := by
  induction l with
  | nil => simp [insertK]
  | cons y ys ih =>
    simp only [insertK]
    by_cases h : f y ≤ f x
    · rw [if_pos h]
      exact ((ih.cons y).trans (List.Perm.swap x y ys))
    · rw [if_neg h]

theorem sortK_perm {α : Type} (f : α → ℚ) (l : List α) : (sortK f l).Perm l := by
  induction l with
  | nil => simp [sortK]
  | cons x xs ih =>
    exact (insertK_perm f x (sortK f xs)).trans (ih.cons x)

/-- `Plane::cross_sect`: collect deduplicated intersection points, then,
if any were found, sort them by descending polar angle of the projection
around the projected centre of mass. -/
def Plane.cross_sect (ops : FloatOps) (P : Plane) (tris : List Triangle) :
    List CrossSectionVertex :=
  let points := P.cross_sect_points ops tris
  if points.isEmpty then points
  else
    let com := (1 / (points.length : ℚ)) •
      (points.foldl (fun s p => s + p.projected) ⟨0, 0⟩)
    sortK (fun p => -(ops.arg2 (p.projected.y - com.y) (p.projected.x - com.x))) points

theorem cross_sect_map_world (ops : FloatOps) (P : Plane) (tris : List Triangle) :
    ((P.cross_sect ops tris).map CrossSectionVertex.world_pos).Perm
      ((P.cross_sect_points ops tris).map CrossSectionVertex.world_pos) := by
  unfold Plane.cross_sect
  by_cases h : (P.cross_sect_points ops tris).isEmpty
  · simp [h]
  · simp only [h, if_neg, Bool.false_eq_true, if_false]
    exact (sortK_perm _ _).map CrossSectionVertex.world_pos

/-- The eight corners of `unit_cube()`, in the order produced by
`array_flatten` of the two squares. -/
def unit_cube : List Vec3 :=
  [⟨-1, -1, -1⟩, ⟨1, -1, -1⟩, ⟨-1, 1, -1⟩, ⟨1, 1, -1⟩,
   ⟨-1, -1, 1⟩, ⟨1, -1, 1⟩, ⟨-1, 1, 1⟩, ⟨1, 1, 1⟩]

/-- The triangle index list of `unit_cube_triangulated`. -/
def cube_indices : List (ℕ × ℕ × ℕ) :=
  [(0, 3, 1), (0, 2, 3), (0, 5, 4), (0, 1, 5), (1, 7, 5), (1, 3, 7),
   (2, 4, 6), (2, 0, 4), (3, 6, 7), (3, 2, 6), (4, 7, 6), (4, 5, 7)]

/-- The twelve triangles of `unit_cube_triangulated` (the source flattens
them into a vertex list whose consecutive triples are exactly these
triangles; the draw code regroups them unchanged). -/
def unit_cube_triangulated (ops : FloatOps) : List Triangle :=
  cube_indices.map (fun ijk =>
    Triangle.new ops (unit_cube.getD ijk.1 ⟨0, 0, 0⟩)
      (unit_cube.getD ijk.2.1 ⟨0, 0, 0⟩) (unit_cube.getD ijk.2.2 ⟨0, 0, 0⟩))

/-- A live `Object`: position, free orientation vector, roll angle
(radians), uniform scale and a palette colour (the shared prefab mesh
reference is the single cube prefab in both binaries and is omitted). -/
structure Obj where
  position : Vec3
  orientation : Vec3
  roll : ℚ
  scale : ℚ
  color : ℕ
deriving DecidableEq, Repr

/-- geng's `vec2::rotate`, given the angle in radians. -/
def rotate2 (ops : FloatOps) (v : Vec2) (a : ℚ) : Vec2 :=
  ⟨v.x * ops.cos a - v.y * ops.sin a, v.x * ops.sin a + v.y * ops.cos a⟩

/-- `Object::rotate_y`: rotate the horizontal components of the
orientation vector, keeping the vertical component. -/
def Obj.rotate_y (ops : FloatOps) (o : Obj) (a : ℚ) : Obj :=
  let flat := rotate2 ops ⟨o.orientation.x, o.orientation.z⟩ a
  { o with orientation := ⟨flat.x, o.orientation.y, flat.y⟩ }

/-- `Angle::from_degrees`, producing radians. -/
def from_degrees (ops : FloatOps) (d : ℚ) : ℚ := d * ops.pi / 180

/-- The per-object integration step of `State::update`:
`position += UNIT_Z * 0.5 * delta_time; rotate_y(45 deg * delta_time)`. -/
def integrate (ops : FloatOps) (dt : ℚ) (o : Obj) : Obj :=
  Obj.rotate_y ops
    { o with position := o.position + ((1 / 2) * dt) • (⟨0, 0, 1⟩ : Vec3) }
    (from_degrees ops (45 * dt))

/-- The random source: an abstract stream of draws `g` consumed at an
index.  `rng.gen_range(a..=b)` maps one raw draw into `[a, b]`. -/
def gen_range (g : ℕ → ℚ) (i : ℕ) (a b : ℚ) : ℚ × ℕ :=
  (a + (b - a) * g i, i + 1)

/-- `slice::choose`: `None` on an empty slice, otherwise one draw picks an
index. -/
def chooseL {α : Type} (g : ℕ → ℚ) (i : ℕ) (l : List α) : Option α × ℕ :=
  if l.isEmpty then (none, i)
  else (l.get? (min (l.length - 1) (Int.toNat ⌊g i * (l.length : ℚ)⌋)), i + 1)

/-- The separation test of the spawn rejection loop: is the candidate
closer than `(scale + obj.scale) * 1.74` to some live object? -/
def conflict (ops : FloatOps) (objs : List Obj) (scale : ℚ) (pos : Vec3) : Bool :=
  objs.any (fun o =>
    ops.sqrt (len_sqr (pos - o.position)) < (scale + o.scale) * (174 / 100))

/-- The `for _ in 0..5` placement loop: while attempts remain, a
conflicting candidate is redrawn, a clear one is accepted; after the
attempts are exhausted the spawn is abandoned. -/
def try_place (ops : FloatOps) (objs : List Obj) (scale : ℚ)
    (draw : ℕ → Vec3 × ℕ) : ℕ → Vec3 → ℕ → Option Vec3 × ℕ
  | 0, _, i => (none, i)
  | Nat.succ n, pos, i =>
    if conflict ops objs scale pos then
      let d := draw i
      try_place ops objs scale draw n d.1 d.2
    else (some pos, i)

/-- `random_spawn` of `main.rs`: uniform in `[-7, 7]` squared, at depth
`z = -5`. -/
def random_spawn_main (g : ℕ → ℚ) (i : ℕ) : Vec3 × ℕ :=
  let r1 := gen_range g i (-7) 7
  let r2 := gen_range g r1.2 (-7) 7
  (⟨r1.1, r2.1, -5⟩, r2.2)

/-- Object instantiation after a successful placement: random
orientation in `[-1, 1]` per axis, random roll in `[0, 360]` degrees, a
palette colour (white `0` if the palette is empty). -/
def instantiate (ops : FloatOps) (g : ℕ → ℚ) (palette : List ℕ)
    (pos : Vec3) (scale : ℚ) (i : ℕ) : Obj × ℕ :=
  let r1 := gen_range g i (-1) 1
  let r2 := gen_range g r1.2 (-1) 1
  let r3 := gen_range g r2.2 (-1) 1
  let r4 := gen_range g r3.2 0 360
  let c := chooseL g r4.2 palette
  ({ position := pos, orientation := ⟨r1.1, r2.1, r3.1⟩,
     roll := from_degrees ops r4.1, scale := scale, color := c.1.getD 0 }, c.2)

/-- One spawn attempt of `main.rs` (the body of one drain iteration after
the countdown increment): choose the prefab (the single cube), draw a
scale, run the placement loop, and push the new object on success. -/
def spawn_attempt_main (ops : FloatOps) (g : ℕ → ℚ) (palette : List ℕ)
    (objs : List Obj) (i : ℕ) : List Obj × ℕ :=
  let pf := chooseL g i [()]
  match pf.1 with
  | none => (objs, pf.2)
  | some _ =>
    let rs := gen_range g pf.2 (3 / 10) 1
    let p0 := random_spawn_main g rs.2
    let pl := try_place ops objs rs.1 (random_spawn_main g) 5 p0.1 p0.2
    match pl.1 with
    | none => (objs, pl.2)
    | some pos =>
      let oi := instantiate ops g palette pos rs.1 pl.2
      (objs ++ [oi.1], oi.2)

/-- The countdown drain loop of `main.rs`: while the countdown is
negative, advance it by `gen_range(0..=1).sqr() * 0.4 + 0.1` and run one
spawn attempt. -/
def drain_main (ops : FloatOps) (g : ℕ → ℚ) (palette : List ℕ)
    (t : ℚ) (objs : List Obj) (i : ℕ) : ℚ × List Obj × ℕ :=
  if h : t < 0 then
    let ru := gen_range g i 0 1
    let so := spawn_attempt_main ops g palette objs ru.2
    drain_main ops g palette (t + ru.1 ^ 2 * (2 / 5) + 1 / 10) so.1 so.2
  else (t, objs, i)
termination_by (⌈-t * 10⌉).toNat
decreasing_by
  have hq : -(t + (gen_range g i 0 1).1 ^ 2 * (2 / 5) + 1 / 10) * 10 ≤ -t * 10 - 1 := by
    nlinarith [sq_nonneg ((gen_range g i 0 1).1)]
  have h1 : ⌈-(t + (gen_range g i 0 1).1 ^ 2 * (2 / 5) + 1 / 10) * 10⌉ ≤ ⌈-t * 10 - 1⌉ :=
    Int.ceil_mono hq
  rw [Int.ceil_sub_one] at h1
  have h2 : (0 : ℤ) < ⌈-t * 10⌉ := by
    rw [Int.lt_iff_add_one_le, Int.le_ceil_iff]
    · push_cast; linarith
  omega

/-- `main.rs` simulation state (the camera, handled outside the
simulation core, is not modelled). -/
structure SimStateM where
  simulation_time : ℚ
  next_spawn : ℚ
  objects : List Obj
  paused : Bool
deriving DecidableEq, Repr

/-- `handle_event` on a `P` key press: toggle the pause flag. -/
def handle_event_p (s : SimStateM) : SimStateM := { s with paused := !s.paused }

/-- The integration-and-culling tail of `main.rs`'s update: drift along
`UNIT_Z`, rotate, then retain objects with `position.z < 5.0`. -/
def integrate_cull_main (ops : FloatOps) (dt : ℚ) (objs : List Obj) : List Obj :=
  (objs.map (integrate ops dt)).filter (fun o => o.position.z < 5)

/-- `State::update` of `main.rs`: when paused, the whole simulation step
(clock, spawn drain, integration, culling) is skipped; the always-run
camera handling is outside the modelled core. -/
def update_main (ops : FloatOps) (g : ℕ → ℚ) (palette : List ℕ)
    (dt : ℚ) (s : SimStateM) (i : ℕ) : SimStateM × ℕ :=
  if s.paused then (s, i)
  else
    let dr := drain_main ops g palette (s.next_spawn - dt) s.objects i
    ({ simulation_time := s.simulation_time + dt, next_spawn := dr.1,
       objects := integrate_cull_main ops dt dr.2.1, paused := s.paused }, dr.2.2)

/-- `state.rs` simulation state: no pause flag, and the viewport-derived
spawn region depends on the stored framebuffer size. -/
structure SimStateS where
  simulation_time : ℚ
  next_spawn : ℚ
  objects : List Obj
  fbw : ℚ
  fbh : ℚ
deriving DecidableEq, Repr

/-- `State::view` of `state.rs`: the camera is centred at the origin with
horizontal fov 17, extended symmetrically. -/
def viewS (s : SimStateS) : Vec2 × Vec2 :=
  let vx : ℚ := 17
  let vy : ℚ := 17 / (s.fbw / s.fbh)
  (⟨-vx, -vy⟩, ⟨vx, vy⟩)

/-- `random_spawn` of `state.rs`: uniform in the view rectangle at the
scale-derived depth. -/
def random_spawn_state (vmin vmax : Vec2) (z : ℚ) (g : ℕ → ℚ) (i : ℕ) : Vec3 × ℕ :=
  let r1 := gen_range g i vmin.x vmax.x
  let r2 := gen_range g r1.2 vmin.y vmax.y
  (⟨r1.1, r2.1, z⟩, r2.2)

/-- One spawn attempt of `state.rs`: like `main.rs` but the candidate
depth is `-scale * 2` and the candidate rectangle is the view. -/
def spawn_attempt_state (ops : FloatOps) (g : ℕ → ℚ) (palette : List ℕ)
    (vmin vmax : Vec2) (objs : List Obj) (i : ℕ) : List Obj × ℕ :=
  let pf := chooseL g i [()]
  match pf.1 with
  | none => (objs, pf.2)
  | some _ =>
    let rs := gen_range g pf.2 (3 / 10) 1
    let p0 := random_spawn_state vmin vmax (-(rs.1 * 2)) g rs.2
    let pl := try_place ops objs rs.1 (random_spawn_state vmin vmax (-(rs.1 * 2)) g) 5 p0.1 p0.2
    match pl.1 with
    | none => (objs, pl.2)
    | some pos =>
      let oi := instantiate ops g palette pos rs.1 pl.2
      (objs ++ [oi.1], oi.2)

/-- The countdown drain loop of `state.rs`: fixed `0.1` increment. -/
def drain_state (ops : FloatOps) (g : ℕ → ℚ) (palette : List ℕ) (vmin vmax : Vec2)
    (t : ℚ) (objs : List Obj) (i : ℕ) : ℚ × List Obj × ℕ :=
  if h : t < 0 then
    let so := spawn_attempt_state ops g palette vmin vmax objs i
    drain_state ops g palette vmin vmax (t + 1 / 10) so.1 so.2
  else (t, objs, i)
termination_by (⌈-t * 10⌉).toNat
decreasing_by
  have hq : -(t + 1 / 10) * 10 ≤ -t * 10 - 1 := by linarith
  have h1 : ⌈-(t + 1 / 10) * 10⌉ ≤ ⌈-t * 10 - 1⌉ := Int.ceil_mono hq
  rw [Int.ceil_sub_one] at h1
  have h2 : (0 : ℤ) < ⌈-t * 10⌉ := by
    rw [Int.lt_iff_add_one_le, Int.le_ceil_iff]
    · push_cast; linarith
  omega

/-- The integration-and-culling tail of `state.rs`'s update: drift,
rotate, then retain objects with `position.z < scale * 2.0`. -/
def integrate_cull_state (ops : FloatOps) (dt : ℚ) (objs : List Obj) : List Obj :=
  (objs.map (integrate ops dt)).filter (fun o => o.position.z < o.scale * 2)

/-- `State::update` of `state.rs`. -/
def update_state (ops : FloatOps) (g : ℕ → ℚ) (palette : List ℕ)
    (dt : ℚ) (s : SimStateS) (i : ℕ) : SimStateS × ℕ :=
  let v := viewS s
  let dr := drain_state ops g palette v.1 v.2 (s.next_spawn - dt) s.objects i
  ({ s with simulation_time := s.simulation_time + dt,
            next_spawn := dr.1,
            objects := integrate_cull_state ops dt dr.2.1 }, dr.2.2)

/-- The horizontal mirroring applied by `draw_flat_section`. -/
def mirror_x (v : Vec2) : Vec2 := ⟨-v.x, v.y⟩

/-- The point chain built by `draw_flat_section` and handed to the 2-D
chain renderer: `none` models the early return for fewer than 3 points;
otherwise the mirrored projections, with the original first point and
the midpoint of the first two appended, and the first entry replaced by
that midpoint. -/
def flat_section_chain (cs : List CrossSectionVertex) : Option (List Vec2) :=
  if cs.length < 3 then none
  else
    let chain := cs.map (fun v => mirror_x v.projected)
    let c0 := chain.getD 0 ⟨0, 0⟩
    let c1 := chain.getD 1 ⟨0, 0⟩
    let mid := ((1 : ℚ) / 2) • (c0 + c1)
    some ((chain ++ [c0, mid]).set 0 mid)

/-- A concrete instance of the abstract float operations (exact on the
inputs the witnesses use: `sqrt 0 = 0`, `sqrt 1 = 1`, and constant
cosine/sine satisfying the addition identities), used to instantiate
hypothesis-bearing theorems at specific inputs. -/
def ops0 : FloatOps :=
  { sqrt := fun q => if q = 1 then 1 else 0,
    arg2 := fun _ _ => 0,
    cos := fun _ => 1,
    sin := fun _ => 0,
    pi := 0 }

/-- A concrete random stream for witnesses. -/
def g0 : ℕ → ℚ := fun _ => 0

theorem distance_unit_x (ops : FloatOps) (hs : ops.sqrt 1 = 1) (k : ℚ) (v : Vec3) :
    Plane.distance ops ⟨⟨1, 0, 0⟩, k⟩ v = v.x - k := by
  simp [Plane.distance, normalize_or_zero, hs, dot]

theorem distance_unit_y (ops : FloatOps) (hs : ops.sqrt 1 = 1) (k : ℚ) (v : Vec3) :
    Plane.distance ops ⟨⟨0, 1, 0⟩, k⟩ v = v.y - k := by
  simp [Plane.distance, normalize_or_zero, hs, dot]

theorem distance_unit_z (ops : FloatOps) (hs : ops.sqrt 1 = 1) (k : ℚ) (v : Vec3) :
    Plane.distance ops ⟨⟨0, 0, 1⟩, k⟩ v = v.z - k := by
  simp [Plane.distance, normalize_or_zero, hs, dot]

theorem intersect_segment_of_dist_eq (ops : FloatOps) (P : Plane) {p1 p2 : Vec3}
    (h : P.distance ops p1 = P.distance ops p2) :
    P.intersect_segment ops p1 p2 = none := by
  norm_num [Plane.intersect_segment_def, h, eps]

/-- C2: `intersect_triangle` yields a pair exactly when exactly 2 of the
3 edges produce an accepted segment intersection; with 0, 1 or 3
accepted edges — in particular for a triangle whose three vertices are
all at the same distance, e.g. one coplanar with the plane — it yields
`none`. -/
theorem claim_c2 (ops : FloatOps) (P : Plane) (T : Triangle) :
    ((P.intersect_triangle ops T).isSome ↔
      [(T.v1, T.v2), (T.v1, T.v3), (T.v2, T.v3)].countP
        (fun e => (P.intersect_segment ops e.1 e.2).isSome) = 2) ∧
    ((P.distance ops T.v1 = P.distance ops T.v2 ∧
        P.distance ops T.v2 = P.distance ops T.v3) →
      P.intersect_triangle ops T = none) := by
  constructor
  · cases h1 : P.intersect_segment ops T.v1 T.v2 <;>
      cases h2 : P.intersect_segment ops T.v1 T.v3 <;>
        cases h3 : P.intersect_segment ops T.v2 T.v3 <;>
          (unfold Plane.intersect_triangle;
           simp [List.filterMap_cons, h1, h2, h3, List.countP_cons])
  · rintro ⟨h12, h23⟩
    have h13 : P.distance ops T.v1 = P.distance ops T.v3 := h12.trans h23
    unfold Plane.intersect_triangle
    simp [List.filterMap_cons,
      intersect_segment_of_dist_eq ops P h12,
      intersect_segment_of_dist_eq ops P h13,
      intersect_segment_of_dist_eq ops P h23]

/-- C2 witness: a concrete triangle straddling the plane `z = 0` has
exactly two accepted edges and produces a pair; a coplanar one produces
`none`. -/
theorem claim_c2_witness :
    ((Plane.intersect_triangle ops0 ⟨⟨0, 0, 1⟩, 0⟩
        (Triangle.new ops0 ⟨0, 0, -1⟩ ⟨0, 0, 1⟩ ⟨2, 0, 1⟩)).isSome ↔
      [((⟨0, 0, -1⟩ : Vec3), (⟨0, 0, 1⟩ : Vec3)), (⟨0, 0, -1⟩, ⟨2, 0, 1⟩),
        (⟨0, 0, 1⟩, ⟨2, 0, 1⟩)].countP
        (fun e => (Plane.intersect_segment ops0 ⟨⟨0, 0, 1⟩, 0⟩ e.1 e.2).isSome) = 2) ∧
    Plane.intersect_triangle ops0 ⟨⟨0, 0, 1⟩, 0⟩
      (Triangle.new ops0 ⟨0, 0, 5⟩ ⟨1, 0, 5⟩ ⟨0, 1, 5⟩) = none := by
  constructor
  · exact (claim_c2 ops0 ⟨⟨0, 0, 1⟩, 0⟩
      (Triangle.new ops0 ⟨0, 0, -1⟩ ⟨0, 0, 1⟩ ⟨2, 0, 1⟩)).1
  · exact (claim_c2 ops0 ⟨⟨0, 0, 1⟩, 0⟩
      (Triangle.new ops0 ⟨0, 0, 5⟩ ⟨1, 0, 5⟩ ⟨0, 1, 5⟩)).2
      (by norm_num [Triangle.new, distance_unit_z ops0 rfl, normalize_or_zero, cross])

/-- C5: on the plane with normal `(1,0,0)` and offset `k`, the segment
from `(0,y,z)` to `(10,y,z)` intersects exactly at `(k,y,z)` when
`0 ≤ k ≤ 10`, and not at all when `k < 0` or `k > 10`. -/
theorem claim_c5 (ops : FloatOps) (hs : ops.sqrt 1 = 1) (y z k : ℚ) :
    (0 ≤ k ∧ k ≤ 10 →
      Plane.intersect_segment ops ⟨⟨1, 0, 0⟩, k⟩ ⟨0, y, z⟩ ⟨10, y, z⟩ =
        some ⟨k, y, z⟩) ∧
    (k < 0 ∨ 10 < k →
      Plane.intersect_segment ops ⟨⟨1, 0, 0⟩, k⟩ ⟨0, y, z⟩ ⟨10, y, z⟩ = none) := by
  have hd1 : Plane.distance ops ⟨⟨1, 0, 0⟩, k⟩ ⟨0, y, z⟩ = 0 - k :=
    distance_unit_x ops hs k ⟨0, y, z⟩
  have hd2 : Plane.distance ops ⟨⟨1, 0, 0⟩, k⟩ ⟨10, y, z⟩ = 10 - k :=
    distance_unit_x ops hs k ⟨10, y, z⟩
  have habs : ¬(|Plane.distance ops ⟨⟨1, 0, 0⟩, k⟩ ⟨0, y, z⟩ -
      Plane.distance ops ⟨⟨1, 0, 0⟩, k⟩ ⟨10, y, z⟩| < eps) := by
    rw [hd1, hd2, show (0 - k) - (10 - k) = (-10 : ℚ) by ring]
    norm_num [eps]
  have ht : Plane.distance ops ⟨⟨1, 0, 0⟩, k⟩ ⟨0, y, z⟩ /
      (Plane.distance ops ⟨⟨1, 0, 0⟩, k⟩ ⟨0, y, z⟩ -
        Plane.distance ops ⟨⟨1, 0, 0⟩, k⟩ ⟨10, y, z⟩) = k / 10 := by
    rw [hd1, hd2, show (0 - k) - (10 - k) = (-10 : ℚ) by ring,
      show (0 : ℚ) - k = -k by ring, neg_div_neg_eq]
  constructor
  · rintro ⟨hk0, hk10⟩
    rw [Plane.intersect_segment_def, if_neg habs, ht,
      if_pos ⟨by positivity, by linarith⟩]
    congr 1
    rw [Vec3.ext_iff]
    refine ⟨?_, ?_, ?_⟩ <;> simp <;> ring
  · intro hk
    rw [Plane.intersect_segment_def, if_neg habs, ht, if_neg]
    rintro ⟨hc0, hc1⟩
    rcases hk with hk | hk
    · nlinarith
    · nlinarith

/-- C5 witness: at `k = 3` the intersection is `(3, 5, 7)`; at `k = 12`
there is none. -/
theorem claim_c5_witness :
    Plane.intersect_segment ops0 ⟨⟨1, 0, 0⟩, 3⟩ ⟨0, 5, 7⟩ ⟨10, 5, 7⟩ = some ⟨3, 5, 7⟩ ∧
    Plane.intersect_segment ops0 ⟨⟨1, 0, 0⟩, 12⟩ ⟨0, 5, 7⟩ ⟨10, 5, 7⟩ = none := by
  constructor
  · exact (claim_c5 ops0 rfl 5 7 3).1 (by norm_num)
  · exact (claim_c5 ops0 rfl 5 7 12).2 (by norm_num)

/-- C6 (amended): whenever the square root of the normal's squared
length is faithful (its square gives back the squared length) and
nonzero — which is the case of every nonzero normal under the real
square root — the projected point lies exactly on the plane.  The
degenerate zero normal, which `normalize_or_zero` maps to the zero
vector, is excluded: see the counterexample. -/
theorem claim_c6_amended (ops : FloatOps) (P : Plane) (p : Vec3)
    (h1 : ops.sqrt (len_sqr P.normal) ^ 2 = len_sqr P.normal)
    (h2 : ops.sqrt (len_sqr P.normal) ≠ 0) :
    P.distance ops (P.project ops p) = 0 := by
  obtain ⟨⟨nx, ny, nz⟩, off⟩ := P
  obtain ⟨px, py, pz⟩ := p
  simp only [len_sqr_mk] at h1 h2
  simp only [Plane.distance, Plane.project, normalize_or_zero, len_sqr_mk]
  rw [if_neg h2]
  simp only [Vec3.smul_mk, Vec3.sub_mk, Vec3.add_mk, dot_mk]
  field_simp
  linear_combination (nx * px + ny * py + nz * pz -
    ops.sqrt (nx * nx + ny * ny + nz * nz) * off) * h1

/-- C6 counterexample: for the plane with the zero normal and offset 1
(a "plane" the claim's universal quantification over normals includes),
the projected point is the input point itself and its distance is -1,
not 0. -/
theorem claim_c6_counterexample :
    Plane.distance ops0 ⟨⟨0, 0, 0⟩, 1⟩
      (Plane.project ops0 ⟨⟨0, 0, 0⟩, 1⟩ ⟨2, 3, 4⟩) ≠ 0 := by
  norm_num [Plane.distance, Plane.project, normalize_or_zero, len_sqr, dot, ops0]

/-- C6 witness: a plane with unit normal `(1,0,0)` and offset 5
satisfies the amended hypotheses under `ops0`, and projection of
`(10, 2, 1)` indeed lands at distance 0. -/
theorem claim_c6_witness :
    ops0.sqrt (len_sqr (⟨1, 0, 0⟩ : Vec3)) ^ 2 = len_sqr (⟨1, 0, 0⟩ : Vec3) ∧
    ops0.sqrt (len_sqr (⟨1, 0, 0⟩ : Vec3)) ≠ 0 ∧
    Plane.distance ops0 ⟨⟨1, 0, 0⟩, 5⟩
      (Plane.project ops0 ⟨⟨1, 0, 0⟩, 5⟩ ⟨10, 2, 1⟩) = 0 := by
  refine ⟨by norm_num [ops0], by norm_num [ops0], ?_⟩
  exact claim_c6_amended ops0 ⟨⟨1, 0, 0⟩, 5⟩ ⟨10, 2, 1⟩
    (by norm_num [ops0]) (by norm_num [ops0])

theorem integrate_position (ops : FloatOps) (dt : ℚ) (o : Obj) :
    (integrate ops dt o).position = o.position + ((1 / 2) * dt) • (⟨0, 0, 1⟩ : Vec3) := by
  simp [integrate, Obj.rotate_y]

theorem integrate_position_z (ops : FloatOps) (dt : ℚ) (o : Obj) :
    (integrate ops dt o).position.z = o.position.z + (1 / 2) * dt := by
  rw [integrate_position]
  simp

theorem integrate_scale (ops : FloatOps) (dt : ℚ) (o : Obj) :
    (integrate ops dt o).scale = o.scale := by
  simp [integrate, Obj.rotate_y]

/-- C3 (amended): the two binaries cull differently.  In `state.rs` the
threshold is proportional to the object's own scale: after integration
an object survives the update's culling exactly when its travel-axis
coordinate `z + dt/2` is below `scale * 2`.  In `main.rs` the threshold
is the constant `5.0`, independent of scale: the object survives exactly
when `z + dt/2 < 5` (see the counterexample for why the claim as stated
fails there). -/
theorem claim_c3_amended (ops : FloatOps) (dt : ℚ) (o : Obj) :
    (integrate_cull_state ops dt [o] = [integrate ops dt o] ↔
      o.position.z + (1 / 2) * dt < o.scale * 2) ∧
    (integrate_cull_state ops dt [o] = [] ↔
      o.scale * 2 ≤ o.position.z + (1 / 2) * dt) ∧
    (integrate_cull_main ops dt [o] = [integrate ops dt o] ↔
      o.position.z + (1 / 2) * dt < 5) ∧
    (integrate_cull_main ops dt [o] = [] ↔ 5 ≤ o.position.z + (1 / 2) * dt) := by
  refine ⟨?_, ?_, ?_, ?_⟩
  · by_cases h : o.position.z + 1 / 2 * dt < o.scale * 2 <;>
      simp [integrate_cull_state, List.filter_cons, integrate_position_z,
        integrate_scale, h]
  · by_cases h : o.position.z + 1 / 2 * dt < o.scale * 2 <;>
      simp [integrate_cull_state, List.filter_cons, integrate_position_z,
        integrate_scale, h, not_lt.mp, le_of_not_lt] <;> linarith
  · by_cases h : o.position.z + 1 / 2 * dt < (5 : ℚ) <;>
      simp [integrate_cull_main, List.filter_cons, integrate_position_z,
        integrate_scale, h]
  · by_cases h : o.position.z + 1 / 2 * dt < (5 : ℚ) <;>
      simp [integrate_cull_main, List.filter_cons, integrate_position_z,
        integrate_scale, h] <;> linarith

/-- C3 counterexample: in `main.rs` there is no constant of
proportionality `c` for which "removed exactly when the travel-axis
coordinate passed `c * scale`" describes the culling: an object of scale
0.3 at `z = 2` is retained (2 < 5 but 2 is far past any `c * 0.3` that
would explain removal of the next object), while an object of scale 1
at `z = 6` is removed. -/
theorem claim_c3_counterexample :
    ¬ ∃ c : ℚ, ∀ o : Obj,
      (integrate_cull_main ops0 0 [o] = [] ↔
        c * o.scale ≤ (integrate ops0 0 o).position.z) := by
  rintro ⟨c, h⟩
  have h1 := h ⟨⟨0, 0, 2⟩, ⟨1, 0, 0⟩, 0, 3 / 10, 0⟩
  have h2 := h ⟨⟨0, 0, 6⟩, ⟨1, 0, 0⟩, 0, 1, 0⟩
  rw [integrate_position_z] at h1 h2
  norm_num [integrate_cull_main, List.filter_cons, integrate_position_z] at h1 h2
  linarith

/-- C9: for a cross-section of at least 3 points, the chain handed to
the 2-D renderer has `n + 2` entries: entry 0 is the midpoint of the
first two mirrored projections, entries 1 through `n-1` are the mirrored
projections unchanged, entry `n` is the original first mirrored
projection, entry `n+1` is the midpoint again; fewer than 3 points
produce no chain at all. -/
theorem claim_c9 (cs : List CrossSectionVertex) :
    (cs.length < 3 → flat_section_chain cs = none) ∧
    (3 ≤ cs.length →
      ∃ l, flat_section_chain cs = some l ∧
        (let q := cs.map (fun v => mirror_x v.projected)
         let mid := ((1 : ℚ) / 2) • (q.getD 0 ⟨0, 0⟩ + q.getD 1 ⟨0, 0⟩)
         l.length = cs.length + 2 ∧
         l.get? 0 = some mid ∧
         (∀ j, 1 ≤ j → j < cs.length → l.get? j = q.get? j) ∧
         l.get? cs.length = some (q.getD 0 ⟨0, 0⟩) ∧
         l.get? (cs.length + 1) = some mid)) := by
  constructor
  · intro h
    simp [flat_section_chain, h]
  · intro h
    rcases cs with _ | ⟨a, _ | ⟨b, _ | ⟨c, rest⟩⟩⟩
    · simp at h
    · simp at h
    · simp at h
    · refine ⟨(((1 : ℚ) / 2) • (mirror_x a.projected + mirror_x b.projected) ::
          mirror_x b.projected :: mirror_x c.projected ::
          rest.map (fun v => mirror_x v.projected)) ++
          [mirror_x a.projected,
           ((1 : ℚ) / 2) • (mirror_x a.projected + mirror_x b.projected)], ?_, ?_⟩
      · rw [flat_section_chain, if_neg (by simp)]
        simp [List.set_cons_zero, List.getD]
      · simp only [List.map_cons, List.getD, List.get?_cons_zero, List.get?_cons_succ,
          Option.getD_some, List.length_cons]
        refine ⟨?_, ?_, ?_, ?_, ?_⟩
        · simp
        · rw [List.get?_append (by simp)]
          rfl
        · intro j hj1 hj2
          rw [List.get?_append (by simp; omega)]
          obtain ⟨j1, rfl⟩ : ∃ j1, j = j1 + 1 := ⟨j - 1, by omega⟩
          rfl
        · rw [List.get?_append_right (by simp)]
          rw [show rest.length + 1 + 1 + 1 -
            (((1 : ℚ) / 2) • (mirror_x a.projected + mirror_x b.projected) ::
              mirror_x b.projected :: mirror_x c.projected ::
              rest.map (fun v => mirror_x v.projected)).length = 0 from by simp]
          rfl
        · rw [List.get?_append_right (by simp)]
          rw [show rest.length + 1 + 1 + 1 + 1 -
            (((1 : ℚ) / 2) • (mirror_x a.projected + mirror_x b.projected) ::
              mirror_x b.projected :: mirror_x c.projected ::
              rest.map (fun v => mirror_x v.projected)).length = 1 from by simp]
          rfl

/-- C9 witness: a concrete 3-point cross-section produces the 5-point
chain `[mid, p1, p2, p0, mid]`. -/
theorem claim_c9_witness :
    (3 ≤ ([⟨⟨0, 0, 0⟩, ⟨1, 2⟩⟩, ⟨⟨0, 0, 0⟩, ⟨3, 4⟩⟩, ⟨⟨0, 0, 0⟩, ⟨5, 6⟩⟩] :
      List CrossSectionVertex).length) ∧
    (∃ l, flat_section_chain
        [⟨⟨0, 0, 0⟩, ⟨1, 2⟩⟩, ⟨⟨0, 0, 0⟩, ⟨3, 4⟩⟩, ⟨⟨0, 0, 0⟩, ⟨5, 6⟩⟩] = some l ∧
      (let q := ([⟨⟨0, 0, 0⟩, ⟨1, 2⟩⟩, ⟨⟨0, 0, 0⟩, ⟨3, 4⟩⟩, ⟨⟨0, 0, 0⟩, ⟨5, 6⟩⟩] :
          List CrossSectionVertex).map (fun v => mirror_x v.projected)
       let mid := ((1 : ℚ) / 2) • (q.getD 0 ⟨0, 0⟩ + q.getD 1 ⟨0, 0⟩)
       l.length = 3 + 2 ∧
       l.get? 0 = some mid ∧
       (∀ j, 1 ≤ j → j < 3 → l.get? j = q.get? j) ∧
       l.get? 3 = some (q.getD 0 ⟨0, 0⟩) ∧
       l.get? (3 + 1) = some mid)) :=
  ⟨by norm_num,
    (claim_c9 [⟨⟨0, 0, 0⟩, ⟨1, 2⟩⟩, ⟨⟨0, 0, 0⟩, ⟨3, 4⟩⟩, ⟨⟨0, 0, 0⟩, ⟨5, 6⟩⟩]).2
      (by norm_num)⟩

@[simp] theorem CrossSectionVertex.mk_world (w : Vec3) (pj : Vec2) :
    (⟨w, pj⟩ : CrossSectionVertex).world_pos = w := rfl

@[simp] theorem Triangle.new_v1 (ops : FloatOps) (a b c : Vec3) :
    (Triangle.new ops a b c).v1 = a := rfl

@[simp] theorem Triangle.new_v2 (ops : FloatOps) (a b c : Vec3) :
    (Triangle.new ops a b c).v2 = b := rfl

@[simp] theorem Triangle.new_v3 (ops : FloatOps) (a b c : Vec3) :
    (Triangle.new ops a b c).v3 = c := rfl

theorem unit_cube_triangulated_eq (ops : FloatOps) :
    unit_cube_triangulated ops =
      [Triangle.new ops ⟨-1, -1, -1⟩ ⟨1, 1, -1⟩ ⟨1, -1, -1⟩,
       Triangle.new ops ⟨-1, -1, -1⟩ ⟨-1, 1, -1⟩ ⟨1, 1, -1⟩,
       Triangle.new ops ⟨-1, -1, -1⟩ ⟨1, -1, 1⟩ ⟨-1, -1, 1⟩,
       Triangle.new ops ⟨-1, -1, -1⟩ ⟨1, -1, -1⟩ ⟨1, -1, 1⟩,
       Triangle.new ops ⟨1, -1, -1⟩ ⟨1, 1, 1⟩ ⟨1, -1, 1⟩,
       Triangle.new ops ⟨1, -1, -1⟩ ⟨1, 1, -1⟩ ⟨1, 1, 1⟩,
       Triangle.new ops ⟨-1, 1, -1⟩ ⟨-1, -1, 1⟩ ⟨-1, 1, 1⟩,
       Triangle.new ops ⟨-1, 1, -1⟩ ⟨-1, -1, -1⟩ ⟨-1, -1, 1⟩,
       Triangle.new ops ⟨1, 1, -1⟩ ⟨-1, 1, 1⟩ ⟨1, 1, 1⟩,
       Triangle.new ops ⟨1, 1, -1⟩ ⟨-1, 1, -1⟩ ⟨-1, 1, 1⟩,
       Triangle.new ops ⟨-1, -1, 1⟩ ⟨1, 1, 1⟩ ⟨-1, 1, 1⟩,
       Triangle.new ops ⟨-1, -1, 1⟩ ⟨1, -1, 1⟩ ⟨1, 1, 1⟩] := rfl

/-- The world-point shadow of `dedup_push`: the deduplication decision
only reads world positions, so the collected world points can be
computed without the projections (proved equivalent below). -/
def dedup_push_w (acc : List Vec3) (p : Vec3) : List Vec3 :=
  if acc.any (fun q => len_sqr (q - p) < eps) then acc else acc ++ [p]

/-- The world positions collected by `cross_sect`'s point loop. -/
def cross_points_w (ops : FloatOps) (P : Plane) (tris : List Triangle) : List Vec3 :=
  tris.foldl
    (fun acc T =>
      match P.intersect_triangle ops T with
      | some (a, b) => dedup_push_w (dedup_push_w acc a) b
      | none => acc)
    []

theorem any_world (acc : List CrossSectionVertex) (p : Vec3) :
    ((acc.map CrossSectionVertex.world_pos).any fun q => len_sqr (q - p) < eps) =
      (acc.any fun q => len_sqr (q.world_pos - p) < eps) := by
  induction acc with
  | nil => rfl
  | cons a rest ih => simp [List.any_cons, ih]

theorem dedup_push_map_world (ops : FloatOps) (P : Plane)
    (acc : List CrossSectionVertex) (p : Vec3) :
    (dedup_push ops P acc p).map CrossSectionVertex.world_pos =
      dedup_push_w (acc.map CrossSectionVertex.world_pos) p := by
  rw [dedup_push, dedup_push_w, any_world]
  by_cases h : (acc.any fun q => len_sqr (q.world_pos - p) < eps) = true
  · rw [if_pos h, if_pos h]
  · rw [if_neg h, if_neg h]
    simp

theorem cross_sect_points_map_world (ops : FloatOps) (P : Plane) (tris : List Triangle) :
    (P.cross_sect_points ops tris).map CrossSectionVertex.world_pos =
      cross_points_w ops P tris := by
  rw [Plane.cross_sect_points, cross_points_w]
  have key : ∀ (l : List Triangle) (acc : List CrossSectionVertex),
      (l.foldl
        (fun acc T =>
          match P.intersect_triangle ops T with
          | some (a, b) => dedup_push ops P (dedup_push ops P acc a) b
          | none => acc) acc).map CrossSectionVertex.world_pos =
      l.foldl
        (fun acc T =>
          match P.intersect_triangle ops T with
          | some (a, b) => dedup_push_w (dedup_push_w acc a) b
          | none => acc) (acc.map CrossSectionVertex.world_pos) := by
    intro l
    induction l with
    | nil => intro acc; rfl
    | cons T rest ih =>
      intro acc
      simp only [List.foldl_cons]
      rw [ih]
      congr 1
      cases h : P.intersect_triangle ops T with
      | none => rfl
      | some ab =>
        cases ab with
        | mk a b => rw [dedup_push_map_world, dedup_push_map_world]
  exact key tris []

theorem cross_sect_length (ops : FloatOps) (P : Plane) (tris : List Triangle) :
    (P.cross_sect ops tris).length = (P.cross_sect_points ops tris).length := by
  rw [Plane.cross_sect]
  by_cases h : (P.cross_sect_points ops tris).isEmpty = true
  · rw [if_pos h]
  · rw [if_neg h]
    exact (sortK_perm _ _).length_eq

theorem seg_z_flat (ops : FloatOps) (hs : ops.sqrt 1 = 1) (k ax ay bx by_ c : ℚ) :
    Plane.intersect_segment ops ⟨⟨0, 0, 1⟩, k⟩ ⟨ax, ay, c⟩ ⟨bx, by_, c⟩ = none :=
  intersect_segment_of_dist_eq ops _ (by rw [distance_unit_z ops hs, distance_unit_z ops hs])

theorem seg_x_flat (ops : FloatOps) (hs : ops.sqrt 1 = 1) (k c ay az by_ bz : ℚ) :
    Plane.intersect_segment ops ⟨⟨1, 0, 0⟩, k⟩ ⟨c, ay, az⟩ ⟨c, by_, bz⟩ = none :=
  intersect_segment_of_dist_eq ops _ (by rw [distance_unit_x ops hs, distance_unit_x ops hs])

theorem seg_y_flat (ops : FloatOps) (hs : ops.sqrt 1 = 1) (k c ax az bx bz : ℚ) :
    Plane.intersect_segment ops ⟨⟨0, 1, 0⟩, k⟩ ⟨ax, c, az⟩ ⟨bx, c, bz⟩ = none :=
  intersect_segment_of_dist_eq ops _ (by rw [distance_unit_y ops hs, distance_unit_y ops hs])

theorem seg_z_up (ops : FloatOps) (hs : ops.sqrt 1 = 1) (k : ℚ)
    (hk1 : -1 ≤ k) (hk2 : k ≤ 1) (ax ay bx by_ : ℚ) :
    Plane.intersect_segment ops ⟨⟨0, 0, 1⟩, k⟩ ⟨ax, ay, -1⟩ ⟨bx, by_, 1⟩ =
      some ⟨ax + (1 + k) / 2 * (bx - ax), ay + (1 + k) / 2 * (by_ - ay), k⟩ := by
  have hd1 : Plane.distance ops ⟨⟨0, 0, 1⟩, k⟩ ⟨ax, ay, -1⟩ = -1 - k := by
    rw [distance_unit_z ops hs]
  have hd2 : Plane.distance ops ⟨⟨0, 0, 1⟩, k⟩ ⟨bx, by_, 1⟩ = 1 - k := by
    rw [distance_unit_z ops hs]
  have habs : ¬(|(-1 - k) - (1 - k)| < eps) := by
    rw [show (-1 - k) - (1 - k) = (-2 : ℚ) by ring]
    norm_num [eps]
  have ht : (-1 - k) / ((-1 - k) - (1 - k)) = (1 + k) / 2 := by
    rw [show (-1 - k) - (1 - k) = (-2 : ℚ) by ring, show (-1 - k : ℚ) = -(1 + k) by ring,
      neg_div_neg_eq]
  rw [Plane.intersect_segment_def, hd1, hd2, if_neg habs, ht,
    if_pos ⟨by linarith, by linarith⟩]
  congr 1
  rw [Vec3.ext_iff]
  refine ⟨?_, ?_, ?_⟩ <;> simp <;> ring

theorem seg_z_up_none (ops : FloatOps) (hs : ops.sqrt 1 = 1) (k : ℚ)
    (hk : k < -1 ∨ 1 < k) (ax ay bx by_ : ℚ) :
    Plane.intersect_segment ops ⟨⟨0, 0, 1⟩, k⟩ ⟨ax, ay, -1⟩ ⟨bx, by_, 1⟩ = none := by
  have hd1 : Plane.distance ops ⟨⟨0, 0, 1⟩, k⟩ ⟨ax, ay, -1⟩ = -1 - k := by
    rw [distance_unit_z ops hs]
  have hd2 : Plane.distance ops ⟨⟨0, 0, 1⟩, k⟩ ⟨bx, by_, 1⟩ = 1 - k := by
    rw [distance_unit_z ops hs]
  have habs : ¬(|(-1 - k) - (1 - k)| < eps) := by
    rw [show (-1 - k) - (1 - k) = (-2 : ℚ) by ring]
    norm_num [eps]
  have ht : (-1 - k) / ((-1 - k) - (1 - k)) = (1 + k) / 2 := by
    rw [show (-1 - k) - (1 - k) = (-2 : ℚ) by ring, show (-1 - k : ℚ) = -(1 + k) by ring,
      neg_div_neg_eq]
  rw [Plane.intersect_segment_def, hd1, hd2, if_neg habs, ht, if_neg]
  rintro ⟨hc1, hc2⟩
  rcases hk with hk | hk
  · nlinarith
  · nlinarith

theorem seg_x_up (ops : FloatOps) (hs : ops.sqrt 1 = 1) (k : ℚ)
    (hk1 : -1 ≤ k) (hk2 : k ≤ 1) (ay az by_ bz : ℚ) :
    Plane.intersect_segment ops ⟨⟨1, 0, 0⟩, k⟩ ⟨-1, ay, az⟩ ⟨1, by_, bz⟩ =
      some ⟨k, ay + (1 + k) / 2 * (by_ - ay), az + (1 + k) / 2 * (bz - az)⟩ := by
  have hd1 : Plane.distance ops ⟨⟨1, 0, 0⟩, k⟩ ⟨-1, ay, az⟩ = -1 - k := by
    rw [distance_unit_x ops hs]
  have hd2 : Plane.distance ops ⟨⟨1, 0, 0⟩, k⟩ ⟨1, by_, bz⟩ = 1 - k := by
    rw [distance_unit_x ops hs]
  have habs : ¬(|(-1 - k) - (1 - k)| < eps) := by
    rw [show (-1 - k) - (1 - k) = (-2 : ℚ) by ring]
    norm_num [eps]
  have ht : (-1 - k) / ((-1 - k) - (1 - k)) = (1 + k) / 2 := by
    rw [show (-1 - k) - (1 - k) = (-2 : ℚ) by ring, show (-1 - k : ℚ) = -(1 + k) by ring, neg_div_neg_eq]
  rw [Plane.intersect_segment_def, hd1, hd2, if_neg habs, ht,
    if_pos ⟨by linarith, by linarith⟩]
  congr 1
  rw [Vec3.ext_iff]
  refine ⟨?_, ?_, ?_⟩ <;> simp <;> ring

theorem seg_x_up_none (ops : FloatOps) (hs : ops.sqrt 1 = 1) (k : ℚ)
    (hk : k < -1 ∨ 1 < k) (ay az by_ bz : ℚ) :
    Plane.intersect_segment ops ⟨⟨1, 0, 0⟩, k⟩ ⟨-1, ay, az⟩ ⟨1, by_, bz⟩ = none := by
  have hd1 : Plane.distance ops ⟨⟨1, 0, 0⟩, k⟩ ⟨-1, ay, az⟩ = -1 - k := by
    rw [distance_unit_x ops hs]
  have hd2 : Plane.distance ops ⟨⟨1, 0, 0⟩, k⟩ ⟨1, by_, bz⟩ = 1 - k := by
    rw [distance_unit_x ops hs]
  have habs : ¬(|(-1 - k) - (1 - k)| < eps) := by
    rw [show (-1 - k) - (1 - k) = (-2 : ℚ) by ring]
    norm_num [eps]
  have ht : (-1 - k) / ((-1 - k) - (1 - k)) = (1 + k) / 2 := by
    rw [show (-1 - k) - (1 - k) = (-2 : ℚ) by ring, show (-1 - k : ℚ) = -(1 + k) by ring, neg_div_neg_eq]
  rw [Plane.intersect_segment_def, hd1, hd2, if_neg habs, ht, if_neg]
  rintro ⟨hc1, hc2⟩
  rcases hk with hk | hk
  · nlinarith
  · nlinarith

theorem seg_x_down (ops : FloatOps) (hs : ops.sqrt 1 = 1) (k : ℚ)
    (hk1 : -1 ≤ k) (hk2 : k ≤ 1) (ay az by_ bz : ℚ) :
    Plane.intersect_segment ops ⟨⟨1, 0, 0⟩, k⟩ ⟨1, ay, az⟩ ⟨-1, by_, bz⟩ =
      some ⟨k, ay + (1 - k) / 2 * (by_ - ay), az + (1 - k) / 2 * (bz - az)⟩ := by
  have hd1 : Plane.distance ops ⟨⟨1, 0, 0⟩, k⟩ ⟨1, ay, az⟩ = 1 - k := by
    rw [distance_unit_x ops hs]
  have hd2 : Plane.distance ops ⟨⟨1, 0, 0⟩, k⟩ ⟨-1, by_, bz⟩ = -1 - k := by
    rw [distance_unit_x ops hs]
  have habs : ¬(|(1 - k) - (-1 - k)| < eps) := by
    rw [show (1 - k) - (-1 - k) = (2 : ℚ) by ring]
    norm_num [eps]
  have ht : (1 - k) / ((1 - k) - (-1 - k)) = (1 - k) / 2 := by
    rw [show (1 - k) - (-1 - k) = (2 : ℚ) by ring]
  rw [Plane.intersect_segment_def, hd1, hd2, if_neg habs, ht,
    if_pos ⟨by linarith, by linarith⟩]
  congr 1
  rw [Vec3.ext_iff]
  refine ⟨?_, ?_, ?_⟩ <;> simp <;> ring

theorem seg_x_down_none (ops : FloatOps) (hs : ops.sqrt 1 = 1) (k : ℚ)
    (hk : k < -1 ∨ 1 < k) (ay az by_ bz : ℚ) :
    Plane.intersect_segment ops ⟨⟨1, 0, 0⟩, k⟩ ⟨1, ay, az⟩ ⟨-1, by_, bz⟩ = none := by
  have hd1 : Plane.distance ops ⟨⟨1, 0, 0⟩, k⟩ ⟨1, ay, az⟩ = 1 - k := by
    rw [distance_unit_x ops hs]
  have hd2 : Plane.distance ops ⟨⟨1, 0, 0⟩, k⟩ ⟨-1, by_, bz⟩ = -1 - k := by
    rw [distance_unit_x ops hs]
  have habs : ¬(|(1 - k) - (-1 - k)| < eps) := by
    rw [show (1 - k) - (-1 - k) = (2 : ℚ) by ring]
    norm_num [eps]
  have ht : (1 - k) / ((1 - k) - (-1 - k)) = (1 - k) / 2 := by
    rw [show (1 - k) - (-1 - k) = (2 : ℚ) by ring]
  rw [Plane.intersect_segment_def, hd1, hd2, if_neg habs, ht, if_neg]
  rintro ⟨hc1, hc2⟩
  rcases hk with hk | hk
  · nlinarith
  · nlinarith

theorem seg_y_up (ops : FloatOps) (hs : ops.sqrt 1 = 1) (k : ℚ)
    (hk1 : -1 ≤ k) (hk2 : k ≤ 1) (ax az bx bz : ℚ) :
    Plane.intersect_segment ops ⟨⟨0, 1, 0⟩, k⟩ ⟨ax, -1, az⟩ ⟨bx, 1, bz⟩ =
      some ⟨ax + (1 + k) / 2 * (bx - ax), k, az + (1 + k) / 2 * (bz - az)⟩ := by
  have hd1 : Plane.distance ops ⟨⟨0, 1, 0⟩, k⟩ ⟨ax, -1, az⟩ = -1 - k := by
    rw [distance_unit_y ops hs]
  have hd2 : Plane.distance ops ⟨⟨0, 1, 0⟩, k⟩ ⟨bx, 1, bz⟩ = 1 - k := by
    rw [distance_unit_y ops hs]
  have habs : ¬(|(-1 - k) - (1 - k)| < eps) := by
    rw [show (-1 - k) - (1 - k) = (-2 : ℚ) by ring]
    norm_num [eps]
  have ht : (-1 - k) / ((-1 - k) - (1 - k)) = (1 + k) / 2 := by
    rw [show (-1 - k) - (1 - k) = (-2 : ℚ) by ring, show (-1 - k : ℚ) = -(1 + k) by ring, neg_div_neg_eq]
  rw [Plane.intersect_segment_def, hd1, hd2, if_neg habs, ht,
    if_pos ⟨by linarith, by linarith⟩]
  congr 1
  rw [Vec3.ext_iff]
  refine ⟨?_, ?_, ?_⟩ <;> simp <;> ring

theorem seg_y_up_none (ops : FloatOps) (hs : ops.sqrt 1 = 1) (k : ℚ)
    (hk : k < -1 ∨ 1 < k) (ax az bx bz : ℚ) :
    Plane.intersect_segment ops ⟨⟨0, 1, 0⟩, k⟩ ⟨ax, -1, az⟩ ⟨bx, 1, bz⟩ = none := by
  have hd1 : Plane.distance ops ⟨⟨0, 1, 0⟩, k⟩ ⟨ax, -1, az⟩ = -1 - k := by
    rw [distance_unit_y ops hs]
  have hd2 : Plane.distance ops ⟨⟨0, 1, 0⟩, k⟩ ⟨bx, 1, bz⟩ = 1 - k := by
    rw [distance_unit_y ops hs]
  have habs : ¬(|(-1 - k) - (1 - k)| < eps) := by
    rw [show (-1 - k) - (1 - k) = (-2 : ℚ) by ring]
    norm_num [eps]
  have ht : (-1 - k) / ((-1 - k) - (1 - k)) = (1 + k) / 2 := by
    rw [show (-1 - k) - (1 - k) = (-2 : ℚ) by ring, show (-1 - k : ℚ) = -(1 + k) by ring, neg_div_neg_eq]
  rw [Plane.intersect_segment_def, hd1, hd2, if_neg habs, ht, if_neg]
  rintro ⟨hc1, hc2⟩
  rcases hk with hk | hk
  · nlinarith
  · nlinarith

theorem seg_y_down (ops : FloatOps) (hs : ops.sqrt 1 = 1) (k : ℚ)
    (hk1 : -1 ≤ k) (hk2 : k ≤ 1) (ax az bx bz : ℚ) :
    Plane.intersect_segment ops ⟨⟨0, 1, 0⟩, k⟩ ⟨ax, 1, az⟩ ⟨bx, -1, bz⟩ =
      some ⟨ax + (1 - k) / 2 * (bx - ax), k, az + (1 - k) / 2 * (bz - az)⟩ := by
  have hd1 : Plane.distance ops ⟨⟨0, 1, 0⟩, k⟩ ⟨ax, 1, az⟩ = 1 - k := by
    rw [distance_unit_y ops hs]
  have hd2 : Plane.distance ops ⟨⟨0, 1, 0⟩, k⟩ ⟨bx, -1, bz⟩ = -1 - k := by
    rw [distance_unit_y ops hs]
  have habs : ¬(|(1 - k) - (-1 - k)| < eps) := by
    rw [show (1 - k) - (-1 - k) = (2 : ℚ) by ring]
    norm_num [eps]
  have ht : (1 - k) / ((1 - k) - (-1 - k)) = (1 - k) / 2 := by
    rw [show (1 - k) - (-1 - k) = (2 : ℚ) by ring]
  rw [Plane.intersect_segment_def, hd1, hd2, if_neg habs, ht,
    if_pos ⟨by linarith, by linarith⟩]
  congr 1
  rw [Vec3.ext_iff]
  refine ⟨?_, ?_, ?_⟩ <;> simp <;> ring

theorem seg_y_down_none (ops : FloatOps) (hs : ops.sqrt 1 = 1) (k : ℚ)
    (hk : k < -1 ∨ 1 < k) (ax az bx bz : ℚ) :
    Plane.intersect_segment ops ⟨⟨0, 1, 0⟩, k⟩ ⟨ax, 1, az⟩ ⟨bx, -1, bz⟩ = none := by
  have hd1 : Plane.distance ops ⟨⟨0, 1, 0⟩, k⟩ ⟨ax, 1, az⟩ = 1 - k := by
    rw [distance_unit_y ops hs]
  have hd2 : Plane.distance ops ⟨⟨0, 1, 0⟩, k⟩ ⟨bx, -1, bz⟩ = -1 - k := by
    rw [distance_unit_y ops hs]
  have habs : ¬(|(1 - k) - (-1 - k)| < eps) := by
    rw [show (1 - k) - (-1 - k) = (2 : ℚ) by ring]
    norm_num [eps]
  have ht : (1 - k) / ((1 - k) - (-1 - k)) = (1 - k) / 2 := by
    rw [show (1 - k) - (-1 - k) = (2 : ℚ) by ring]
  rw [Plane.intersect_segment_def, hd1, hd2, if_neg habs, ht, if_neg]
  rintro ⟨hc1, hc2⟩
  rcases hk with hk | hk
  · nlinarith
  · nlinarith

theorem seg_x_e03 (ops : FloatOps) (hs : ops.sqrt 1 = 1) (k : ℚ)
    (hk1 : -1 ≤ k) (hk2 : k ≤ 1) :
    Plane.intersect_segment ops ⟨⟨1, 0, 0⟩, k⟩ ⟨-1, -1, -1⟩ ⟨1, 1, -1⟩ =
      some ⟨k, k, -1⟩ := by
  rw [seg_x_up ops hs k hk1 hk2]
  congr 1
  rw [Vec3.ext_iff]
  refine ⟨by ring, by ring, by ring⟩

theorem seg_x_e01 (ops : FloatOps) (hs : ops.sqrt 1 = 1) (k : ℚ)
    (hk1 : -1 ≤ k) (hk2 : k ≤ 1) :
    Plane.intersect_segment ops ⟨⟨1, 0, 0⟩, k⟩ ⟨-1, -1, -1⟩ ⟨1, -1, -1⟩ =
      some ⟨k, -1, -1⟩ := by
  rw [seg_x_up ops hs k hk1 hk2]
  congr 1
  rw [Vec3.ext_iff]
  refine ⟨by ring, by ring, by ring⟩

theorem seg_x_e23 (ops : FloatOps) (hs : ops.sqrt 1 = 1) (k : ℚ)
    (hk1 : -1 ≤ k) (hk2 : k ≤ 1) :
    Plane.intersect_segment ops ⟨⟨1, 0, 0⟩, k⟩ ⟨-1, 1, -1⟩ ⟨1, 1, -1⟩ =
      some ⟨k, 1, -1⟩ := by
  rw [seg_x_up ops hs k hk1 hk2]
  congr 1
  rw [Vec3.ext_iff]
  refine ⟨by ring, by ring, by ring⟩

theorem seg_x_e05 (ops : FloatOps) (hs : ops.sqrt 1 = 1) (k : ℚ)
    (hk1 : -1 ≤ k) (hk2 : k ≤ 1) :
    Plane.intersect_segment ops ⟨⟨1, 0, 0⟩, k⟩ ⟨-1, -1, -1⟩ ⟨1, -1, 1⟩ =
      some ⟨k, -1, k⟩ := by
  rw [seg_x_up ops hs k hk1 hk2]
  congr 1
  rw [Vec3.ext_iff]
  refine ⟨by ring, by ring, by ring⟩

theorem seg_x_e54 (ops : FloatOps) (hs : ops.sqrt 1 = 1) (k : ℚ)
    (hk1 : -1 ≤ k) (hk2 : k ≤ 1) :
    Plane.intersect_segment ops ⟨⟨1, 0, 0⟩, k⟩ ⟨1, -1, 1⟩ ⟨-1, -1, 1⟩ =
      some ⟨k, -1, 1⟩ := by
  rw [seg_x_down ops hs k hk1 hk2]
  congr 1
  rw [Vec3.ext_iff]
  refine ⟨by ring, by ring, by ring⟩

theorem seg_x_e36 (ops : FloatOps) (hs : ops.sqrt 1 = 1) (k : ℚ)
    (hk1 : -1 ≤ k) (hk2 : k ≤ 1) :
    Plane.intersect_segment ops ⟨⟨1, 0, 0⟩, k⟩ ⟨1, 1, -1⟩ ⟨-1, 1, 1⟩ =
      some ⟨k, 1, -k⟩ := by
  rw [seg_x_down ops hs k hk1 hk2]
  congr 1
  rw [Vec3.ext_iff]
  refine ⟨by ring, by ring, by ring⟩

theorem seg_x_e67 (ops : FloatOps) (hs : ops.sqrt 1 = 1) (k : ℚ)
    (hk1 : -1 ≤ k) (hk2 : k ≤ 1) :
    Plane.intersect_segment ops ⟨⟨1, 0, 0⟩, k⟩ ⟨-1, 1, 1⟩ ⟨1, 1, 1⟩ =
      some ⟨k, 1, 1⟩ := by
  rw [seg_x_up ops hs k hk1 hk2]
  congr 1
  rw [Vec3.ext_iff]
  refine ⟨by ring, by ring, by ring⟩

theorem seg_x_e32 (ops : FloatOps) (hs : ops.sqrt 1 = 1) (k : ℚ)
    (hk1 : -1 ≤ k) (hk2 : k ≤ 1) :
    Plane.intersect_segment ops ⟨⟨1, 0, 0⟩, k⟩ ⟨1, 1, -1⟩ ⟨-1, 1, -1⟩ =
      some ⟨k, 1, -1⟩ := by
  rw [seg_x_down ops hs k hk1 hk2]
  congr 1
  rw [Vec3.ext_iff]
  refine ⟨by ring, by ring, by ring⟩

theorem seg_x_e47 (ops : FloatOps) (hs : ops.sqrt 1 = 1) (k : ℚ)
    (hk1 : -1 ≤ k) (hk2 : k ≤ 1) :
    Plane.intersect_segment ops ⟨⟨1, 0, 0⟩, k⟩ ⟨-1, -1, 1⟩ ⟨1, 1, 1⟩ =
      some ⟨k, k, 1⟩ := by
  rw [seg_x_up ops hs k hk1 hk2]
  congr 1
  rw [Vec3.ext_iff]
  refine ⟨by ring, by ring, by ring⟩

theorem seg_x_e76 (ops : FloatOps) (hs : ops.sqrt 1 = 1) (k : ℚ)
    (hk1 : -1 ≤ k) (hk2 : k ≤ 1) :
    Plane.intersect_segment ops ⟨⟨1, 0, 0⟩, k⟩ ⟨1, 1, 1⟩ ⟨-1, 1, 1⟩ =
      some ⟨k, 1, 1⟩ := by
  rw [seg_x_down ops hs k hk1 hk2]
  congr 1
  rw [Vec3.ext_iff]
  refine ⟨by ring, by ring, by ring⟩

theorem seg_x_e45 (ops : FloatOps) (hs : ops.sqrt 1 = 1) (k : ℚ)
    (hk1 : -1 ≤ k) (hk2 : k ≤ 1) :
    Plane.intersect_segment ops ⟨⟨1, 0, 0⟩, k⟩ ⟨-1, -1, 1⟩ ⟨1, -1, 1⟩ =
      some ⟨k, -1, 1⟩ := by
  rw [seg_x_up ops hs k hk1 hk2]
  congr 1
  rw [Vec3.ext_iff]
  refine ⟨by ring, by ring, by ring⟩

theorem seg_y_e03 (ops : FloatOps) (hs : ops.sqrt 1 = 1) (k : ℚ)
    (hk1 : -1 ≤ k) (hk2 : k ≤ 1) :
    Plane.intersect_segment ops ⟨⟨0, 1, 0⟩, k⟩ ⟨-1, -1, -1⟩ ⟨1, 1, -1⟩ =
      some ⟨k, k, -1⟩ := by
  rw [seg_y_up ops hs k hk1 hk2]
  congr 1
  rw [Vec3.ext_iff]
  refine ⟨by ring, by ring, by ring⟩

theorem seg_y_e31 (ops : FloatOps) (hs : ops.sqrt 1 = 1) (k : ℚ)
    (hk1 : -1 ≤ k) (hk2 : k ≤ 1) :
    Plane.intersect_segment ops ⟨⟨0, 1, 0⟩, k⟩ ⟨1, 1, -1⟩ ⟨1, -1, -1⟩ =
      some ⟨1, k, -1⟩ := by
  rw [seg_y_down ops hs k hk1 hk2]
  congr 1
  rw [Vec3.ext_iff]
  refine ⟨by ring, by ring, by ring⟩

theorem seg_y_e02 (ops : FloatOps) (hs : ops.sqrt 1 = 1) (k : ℚ)
    (hk1 : -1 ≤ k) (hk2 : k ≤ 1) :
    Plane.intersect_segment ops ⟨⟨0, 1, 0⟩, k⟩ ⟨-1, -1, -1⟩ ⟨-1, 1, -1⟩ =
      some ⟨-1, k, -1⟩ := by
  rw [seg_y_up ops hs k hk1 hk2]
  congr 1
  rw [Vec3.ext_iff]
  refine ⟨by ring, by ring, by ring⟩

theorem seg_y_e17 (ops : FloatOps) (hs : ops.sqrt 1 = 1) (k : ℚ)
    (hk1 : -1 ≤ k) (hk2 : k ≤ 1) :
    Plane.intersect_segment ops ⟨⟨0, 1, 0⟩, k⟩ ⟨1, -1, -1⟩ ⟨1, 1, 1⟩ =
      some ⟨1, k, k⟩ := by
  rw [seg_y_up ops hs k hk1 hk2]
  congr 1
  rw [Vec3.ext_iff]
  refine ⟨by ring, by ring, by ring⟩

theorem seg_y_e75 (ops : FloatOps) (hs : ops.sqrt 1 = 1) (k : ℚ)
    (hk1 : -1 ≤ k) (hk2 : k ≤ 1) :
    Plane.intersect_segment ops ⟨⟨0, 1, 0⟩, k⟩ ⟨1, 1, 1⟩ ⟨1, -1, 1⟩ =
      some ⟨1, k, 1⟩ := by
  rw [seg_y_down ops hs k hk1 hk2]
  congr 1
  rw [Vec3.ext_iff]
  refine ⟨by ring, by ring, by ring⟩

theorem seg_y_e13 (ops : FloatOps) (hs : ops.sqrt 1 = 1) (k : ℚ)
    (hk1 : -1 ≤ k) (hk2 : k ≤ 1) :
    Plane.intersect_segment ops ⟨⟨0, 1, 0⟩, k⟩ ⟨1, -1, -1⟩ ⟨1, 1, -1⟩ =
      some ⟨1, k, -1⟩ := by
  rw [seg_y_up ops hs k hk1 hk2]
  congr 1
  rw [Vec3.ext_iff]
  refine ⟨by ring, by ring, by ring⟩

theorem seg_y_e24 (ops : FloatOps) (hs : ops.sqrt 1 = 1) (k : ℚ)
    (hk1 : -1 ≤ k) (hk2 : k ≤ 1) :
    Plane.intersect_segment ops ⟨⟨0, 1, 0⟩, k⟩ ⟨-1, 1, -1⟩ ⟨-1, -1, 1⟩ =
      some ⟨-1, k, -k⟩ := by
  rw [seg_y_down ops hs k hk1 hk2]
  congr 1
  rw [Vec3.ext_iff]
  refine ⟨by ring, by ring, by ring⟩

theorem seg_y_e46 (ops : FloatOps) (hs : ops.sqrt 1 = 1) (k : ℚ)
    (hk1 : -1 ≤ k) (hk2 : k ≤ 1) :
    Plane.intersect_segment ops ⟨⟨0, 1, 0⟩, k⟩ ⟨-1, -1, 1⟩ ⟨-1, 1, 1⟩ =
      some ⟨-1, k, 1⟩ := by
  rw [seg_y_up ops hs k hk1 hk2]
  congr 1
  rw [Vec3.ext_iff]
  refine ⟨by ring, by ring, by ring⟩

theorem seg_y_e20 (ops : FloatOps) (hs : ops.sqrt 1 = 1) (k : ℚ)
    (hk1 : -1 ≤ k) (hk2 : k ≤ 1) :
    Plane.intersect_segment ops ⟨⟨0, 1, 0⟩, k⟩ ⟨-1, 1, -1⟩ ⟨-1, -1, -1⟩ =
      some ⟨-1, k, -1⟩ := by
  rw [seg_y_down ops hs k hk1 hk2]
  congr 1
  rw [Vec3.ext_iff]
  refine ⟨by ring, by ring, by ring⟩

theorem seg_y_e47 (ops : FloatOps) (hs : ops.sqrt 1 = 1) (k : ℚ)
    (hk1 : -1 ≤ k) (hk2 : k ≤ 1) :
    Plane.intersect_segment ops ⟨⟨0, 1, 0⟩, k⟩ ⟨-1, -1, 1⟩ ⟨1, 1, 1⟩ =
      some ⟨k, k, 1⟩ := by
  rw [seg_y_up ops hs k hk1 hk2]
  congr 1
  rw [Vec3.ext_iff]
  refine ⟨by ring, by ring, by ring⟩

theorem seg_y_e57 (ops : FloatOps) (hs : ops.sqrt 1 = 1) (k : ℚ)
    (hk1 : -1 ≤ k) (hk2 : k ≤ 1) :
    Plane.intersect_segment ops ⟨⟨0, 1, 0⟩, k⟩ ⟨1, -1, 1⟩ ⟨1, 1, 1⟩ =
      some ⟨1, k, 1⟩ := by
  rw [seg_y_up ops hs k hk1 hk2]
  congr 1
  rw [Vec3.ext_iff]
  refine ⟨by ring, by ring, by ring⟩

theorem seg_z_e05 (ops : FloatOps) (hs : ops.sqrt 1 = 1) (k : ℚ)
    (hk1 : -1 ≤ k) (hk2 : k ≤ 1) :
    Plane.intersect_segment ops ⟨⟨0, 0, 1⟩, k⟩ ⟨-1, -1, -1⟩ ⟨1, -1, 1⟩ =
      some ⟨k, -1, k⟩ := by
  rw [seg_z_up ops hs k hk1 hk2]
  congr 1
  rw [Vec3.ext_iff]
  refine ⟨by ring, by ring, by ring⟩

theorem seg_z_e04 (ops : FloatOps) (hs : ops.sqrt 1 = 1) (k : ℚ)
    (hk1 : -1 ≤ k) (hk2 : k ≤ 1) :
    Plane.intersect_segment ops ⟨⟨0, 0, 1⟩, k⟩ ⟨-1, -1, -1⟩ ⟨-1, -1, 1⟩ =
      some ⟨-1, -1, k⟩ := by
  rw [seg_z_up ops hs k hk1 hk2]
  congr 1
  rw [Vec3.ext_iff]
  refine ⟨by ring, by ring, by ring⟩

theorem seg_z_e15 (ops : FloatOps) (hs : ops.sqrt 1 = 1) (k : ℚ)
    (hk1 : -1 ≤ k) (hk2 : k ≤ 1) :
    Plane.intersect_segment ops ⟨⟨0, 0, 1⟩, k⟩ ⟨1, -1, -1⟩ ⟨1, -1, 1⟩ =
      some ⟨1, -1, k⟩ := by
  rw [seg_z_up ops hs k hk1 hk2]
  congr 1
  rw [Vec3.ext_iff]
  refine ⟨by ring, by ring, by ring⟩

theorem seg_z_e17 (ops : FloatOps) (hs : ops.sqrt 1 = 1) (k : ℚ)
    (hk1 : -1 ≤ k) (hk2 : k ≤ 1) :
    Plane.intersect_segment ops ⟨⟨0, 0, 1⟩, k⟩ ⟨1, -1, -1⟩ ⟨1, 1, 1⟩ =
      some ⟨1, k, k⟩ := by
  rw [seg_z_up ops hs k hk1 hk2]
  congr 1
  rw [Vec3.ext_iff]
  refine ⟨by ring, by ring, by ring⟩

theorem seg_z_e37 (ops : FloatOps) (hs : ops.sqrt 1 = 1) (k : ℚ)
    (hk1 : -1 ≤ k) (hk2 : k ≤ 1) :
    Plane.intersect_segment ops ⟨⟨0, 0, 1⟩, k⟩ ⟨1, 1, -1⟩ ⟨1, 1, 1⟩ =
      some ⟨1, 1, k⟩ := by
  rw [seg_z_up ops hs k hk1 hk2]
  congr 1
  rw [Vec3.ext_iff]
  refine ⟨by ring, by ring, by ring⟩

theorem seg_z_e24 (ops : FloatOps) (hs : ops.sqrt 1 = 1) (k : ℚ)
    (hk1 : -1 ≤ k) (hk2 : k ≤ 1) :
    Plane.intersect_segment ops ⟨⟨0, 0, 1⟩, k⟩ ⟨-1, 1, -1⟩ ⟨-1, -1, 1⟩ =
      some ⟨-1, -k, k⟩ := by
  rw [seg_z_up ops hs k hk1 hk2]
  congr 1
  rw [Vec3.ext_iff]
  refine ⟨by ring, by ring, by ring⟩

theorem seg_z_e26 (ops : FloatOps) (hs : ops.sqrt 1 = 1) (k : ℚ)
    (hk1 : -1 ≤ k) (hk2 : k ≤ 1) :
    Plane.intersect_segment ops ⟨⟨0, 0, 1⟩, k⟩ ⟨-1, 1, -1⟩ ⟨-1, 1, 1⟩ =
      some ⟨-1, 1, k⟩ := by
  rw [seg_z_up ops hs k hk1 hk2]
  congr 1
  rw [Vec3.ext_iff]
  refine ⟨by ring, by ring, by ring⟩

theorem seg_z_e36 (ops : FloatOps) (hs : ops.sqrt 1 = 1) (k : ℚ)
    (hk1 : -1 ≤ k) (hk2 : k ≤ 1) :
    Plane.intersect_segment ops ⟨⟨0, 0, 1⟩, k⟩ ⟨1, 1, -1⟩ ⟨-1, 1, 1⟩ =
      some ⟨-k, 1, k⟩ := by
  rw [seg_z_up ops hs k hk1 hk2]
  congr 1
  rw [Vec3.ext_iff]
  refine ⟨by ring, by ring, by ring⟩

theorem tri_x_1 (ops : FloatOps) (hs : ops.sqrt 1 = 1) (k : ℚ)
    (hk1 : -1 ≤ k) (hk2 : k ≤ 1) :
    Plane.intersect_triangle ops ⟨⟨1, 0, 0⟩, k⟩
      (Triangle.new ops ⟨-1, -1, -1⟩ ⟨1, 1, -1⟩ ⟨1, -1, -1⟩) =
      some (⟨k, k, -1⟩, ⟨k, -1, -1⟩) := by
  unfold Plane.intersect_triangle
  simp [seg_x_e03 ops hs k hk1 hk2, seg_x_e01 ops hs k hk1 hk2, seg_x_flat ops hs k]

theorem tri_x_1o (ops : FloatOps) (hs : ops.sqrt 1 = 1) (k : ℚ)
    (hk : k < -1 ∨ 1 < k) :
    Plane.intersect_triangle ops ⟨⟨1, 0, 0⟩, k⟩
      (Triangle.new ops ⟨-1, -1, -1⟩ ⟨1, 1, -1⟩ ⟨1, -1, -1⟩) = none := by
  unfold Plane.intersect_triangle
  simp [seg_x_up_none ops hs k hk, seg_x_flat ops hs k]

theorem tri_x_2 (ops : FloatOps) (hs : ops.sqrt 1 = 1) (k : ℚ)
    (hk1 : -1 ≤ k) (hk2 : k ≤ 1) :
    Plane.intersect_triangle ops ⟨⟨1, 0, 0⟩, k⟩
      (Triangle.new ops ⟨-1, -1, -1⟩ ⟨-1, 1, -1⟩ ⟨1, 1, -1⟩) =
      some (⟨k, k, -1⟩, ⟨k, 1, -1⟩) := by
  unfold Plane.intersect_triangle
  simp [seg_x_e03 ops hs k hk1 hk2, seg_x_e23 ops hs k hk1 hk2, seg_x_flat ops hs k]

theorem tri_x_2o (ops : FloatOps) (hs : ops.sqrt 1 = 1) (k : ℚ)
    (hk : k < -1 ∨ 1 < k) :
    Plane.intersect_triangle ops ⟨⟨1, 0, 0⟩, k⟩
      (Triangle.new ops ⟨-1, -1, -1⟩ ⟨-1, 1, -1⟩ ⟨1, 1, -1⟩) = none := by
  unfold Plane.intersect_triangle
  simp [seg_x_up_none ops hs k hk, seg_x_flat ops hs k]

theorem tri_x_3 (ops : FloatOps) (hs : ops.sqrt 1 = 1) (k : ℚ)
    (hk1 : -1 ≤ k) (hk2 : k ≤ 1) :
    Plane.intersect_triangle ops ⟨⟨1, 0, 0⟩, k⟩
      (Triangle.new ops ⟨-1, -1, -1⟩ ⟨1, -1, 1⟩ ⟨-1, -1, 1⟩) =
      some (⟨k, -1, k⟩, ⟨k, -1, 1⟩) := by
  unfold Plane.intersect_triangle
  simp [seg_x_e05 ops hs k hk1 hk2, seg_x_e54 ops hs k hk1 hk2, seg_x_flat ops hs k]

theorem tri_x_3o (ops : FloatOps) (hs : ops.sqrt 1 = 1) (k : ℚ)
    (hk : k < -1 ∨ 1 < k) :
    Plane.intersect_triangle ops ⟨⟨1, 0, 0⟩, k⟩
      (Triangle.new ops ⟨-1, -1, -1⟩ ⟨1, -1, 1⟩ ⟨-1, -1, 1⟩) = none := by
  unfold Plane.intersect_triangle
  simp [seg_x_down_none ops hs k hk, seg_x_up_none ops hs k hk, seg_x_flat ops hs k]

theorem tri_x_4 (ops : FloatOps) (hs : ops.sqrt 1 = 1) (k : ℚ)
    (hk1 : -1 ≤ k) (hk2 : k ≤ 1) :
    Plane.intersect_triangle ops ⟨⟨1, 0, 0⟩, k⟩
      (Triangle.new ops ⟨-1, -1, -1⟩ ⟨1, -1, -1⟩ ⟨1, -1, 1⟩) =
      some (⟨k, -1, -1⟩, ⟨k, -1, k⟩) := by
  unfold Plane.intersect_triangle
  simp [seg_x_e01 ops hs k hk1 hk2, seg_x_e05 ops hs k hk1 hk2, seg_x_flat ops hs k]

theorem tri_x_4o (ops : FloatOps) (hs : ops.sqrt 1 = 1) (k : ℚ)
    (hk : k < -1 ∨ 1 < k) :
    Plane.intersect_triangle ops ⟨⟨1, 0, 0⟩, k⟩
      (Triangle.new ops ⟨-1, -1, -1⟩ ⟨1, -1, -1⟩ ⟨1, -1, 1⟩) = none := by
  unfold Plane.intersect_triangle
  simp [seg_x_up_none ops hs k hk, seg_x_flat ops hs k]

theorem tri_x_5 (ops : FloatOps) (hs : ops.sqrt 1 = 1) (k : ℚ) :
    Plane.intersect_triangle ops ⟨⟨1, 0, 0⟩, k⟩
      (Triangle.new ops ⟨1, -1, -1⟩ ⟨1, 1, 1⟩ ⟨1, -1, 1⟩) = none := by
  unfold Plane.intersect_triangle
  simp [seg_x_flat ops hs k]

theorem tri_x_6 (ops : FloatOps) (hs : ops.sqrt 1 = 1) (k : ℚ) :
    Plane.intersect_triangle ops ⟨⟨1, 0, 0⟩, k⟩
      (Triangle.new ops ⟨1, -1, -1⟩ ⟨1, 1, -1⟩ ⟨1, 1, 1⟩) = none := by
  unfold Plane.intersect_triangle
  simp [seg_x_flat ops hs k]

theorem tri_x_7 (ops : FloatOps) (hs : ops.sqrt 1 = 1) (k : ℚ) :
    Plane.intersect_triangle ops ⟨⟨1, 0, 0⟩, k⟩
      (Triangle.new ops ⟨-1, 1, -1⟩ ⟨-1, -1, 1⟩ ⟨-1, 1, 1⟩) = none := by
  unfold Plane.intersect_triangle
  simp [seg_x_flat ops hs k]

theorem tri_x_8 (ops : FloatOps) (hs : ops.sqrt 1 = 1) (k : ℚ) :
    Plane.intersect_triangle ops ⟨⟨1, 0, 0⟩, k⟩
      (Triangle.new ops ⟨-1, 1, -1⟩ ⟨-1, -1, -1⟩ ⟨-1, -1, 1⟩) = none := by
  unfold Plane.intersect_triangle
  simp [seg_x_flat ops hs k]

theorem tri_x_9 (ops : FloatOps) (hs : ops.sqrt 1 = 1) (k : ℚ)
    (hk1 : -1 ≤ k) (hk2 : k ≤ 1) :
    Plane.intersect_triangle ops ⟨⟨1, 0, 0⟩, k⟩
      (Triangle.new ops ⟨1, 1, -1⟩ ⟨-1, 1, 1⟩ ⟨1, 1, 1⟩) =
      some (⟨k, 1, -k⟩, ⟨k, 1, 1⟩) := by
  unfold Plane.intersect_triangle
  simp [seg_x_e36 ops hs k hk1 hk2, seg_x_e67 ops hs k hk1 hk2, seg_x_flat ops hs k]

theorem tri_x_9o (ops : FloatOps) (hs : ops.sqrt 1 = 1) (k : ℚ)
    (hk : k < -1 ∨ 1 < k) :
    Plane.intersect_triangle ops ⟨⟨1, 0, 0⟩, k⟩
      (Triangle.new ops ⟨1, 1, -1⟩ ⟨-1, 1, 1⟩ ⟨1, 1, 1⟩) = none := by
  unfold Plane.intersect_triangle
  simp [seg_x_down_none ops hs k hk, seg_x_up_none ops hs k hk, seg_x_flat ops hs k]

theorem tri_x_10 (ops : FloatOps) (hs : ops.sqrt 1 = 1) (k : ℚ)
    (hk1 : -1 ≤ k) (hk2 : k ≤ 1) :
    Plane.intersect_triangle ops ⟨⟨1, 0, 0⟩, k⟩
      (Triangle.new ops ⟨1, 1, -1⟩ ⟨-1, 1, -1⟩ ⟨-1, 1, 1⟩) =
      some (⟨k, 1, -1⟩, ⟨k, 1, -k⟩) := by
  unfold Plane.intersect_triangle
  simp [seg_x_e32 ops hs k hk1 hk2, seg_x_e36 ops hs k hk1 hk2, seg_x_flat ops hs k]

theorem tri_x_10o (ops : FloatOps) (hs : ops.sqrt 1 = 1) (k : ℚ)
    (hk : k < -1 ∨ 1 < k) :
    Plane.intersect_triangle ops ⟨⟨1, 0, 0⟩, k⟩
      (Triangle.new ops ⟨1, 1, -1⟩ ⟨-1, 1, -1⟩ ⟨-1, 1, 1⟩) = none := by
  unfold Plane.intersect_triangle
  simp [seg_x_down_none ops hs k hk, seg_x_flat ops hs k]

theorem tri_x_11 (ops : FloatOps) (hs : ops.sqrt 1 = 1) (k : ℚ)
    (hk1 : -1 ≤ k) (hk2 : k ≤ 1) :
    Plane.intersect_triangle ops ⟨⟨1, 0, 0⟩, k⟩
      (Triangle.new ops ⟨-1, -1, 1⟩ ⟨1, 1, 1⟩ ⟨-1, 1, 1⟩) =
      some (⟨k, k, 1⟩, ⟨k, 1, 1⟩) := by
  unfold Plane.intersect_triangle
  simp [seg_x_e47 ops hs k hk1 hk2, seg_x_e76 ops hs k hk1 hk2, seg_x_flat ops hs k]

theorem tri_x_11o (ops : FloatOps) (hs : ops.sqrt 1 = 1) (k : ℚ)
    (hk : k < -1 ∨ 1 < k) :
    Plane.intersect_triangle ops ⟨⟨1, 0, 0⟩, k⟩
      (Triangle.new ops ⟨-1, -1, 1⟩ ⟨1, 1, 1⟩ ⟨-1, 1, 1⟩) = none := by
  unfold Plane.intersect_triangle
  simp [seg_x_down_none ops hs k hk, seg_x_up_none ops hs k hk, seg_x_flat ops hs k]

theorem tri_x_12 (ops : FloatOps) (hs : ops.sqrt 1 = 1) (k : ℚ)
    (hk1 : -1 ≤ k) (hk2 : k ≤ 1) :
    Plane.intersect_triangle ops ⟨⟨1, 0, 0⟩, k⟩
      (Triangle.new ops ⟨-1, -1, 1⟩ ⟨1, -1, 1⟩ ⟨1, 1, 1⟩) =
      some (⟨k, -1, 1⟩, ⟨k, k, 1⟩) := by
  unfold Plane.intersect_triangle
  simp [seg_x_e45 ops hs k hk1 hk2, seg_x_e47 ops hs k hk1 hk2, seg_x_flat ops hs k]

theorem tri_x_12o (ops : FloatOps) (hs : ops.sqrt 1 = 1) (k : ℚ)
    (hk : k < -1 ∨ 1 < k) :
    Plane.intersect_triangle ops ⟨⟨1, 0, 0⟩, k⟩
      (Triangle.new ops ⟨-1, -1, 1⟩ ⟨1, -1, 1⟩ ⟨1, 1, 1⟩) = none := by
  unfold Plane.intersect_triangle
  simp [seg_x_up_none ops hs k hk, seg_x_flat ops hs k]

theorem tri_y_1 (ops : FloatOps) (hs : ops.sqrt 1 = 1) (k : ℚ)
    (hk1 : -1 ≤ k) (hk2 : k ≤ 1) :
    Plane.intersect_triangle ops ⟨⟨0, 1, 0⟩, k⟩
      (Triangle.new ops ⟨-1, -1, -1⟩ ⟨1, 1, -1⟩ ⟨1, -1, -1⟩) =
      some (⟨k, k, -1⟩, ⟨1, k, -1⟩) := by
  unfold Plane.intersect_triangle
  simp [seg_y_e03 ops hs k hk1 hk2, seg_y_e31 ops hs k hk1 hk2, seg_y_flat ops hs k]

theorem tri_y_1o (ops : FloatOps) (hs : ops.sqrt 1 = 1) (k : ℚ)
    (hk : k < -1 ∨ 1 < k) :
    Plane.intersect_triangle ops ⟨⟨0, 1, 0⟩, k⟩
      (Triangle.new ops ⟨-1, -1, -1⟩ ⟨1, 1, -1⟩ ⟨1, -1, -1⟩) = none := by
  unfold Plane.intersect_triangle
  simp [seg_y_down_none ops hs k hk, seg_y_up_none ops hs k hk, seg_y_flat ops hs k]

theorem tri_y_2 (ops : FloatOps) (hs : ops.sqrt 1 = 1) (k : ℚ)
    (hk1 : -1 ≤ k) (hk2 : k ≤ 1) :
    Plane.intersect_triangle ops ⟨⟨0, 1, 0⟩, k⟩
      (Triangle.new ops ⟨-1, -1, -1⟩ ⟨-1, 1, -1⟩ ⟨1, 1, -1⟩) =
      some (⟨-1, k, -1⟩, ⟨k, k, -1⟩) := by
  unfold Plane.intersect_triangle
  simp [seg_y_e02 ops hs k hk1 hk2, seg_y_e03 ops hs k hk1 hk2, seg_y_flat ops hs k]

theorem tri_y_2o (ops : FloatOps) (hs : ops.sqrt 1 = 1) (k : ℚ)
    (hk : k < -1 ∨ 1 < k) :
    Plane.intersect_triangle ops ⟨⟨0, 1, 0⟩, k⟩
      (Triangle.new ops ⟨-1, -1, -1⟩ ⟨-1, 1, -1⟩ ⟨1, 1, -1⟩) = none := by
  unfold Plane.intersect_triangle
  simp [seg_y_up_none ops hs k hk, seg_y_flat ops hs k]

theorem tri_y_3 (ops : FloatOps) (hs : ops.sqrt 1 = 1) (k : ℚ) :
    Plane.intersect_triangle ops ⟨⟨0, 1, 0⟩, k⟩
      (Triangle.new ops ⟨-1, -1, -1⟩ ⟨1, -1, 1⟩ ⟨-1, -1, 1⟩) = none := by
  unfold Plane.intersect_triangle
  simp [seg_y_flat ops hs k]

theorem tri_y_4 (ops : FloatOps) (hs : ops.sqrt 1 = 1) (k : ℚ) :
    Plane.intersect_triangle ops ⟨⟨0, 1, 0⟩, k⟩
      (Triangle.new ops ⟨-1, -1, -1⟩ ⟨1, -1, -1⟩ ⟨1, -1, 1⟩) = none := by
  unfold Plane.intersect_triangle
  simp [seg_y_flat ops hs k]

theorem tri_y_5 (ops : FloatOps) (hs : ops.sqrt 1 = 1) (k : ℚ)
    (hk1 : -1 ≤ k) (hk2 : k ≤ 1) :
    Plane.intersect_triangle ops ⟨⟨0, 1, 0⟩, k⟩
      (Triangle.new ops ⟨1, -1, -1⟩ ⟨1, 1, 1⟩ ⟨1, -1, 1⟩) =
      some (⟨1, k, k⟩, ⟨1, k, 1⟩) := by
  unfold Plane.intersect_triangle
  simp [seg_y_e17 ops hs k hk1 hk2, seg_y_e75 ops hs k hk1 hk2, seg_y_flat ops hs k]

theorem tri_y_5o (ops : FloatOps) (hs : ops.sqrt 1 = 1) (k : ℚ)
    (hk : k < -1 ∨ 1 < k) :
    Plane.intersect_triangle ops ⟨⟨0, 1, 0⟩, k⟩
      (Triangle.new ops ⟨1, -1, -1⟩ ⟨1, 1, 1⟩ ⟨1, -1, 1⟩) = none := by
  unfold Plane.intersect_triangle
  simp [seg_y_down_none ops hs k hk, seg_y_up_none ops hs k hk, seg_y_flat ops hs k]

theorem tri_y_6 (ops : FloatOps) (hs : ops.sqrt 1 = 1) (k : ℚ)
    (hk1 : -1 ≤ k) (hk2 : k ≤ 1) :
    Plane.intersect_triangle ops ⟨⟨0, 1, 0⟩, k⟩
      (Triangle.new ops ⟨1, -1, -1⟩ ⟨1, 1, -1⟩ ⟨1, 1, 1⟩) =
      some (⟨1, k, -1⟩, ⟨1, k, k⟩) := by
  unfold Plane.intersect_triangle
  simp [seg_y_e13 ops hs k hk1 hk2, seg_y_e17 ops hs k hk1 hk2, seg_y_flat ops hs k]

theorem tri_y_6o (ops : FloatOps) (hs : ops.sqrt 1 = 1) (k : ℚ)
    (hk : k < -1 ∨ 1 < k) :
    Plane.intersect_triangle ops ⟨⟨0, 1, 0⟩, k⟩
      (Triangle.new ops ⟨1, -1, -1⟩ ⟨1, 1, -1⟩ ⟨1, 1, 1⟩) = none := by
  unfold Plane.intersect_triangle
  simp [seg_y_up_none ops hs k hk, seg_y_flat ops hs k]

theorem tri_y_7 (ops : FloatOps) (hs : ops.sqrt 1 = 1) (k : ℚ)
    (hk1 : -1 ≤ k) (hk2 : k ≤ 1) :
    Plane.intersect_triangle ops ⟨⟨0, 1, 0⟩, k⟩
      (Triangle.new ops ⟨-1, 1, -1⟩ ⟨-1, -1, 1⟩ ⟨-1, 1, 1⟩) =
      some (⟨-1, k, -k⟩, ⟨-1, k, 1⟩) := by
  unfold Plane.intersect_triangle
  simp [seg_y_e24 ops hs k hk1 hk2, seg_y_e46 ops hs k hk1 hk2, seg_y_flat ops hs k]

theorem tri_y_7o (ops : FloatOps) (hs : ops.sqrt 1 = 1) (k : ℚ)
    (hk : k < -1 ∨ 1 < k) :
    Plane.intersect_triangle ops ⟨⟨0, 1, 0⟩, k⟩
      (Triangle.new ops ⟨-1, 1, -1⟩ ⟨-1, -1, 1⟩ ⟨-1, 1, 1⟩) = none := by
  unfold Plane.intersect_triangle
  simp [seg_y_down_none ops hs k hk, seg_y_up_none ops hs k hk, seg_y_flat ops hs k]

theorem tri_y_8 (ops : FloatOps) (hs : ops.sqrt 1 = 1) (k : ℚ)
    (hk1 : -1 ≤ k) (hk2 : k ≤ 1) :
    Plane.intersect_triangle ops ⟨⟨0, 1, 0⟩, k⟩
      (Triangle.new ops ⟨-1, 1, -1⟩ ⟨-1, -1, -1⟩ ⟨-1, -1, 1⟩) =
      some (⟨-1, k, -1⟩, ⟨-1, k, -k⟩) := by
  unfold Plane.intersect_triangle
  simp [seg_y_e20 ops hs k hk1 hk2, seg_y_e24 ops hs k hk1 hk2, seg_y_flat ops hs k]

theorem tri_y_8o (ops : FloatOps) (hs : ops.sqrt 1 = 1) (k : ℚ)
    (hk : k < -1 ∨ 1 < k) :
    Plane.intersect_triangle ops ⟨⟨0, 1, 0⟩, k⟩
      (Triangle.new ops ⟨-1, 1, -1⟩ ⟨-1, -1, -1⟩ ⟨-1, -1, 1⟩) = none := by
  unfold Plane.intersect_triangle
  simp [seg_y_down_none ops hs k hk, seg_y_flat ops hs k]

theorem tri_y_9 (ops : FloatOps) (hs : ops.sqrt 1 = 1) (k : ℚ) :
    Plane.intersect_triangle ops ⟨⟨0, 1, 0⟩, k⟩
      (Triangle.new ops ⟨1, 1, -1⟩ ⟨-1, 1, 1⟩ ⟨1, 1, 1⟩) = none := by
  unfold Plane.intersect_triangle
  simp [seg_y_flat ops hs k]

theorem tri_y_10 (ops : FloatOps) (hs : ops.sqrt 1 = 1) (k : ℚ) :
    Plane.intersect_triangle ops ⟨⟨0, 1, 0⟩, k⟩
      (Triangle.new ops ⟨1, 1, -1⟩ ⟨-1, 1, -1⟩ ⟨-1, 1, 1⟩) = none := by
  unfold Plane.intersect_triangle
  simp [seg_y_flat ops hs k]

theorem tri_y_11 (ops : FloatOps) (hs : ops.sqrt 1 = 1) (k : ℚ)
    (hk1 : -1 ≤ k) (hk2 : k ≤ 1) :
    Plane.intersect_triangle ops ⟨⟨0, 1, 0⟩, k⟩
      (Triangle.new ops ⟨-1, -1, 1⟩ ⟨1, 1, 1⟩ ⟨-1, 1, 1⟩) =
      some (⟨k, k, 1⟩, ⟨-1, k, 1⟩) := by
  unfold Plane.intersect_triangle
  simp [seg_y_e47 ops hs k hk1 hk2, seg_y_e46 ops hs k hk1 hk2, seg_y_flat ops hs k]

theorem tri_y_11o (ops : FloatOps) (hs : ops.sqrt 1 = 1) (k : ℚ)
    (hk : k < -1 ∨ 1 < k) :
    Plane.intersect_triangle ops ⟨⟨0, 1, 0⟩, k⟩
      (Triangle.new ops ⟨-1, -1, 1⟩ ⟨1, 1, 1⟩ ⟨-1, 1, 1⟩) = none := by
  unfold Plane.intersect_triangle
  simp [seg_y_up_none ops hs k hk, seg_y_flat ops hs k]

theorem tri_y_12 (ops : FloatOps) (hs : ops.sqrt 1 = 1) (k : ℚ)
    (hk1 : -1 ≤ k) (hk2 : k ≤ 1) :
    Plane.intersect_triangle ops ⟨⟨0, 1, 0⟩, k⟩
      (Triangle.new ops ⟨-1, -1, 1⟩ ⟨1, -1, 1⟩ ⟨1, 1, 1⟩) =
      some (⟨k, k, 1⟩, ⟨1, k, 1⟩) := by
  unfold Plane.intersect_triangle
  simp [seg_y_e47 ops hs k hk1 hk2, seg_y_e57 ops hs k hk1 hk2, seg_y_flat ops hs k]

theorem tri_y_12o (ops : FloatOps) (hs : ops.sqrt 1 = 1) (k : ℚ)
    (hk : k < -1 ∨ 1 < k) :
    Plane.intersect_triangle ops ⟨⟨0, 1, 0⟩, k⟩
      (Triangle.new ops ⟨-1, -1, 1⟩ ⟨1, -1, 1⟩ ⟨1, 1, 1⟩) = none := by
  unfold Plane.intersect_triangle
  simp [seg_y_up_none ops hs k hk, seg_y_flat ops hs k]

theorem tri_z_1 (ops : FloatOps) (hs : ops.sqrt 1 = 1) (k : ℚ) :
    Plane.intersect_triangle ops ⟨⟨0, 0, 1⟩, k⟩
      (Triangle.new ops ⟨-1, -1, -1⟩ ⟨1, 1, -1⟩ ⟨1, -1, -1⟩) = none := by
  unfold Plane.intersect_triangle
  simp [seg_z_flat ops hs k]

theorem tri_z_2 (ops : FloatOps) (hs : ops.sqrt 1 = 1) (k : ℚ) :
    Plane.intersect_triangle ops ⟨⟨0, 0, 1⟩, k⟩
      (Triangle.new ops ⟨-1, -1, -1⟩ ⟨-1, 1, -1⟩ ⟨1, 1, -1⟩) = none := by
  unfold Plane.intersect_triangle
  simp [seg_z_flat ops hs k]

theorem tri_z_3 (ops : FloatOps) (hs : ops.sqrt 1 = 1) (k : ℚ)
    (hk1 : -1 ≤ k) (hk2 : k ≤ 1) :
    Plane.intersect_triangle ops ⟨⟨0, 0, 1⟩, k⟩
      (Triangle.new ops ⟨-1, -1, -1⟩ ⟨1, -1, 1⟩ ⟨-1, -1, 1⟩) =
      some (⟨k, -1, k⟩, ⟨-1, -1, k⟩) := by
  unfold Plane.intersect_triangle
  simp [seg_z_e05 ops hs k hk1 hk2, seg_z_e04 ops hs k hk1 hk2, seg_z_flat ops hs k]

theorem tri_z_3o (ops : FloatOps) (hs : ops.sqrt 1 = 1) (k : ℚ)
    (hk : k < -1 ∨ 1 < k) :
    Plane.intersect_triangle ops ⟨⟨0, 0, 1⟩, k⟩
      (Triangle.new ops ⟨-1, -1, -1⟩ ⟨1, -1, 1⟩ ⟨-1, -1, 1⟩) = none := by
  unfold Plane.intersect_triangle
  simp [seg_z_up_none ops hs k hk, seg_z_flat ops hs k]

theorem tri_z_4 (ops : FloatOps) (hs : ops.sqrt 1 = 1) (k : ℚ)
    (hk1 : -1 ≤ k) (hk2 : k ≤ 1) :
    Plane.intersect_triangle ops ⟨⟨0, 0, 1⟩, k⟩
      (Triangle.new ops ⟨-1, -1, -1⟩ ⟨1, -1, -1⟩ ⟨1, -1, 1⟩) =
      some (⟨k, -1, k⟩, ⟨1, -1, k⟩) := by
  unfold Plane.intersect_triangle
  simp [seg_z_e05 ops hs k hk1 hk2, seg_z_e15 ops hs k hk1 hk2, seg_z_flat ops hs k]

theorem tri_z_4o (ops : FloatOps) (hs : ops.sqrt 1 = 1) (k : ℚ)
    (hk : k < -1 ∨ 1 < k) :
    Plane.intersect_triangle ops ⟨⟨0, 0, 1⟩, k⟩
      (Triangle.new ops ⟨-1, -1, -1⟩ ⟨1, -1, -1⟩ ⟨1, -1, 1⟩) = none := by
  unfold Plane.intersect_triangle
  simp [seg_z_up_none ops hs k hk, seg_z_flat ops hs k]

theorem tri_z_5 (ops : FloatOps) (hs : ops.sqrt 1 = 1) (k : ℚ)
    (hk1 : -1 ≤ k) (hk2 : k ≤ 1) :
    Plane.intersect_triangle ops ⟨⟨0, 0, 1⟩, k⟩
      (Triangle.new ops ⟨1, -1, -1⟩ ⟨1, 1, 1⟩ ⟨1, -1, 1⟩) =
      some (⟨1, k, k⟩, ⟨1, -1, k⟩) := by
  unfold Plane.intersect_triangle
  simp [seg_z_e17 ops hs k hk1 hk2, seg_z_e15 ops hs k hk1 hk2, seg_z_flat ops hs k]

theorem tri_z_5o (ops : FloatOps) (hs : ops.sqrt 1 = 1) (k : ℚ)
    (hk : k < -1 ∨ 1 < k) :
    Plane.intersect_triangle ops ⟨⟨0, 0, 1⟩, k⟩
      (Triangle.new ops ⟨1, -1, -1⟩ ⟨1, 1, 1⟩ ⟨1, -1, 1⟩) = none := by
  unfold Plane.intersect_triangle
  simp [seg_z_up_none ops hs k hk, seg_z_flat ops hs k]

theorem tri_z_6 (ops : FloatOps) (hs : ops.sqrt 1 = 1) (k : ℚ)
    (hk1 : -1 ≤ k) (hk2 : k ≤ 1) :
    Plane.intersect_triangle ops ⟨⟨0, 0, 1⟩, k⟩
      (Triangle.new ops ⟨1, -1, -1⟩ ⟨1, 1, -1⟩ ⟨1, 1, 1⟩) =
      some (⟨1, k, k⟩, ⟨1, 1, k⟩) := by
  unfold Plane.intersect_triangle
  simp [seg_z_e17 ops hs k hk1 hk2, seg_z_e37 ops hs k hk1 hk2, seg_z_flat ops hs k]

theorem tri_z_6o (ops : FloatOps) (hs : ops.sqrt 1 = 1) (k : ℚ)
    (hk : k < -1 ∨ 1 < k) :
    Plane.intersect_triangle ops ⟨⟨0, 0, 1⟩, k⟩
      (Triangle.new ops ⟨1, -1, -1⟩ ⟨1, 1, -1⟩ ⟨1, 1, 1⟩) = none := by
  unfold Plane.intersect_triangle
  simp [seg_z_up_none ops hs k hk, seg_z_flat ops hs k]

theorem tri_z_7 (ops : FloatOps) (hs : ops.sqrt 1 = 1) (k : ℚ)
    (hk1 : -1 ≤ k) (hk2 : k ≤ 1) :
    Plane.intersect_triangle ops ⟨⟨0, 0, 1⟩, k⟩
      (Triangle.new ops ⟨-1, 1, -1⟩ ⟨-1, -1, 1⟩ ⟨-1, 1, 1⟩) =
      some (⟨-1, -k, k⟩, ⟨-1, 1, k⟩) := by
  unfold Plane.intersect_triangle
  simp [seg_z_e24 ops hs k hk1 hk2, seg_z_e26 ops hs k hk1 hk2, seg_z_flat ops hs k]

theorem tri_z_7o (ops : FloatOps) (hs : ops.sqrt 1 = 1) (k : ℚ)
    (hk : k < -1 ∨ 1 < k) :
    Plane.intersect_triangle ops ⟨⟨0, 0, 1⟩, k⟩
      (Triangle.new ops ⟨-1, 1, -1⟩ ⟨-1, -1, 1⟩ ⟨-1, 1, 1⟩) = none := by
  unfold Plane.intersect_triangle
  simp [seg_z_up_none ops hs k hk, seg_z_flat ops hs k]

theorem tri_z_8 (ops : FloatOps) (hs : ops.sqrt 1 = 1) (k : ℚ)
    (hk1 : -1 ≤ k) (hk2 : k ≤ 1) :
    Plane.intersect_triangle ops ⟨⟨0, 0, 1⟩, k⟩
      (Triangle.new ops ⟨-1, 1, -1⟩ ⟨-1, -1, -1⟩ ⟨-1, -1, 1⟩) =
      some (⟨-1, -k, k⟩, ⟨-1, -1, k⟩) := by
  unfold Plane.intersect_triangle
  simp [seg_z_e24 ops hs k hk1 hk2, seg_z_e04 ops hs k hk1 hk2, seg_z_flat ops hs k]

theorem tri_z_8o (ops : FloatOps) (hs : ops.sqrt 1 = 1) (k : ℚ)
    (hk : k < -1 ∨ 1 < k) :
    Plane.intersect_triangle ops ⟨⟨0, 0, 1⟩, k⟩
      (Triangle.new ops ⟨-1, 1, -1⟩ ⟨-1, -1, -1⟩ ⟨-1, -1, 1⟩) = none := by
  unfold Plane.intersect_triangle
  simp [seg_z_up_none ops hs k hk, seg_z_flat ops hs k]

theorem tri_z_9 (ops : FloatOps) (hs : ops.sqrt 1 = 1) (k : ℚ)
    (hk1 : -1 ≤ k) (hk2 : k ≤ 1) :
    Plane.intersect_triangle ops ⟨⟨0, 0, 1⟩, k⟩
      (Triangle.new ops ⟨1, 1, -1⟩ ⟨-1, 1, 1⟩ ⟨1, 1, 1⟩) =
      some (⟨-k, 1, k⟩, ⟨1, 1, k⟩) := by
  unfold Plane.intersect_triangle
  simp [seg_z_e36 ops hs k hk1 hk2, seg_z_e37 ops hs k hk1 hk2, seg_z_flat ops hs k]

theorem tri_z_9o (ops : FloatOps) (hs : ops.sqrt 1 = 1) (k : ℚ)
    (hk : k < -1 ∨ 1 < k) :
    Plane.intersect_triangle ops ⟨⟨0, 0, 1⟩, k⟩
      (Triangle.new ops ⟨1, 1, -1⟩ ⟨-1, 1, 1⟩ ⟨1, 1, 1⟩) = none := by
  unfold Plane.intersect_triangle
  simp [seg_z_up_none ops hs k hk, seg_z_flat ops hs k]

theorem tri_z_10 (ops : FloatOps) (hs : ops.sqrt 1 = 1) (k : ℚ)
    (hk1 : -1 ≤ k) (hk2 : k ≤ 1) :
    Plane.intersect_triangle ops ⟨⟨0, 0, 1⟩, k⟩
      (Triangle.new ops ⟨1, 1, -1⟩ ⟨-1, 1, -1⟩ ⟨-1, 1, 1⟩) =
      some (⟨-k, 1, k⟩, ⟨-1, 1, k⟩) := by
  unfold Plane.intersect_triangle
  simp [seg_z_e36 ops hs k hk1 hk2, seg_z_e26 ops hs k hk1 hk2, seg_z_flat ops hs k]

theorem tri_z_10o (ops : FloatOps) (hs : ops.sqrt 1 = 1) (k : ℚ)
    (hk : k < -1 ∨ 1 < k) :
    Plane.intersect_triangle ops ⟨⟨0, 0, 1⟩, k⟩
      (Triangle.new ops ⟨1, 1, -1⟩ ⟨-1, 1, -1⟩ ⟨-1, 1, 1⟩) = none := by
  unfold Plane.intersect_triangle
  simp [seg_z_up_none ops hs k hk, seg_z_flat ops hs k]

theorem tri_z_11 (ops : FloatOps) (hs : ops.sqrt 1 = 1) (k : ℚ) :
    Plane.intersect_triangle ops ⟨⟨0, 0, 1⟩, k⟩
      (Triangle.new ops ⟨-1, -1, 1⟩ ⟨1, 1, 1⟩ ⟨-1, 1, 1⟩) = none := by
  unfold Plane.intersect_triangle
  simp [seg_z_flat ops hs k]

theorem tri_z_12 (ops : FloatOps) (hs : ops.sqrt 1 = 1) (k : ℚ) :
    Plane.intersect_triangle ops ⟨⟨0, 0, 1⟩, k⟩
      (Triangle.new ops ⟨-1, -1, 1⟩ ⟨1, -1, 1⟩ ⟨1, 1, 1⟩) = none := by
  unfold Plane.intersect_triangle
  simp [seg_z_flat ops hs k]

set_option maxHeartbeats 4000000 in
theorem cube_points_x (ops : FloatOps) (hs : ops.sqrt 1 = 1) (k : ℚ)
    (hk1 : -1 ≤ k) (hk2 : k ≤ 1) (h1 : eps ≤ (1 - k) ^ 2) (h2 : eps ≤ (1 + k) ^ 2) :
    cross_points_w ops ⟨⟨1, 0, 0⟩, k⟩ (unit_cube_triangulated ops) =
      [⟨k, k, -1⟩, ⟨k, -1, -1⟩, ⟨k, 1, -1⟩, ⟨k, -1, k⟩, ⟨k, -1, 1⟩, ⟨k, 1, -k⟩, ⟨k, 1, 1⟩, ⟨k, k, 1⟩] := by
  have heps4 : eps ≤ 4 := by norm_num [eps]
  have hD1 : dedup_push_w [] ⟨k, k, -1⟩ = [⟨k, k, -1⟩] := by
    unfold dedup_push_w
    simp
  have hC2 : (([⟨k, k, -1⟩] : List Vec3).any fun q => len_sqr (q - ⟨k, -1, -1⟩) < eps) = false := by
    simp only [List.any_cons, List.any_nil, Bool.or_false, Bool.or_eq_false_iff,
      decide_eq_false_iff_not, not_lt, Vec3.sub_mk, len_sqr_mk]
    nlinarith [h1, h2, heps4, sq_nonneg k, sq_nonneg (1 - k), sq_nonneg (1 + k)]
  have hD2 : dedup_push_w [⟨k, k, -1⟩] ⟨k, -1, -1⟩ = [⟨k, k, -1⟩, ⟨k, -1, -1⟩] := by
    unfold dedup_push_w
    rw [hC2]
    simp
  have hD3 : dedup_push_w [⟨k, k, -1⟩, ⟨k, -1, -1⟩] ⟨k, k, -1⟩ = [⟨k, k, -1⟩, ⟨k, -1, -1⟩] := by
    unfold dedup_push_w
    rw [if_pos]
    exact List.any_eq_true.mpr ⟨⟨k, k, -1⟩, by simp, by norm_num [eps]⟩
  have hC4 : (([⟨k, k, -1⟩, ⟨k, -1, -1⟩] : List Vec3).any fun q => len_sqr (q - ⟨k, 1, -1⟩) < eps) = false := by
    simp only [List.any_cons, List.any_nil, Bool.or_false, Bool.or_eq_false_iff,
      decide_eq_false_iff_not, not_lt, Vec3.sub_mk, len_sqr_mk]
    refine ⟨?_, ?_⟩ <;>
      nlinarith [h1, h2, heps4, sq_nonneg k, sq_nonneg (1 - k), sq_nonneg (1 + k)]
  have hD4 : dedup_push_w [⟨k, k, -1⟩, ⟨k, -1, -1⟩] ⟨k, 1, -1⟩ = [⟨k, k, -1⟩, ⟨k, -1, -1⟩, ⟨k, 1, -1⟩] := by
    unfold dedup_push_w
    rw [hC4]
    simp
  have hC5 : (([⟨k, k, -1⟩, ⟨k, -1, -1⟩, ⟨k, 1, -1⟩] : List Vec3).any fun q => len_sqr (q - ⟨k, -1, k⟩) < eps) = false := by
    simp only [List.any_cons, List.any_nil, Bool.or_false, Bool.or_eq_false_iff,
      decide_eq_false_iff_not, not_lt, Vec3.sub_mk, len_sqr_mk]
    refine ⟨?_, ?_, ?_⟩ <;>
      nlinarith [h1, h2, heps4, sq_nonneg k, sq_nonneg (1 - k), sq_nonneg (1 + k)]
  have hD5 : dedup_push_w [⟨k, k, -1⟩, ⟨k, -1, -1⟩, ⟨k, 1, -1⟩] ⟨k, -1, k⟩ = [⟨k, k, -1⟩, ⟨k, -1, -1⟩, ⟨k, 1, -1⟩, ⟨k, -1, k⟩] := by
    unfold dedup_push_w
    rw [hC5]
    simp
  have hC6 : (([⟨k, k, -1⟩, ⟨k, -1, -1⟩, ⟨k, 1, -1⟩, ⟨k, -1, k⟩] : List Vec3).any fun q => len_sqr (q - ⟨k, -1, 1⟩) < eps) = false := by
    simp only [List.any_cons, List.any_nil, Bool.or_false, Bool.or_eq_false_iff,
      decide_eq_false_iff_not, not_lt, Vec3.sub_mk, len_sqr_mk]
    refine ⟨?_, ?_, ?_, ?_⟩ <;>
      nlinarith [h1, h2, heps4, sq_nonneg k, sq_nonneg (1 - k), sq_nonneg (1 + k)]
  have hD6 : dedup_push_w [⟨k, k, -1⟩, ⟨k, -1, -1⟩, ⟨k, 1, -1⟩, ⟨k, -1, k⟩] ⟨k, -1, 1⟩ = [⟨k, k, -1⟩, ⟨k, -1, -1⟩, ⟨k, 1, -1⟩, ⟨k, -1, k⟩, ⟨k, -1, 1⟩] := by
    unfold dedup_push_w
    rw [hC6]
    simp
  have hD7 : dedup_push_w [⟨k, k, -1⟩, ⟨k, -1, -1⟩, ⟨k, 1, -1⟩, ⟨k, -1, k⟩, ⟨k, -1, 1⟩] ⟨k, -1, -1⟩ = [⟨k, k, -1⟩, ⟨k, -1, -1⟩, ⟨k, 1, -1⟩, ⟨k, -1, k⟩, ⟨k, -1, 1⟩] := by
    unfold dedup_push_w
    rw [if_pos]
    exact List.any_eq_true.mpr ⟨⟨k, -1, -1⟩, by simp, by norm_num [eps]⟩
  have hD8 : dedup_push_w [⟨k, k, -1⟩, ⟨k, -1, -1⟩, ⟨k, 1, -1⟩, ⟨k, -1, k⟩, ⟨k, -1, 1⟩] ⟨k, -1, k⟩ = [⟨k, k, -1⟩, ⟨k, -1, -1⟩, ⟨k, 1, -1⟩, ⟨k, -1, k⟩, ⟨k, -1, 1⟩] := by
    unfold dedup_push_w
    rw [if_pos]
    exact List.any_eq_true.mpr ⟨⟨k, -1, k⟩, by simp, by norm_num [eps]⟩
  have hC9 : (([⟨k, k, -1⟩, ⟨k, -1, -1⟩, ⟨k, 1, -1⟩, ⟨k, -1, k⟩, ⟨k, -1, 1⟩] : List Vec3).any fun q => len_sqr (q - ⟨k, 1, -k⟩) < eps) = false := by
    simp only [List.any_cons, List.any_nil, Bool.or_false, Bool.or_eq_false_iff,
      decide_eq_false_iff_not, not_lt, Vec3.sub_mk, len_sqr_mk]
    refine ⟨?_, ?_, ?_, ?_, ?_⟩ <;>
      nlinarith [h1, h2, heps4, sq_nonneg k, sq_nonneg (1 - k), sq_nonneg (1 + k)]
  have hD9 : dedup_push_w [⟨k, k, -1⟩, ⟨k, -1, -1⟩, ⟨k, 1, -1⟩, ⟨k, -1, k⟩, ⟨k, -1, 1⟩] ⟨k, 1, -k⟩ = [⟨k, k, -1⟩, ⟨k, -1, -1⟩, ⟨k, 1, -1⟩, ⟨k, -1, k⟩, ⟨k, -1, 1⟩, ⟨k, 1, -k⟩] := by
    unfold dedup_push_w
    rw [hC9]
    simp
  have hC10 : (([⟨k, k, -1⟩, ⟨k, -1, -1⟩, ⟨k, 1, -1⟩, ⟨k, -1, k⟩, ⟨k, -1, 1⟩, ⟨k, 1, -k⟩] : List Vec3).any fun q => len_sqr (q - ⟨k, 1, 1⟩) < eps) = false := by
    simp only [List.any_cons, List.any_nil, Bool.or_false, Bool.or_eq_false_iff,
      decide_eq_false_iff_not, not_lt, Vec3.sub_mk, len_sqr_mk]
    refine ⟨?_, ?_, ?_, ?_, ?_, ?_⟩ <;>
      nlinarith [h1, h2, heps4, sq_nonneg k, sq_nonneg (1 - k), sq_nonneg (1 + k)]
  have hD10 : dedup_push_w [⟨k, k, -1⟩, ⟨k, -1, -1⟩, ⟨k, 1, -1⟩, ⟨k, -1, k⟩, ⟨k, -1, 1⟩, ⟨k, 1, -k⟩] ⟨k, 1, 1⟩ = [⟨k, k, -1⟩, ⟨k, -1, -1⟩, ⟨k, 1, -1⟩, ⟨k, -1, k⟩, ⟨k, -1, 1⟩, ⟨k, 1, -k⟩, ⟨k, 1, 1⟩] := by
    unfold dedup_push_w
    rw [hC10]
    simp
  have hD11 : dedup_push_w [⟨k, k, -1⟩, ⟨k, -1, -1⟩, ⟨k, 1, -1⟩, ⟨k, -1, k⟩, ⟨k, -1, 1⟩, ⟨k, 1, -k⟩, ⟨k, 1, 1⟩] ⟨k, 1, -1⟩ = [⟨k, k, -1⟩, ⟨k, -1, -1⟩, ⟨k, 1, -1⟩, ⟨k, -1, k⟩, ⟨k, -1, 1⟩, ⟨k, 1, -k⟩, ⟨k, 1, 1⟩] := by
    unfold dedup_push_w
    rw [if_pos]
    exact List.any_eq_true.mpr ⟨⟨k, 1, -1⟩, by simp, by norm_num [eps]⟩
  have hD12 : dedup_push_w [⟨k, k, -1⟩, ⟨k, -1, -1⟩, ⟨k, 1, -1⟩, ⟨k, -1, k⟩, ⟨k, -1, 1⟩, ⟨k, 1, -k⟩, ⟨k, 1, 1⟩] ⟨k, 1, -k⟩ = [⟨k, k, -1⟩, ⟨k, -1, -1⟩, ⟨k, 1, -1⟩, ⟨k, -1, k⟩, ⟨k, -1, 1⟩, ⟨k, 1, -k⟩, ⟨k, 1, 1⟩] := by
    unfold dedup_push_w
    rw [if_pos]
    exact List.any_eq_true.mpr ⟨⟨k, 1, -k⟩, by simp, by norm_num [eps]⟩
  have hC13 : (([⟨k, k, -1⟩, ⟨k, -1, -1⟩, ⟨k, 1, -1⟩, ⟨k, -1, k⟩, ⟨k, -1, 1⟩, ⟨k, 1, -k⟩, ⟨k, 1, 1⟩] : List Vec3).any fun q => len_sqr (q - ⟨k, k, 1⟩) < eps) = false := by
    simp only [List.any_cons, List.any_nil, Bool.or_false, Bool.or_eq_false_iff,
      decide_eq_false_iff_not, not_lt, Vec3.sub_mk, len_sqr_mk]
    refine ⟨?_, ?_, ?_, ?_, ?_, ?_, ?_⟩ <;>
      nlinarith [h1, h2, heps4, sq_nonneg k, sq_nonneg (1 - k), sq_nonneg (1 + k)]
  have hD13 : dedup_push_w [⟨k, k, -1⟩, ⟨k, -1, -1⟩, ⟨k, 1, -1⟩, ⟨k, -1, k⟩, ⟨k, -1, 1⟩, ⟨k, 1, -k⟩, ⟨k, 1, 1⟩] ⟨k, k, 1⟩ = [⟨k, k, -1⟩, ⟨k, -1, -1⟩, ⟨k, 1, -1⟩, ⟨k, -1, k⟩, ⟨k, -1, 1⟩, ⟨k, 1, -k⟩, ⟨k, 1, 1⟩, ⟨k, k, 1⟩] := by
    unfold dedup_push_w
    rw [hC13]
    simp
  have hD14 : dedup_push_w [⟨k, k, -1⟩, ⟨k, -1, -1⟩, ⟨k, 1, -1⟩, ⟨k, -1, k⟩, ⟨k, -1, 1⟩, ⟨k, 1, -k⟩, ⟨k, 1, 1⟩, ⟨k, k, 1⟩] ⟨k, 1, 1⟩ = [⟨k, k, -1⟩, ⟨k, -1, -1⟩, ⟨k, 1, -1⟩, ⟨k, -1, k⟩, ⟨k, -1, 1⟩, ⟨k, 1, -k⟩, ⟨k, 1, 1⟩, ⟨k, k, 1⟩] := by
    unfold dedup_push_w
    rw [if_pos]
    exact List.any_eq_true.mpr ⟨⟨k, 1, 1⟩, by simp, by norm_num [eps]⟩
  have hD15 : dedup_push_w [⟨k, k, -1⟩, ⟨k, -1, -1⟩, ⟨k, 1, -1⟩, ⟨k, -1, k⟩, ⟨k, -1, 1⟩, ⟨k, 1, -k⟩, ⟨k, 1, 1⟩, ⟨k, k, 1⟩] ⟨k, -1, 1⟩ = [⟨k, k, -1⟩, ⟨k, -1, -1⟩, ⟨k, 1, -1⟩, ⟨k, -1, k⟩, ⟨k, -1, 1⟩, ⟨k, 1, -k⟩, ⟨k, 1, 1⟩, ⟨k, k, 1⟩] := by
    unfold dedup_push_w
    rw [if_pos]
    exact List.any_eq_true.mpr ⟨⟨k, -1, 1⟩, by simp, by norm_num [eps]⟩
  have hD16 : dedup_push_w [⟨k, k, -1⟩, ⟨k, -1, -1⟩, ⟨k, 1, -1⟩, ⟨k, -1, k⟩, ⟨k, -1, 1⟩, ⟨k, 1, -k⟩, ⟨k, 1, 1⟩, ⟨k, k, 1⟩] ⟨k, k, 1⟩ = [⟨k, k, -1⟩, ⟨k, -1, -1⟩, ⟨k, 1, -1⟩, ⟨k, -1, k⟩, ⟨k, -1, 1⟩, ⟨k, 1, -k⟩, ⟨k, 1, 1⟩, ⟨k, k, 1⟩] := by
    unfold dedup_push_w
    rw [if_pos]
    exact List.any_eq_true.mpr ⟨⟨k, k, 1⟩, by simp, by norm_num [eps]⟩
  rw [unit_cube_triangulated_eq, cross_points_w]
  simp only [List.foldl_cons, List.foldl_nil,
    tri_x_1 ops hs k hk1 hk2,
    tri_x_2 ops hs k hk1 hk2,
    tri_x_3 ops hs k hk1 hk2,
    tri_x_4 ops hs k hk1 hk2,
    tri_x_5 ops hs k,
    tri_x_6 ops hs k,
    tri_x_7 ops hs k,
    tri_x_8 ops hs k,
    tri_x_9 ops hs k hk1 hk2,
    tri_x_10 ops hs k hk1 hk2,
    tri_x_11 ops hs k hk1 hk2,
    tri_x_12 ops hs k hk1 hk2]
  rw [hD1, hD2, hD3, hD4, hD5, hD6, hD7, hD8, hD9, hD10, hD11, hD12, hD13, hD14, hD15, hD16]

set_option maxHeartbeats 1000000 in
theorem cube_points_x_empty (ops : FloatOps) (hs : ops.sqrt 1 = 1) (k : ℚ)
    (hk : k < -1 ∨ 1 < k) :
    cross_points_w ops ⟨⟨1, 0, 0⟩, k⟩ (unit_cube_triangulated ops) = [] := by
  rw [unit_cube_triangulated_eq, cross_points_w]
  simp only [List.foldl_cons, List.foldl_nil,
    tri_x_1o ops hs k hk,
    tri_x_2o ops hs k hk,
    tri_x_3o ops hs k hk,
    tri_x_4o ops hs k hk,
    tri_x_5 ops hs k,
    tri_x_6 ops hs k,
    tri_x_7 ops hs k,
    tri_x_8 ops hs k,
    tri_x_9o ops hs k hk,
    tri_x_10o ops hs k hk,
    tri_x_11o ops hs k hk,
    tri_x_12o ops hs k hk]

theorem cube_cross_x (ops : FloatOps) (hs : ops.sqrt 1 = 1) (k : ℚ)
    (hk1 : -1 ≤ k) (hk2 : k ≤ 1) (h1 : eps ≤ (1 - k) ^ 2) (h2 : eps ≤ (1 + k) ^ 2) :
    ((Plane.cross_sect ops ⟨⟨1, 0, 0⟩, k⟩ (unit_cube_triangulated ops)).map
        CrossSectionVertex.world_pos).Perm
      [⟨k, k, -1⟩, ⟨k, -1, -1⟩, ⟨k, 1, -1⟩, ⟨k, -1, k⟩, ⟨k, -1, 1⟩, ⟨k, 1, -k⟩, ⟨k, 1, 1⟩, ⟨k, k, 1⟩] ∧
    (Plane.cross_sect ops ⟨⟨1, 0, 0⟩, k⟩ (unit_cube_triangulated ops)).length = 8 := by
  have hpts := cube_points_x ops hs k hk1 hk2 h1 h2
  have hmap := cross_sect_points_map_world ops ⟨⟨1, 0, 0⟩, k⟩ (unit_cube_triangulated ops)
  have hmp : (Plane.cross_sect_points ops ⟨⟨1, 0, 0⟩, k⟩
      (unit_cube_triangulated ops)).map CrossSectionVertex.world_pos =
      [⟨k, k, -1⟩, ⟨k, -1, -1⟩, ⟨k, 1, -1⟩, ⟨k, -1, k⟩, ⟨k, -1, 1⟩, ⟨k, 1, -k⟩, ⟨k, 1, 1⟩, ⟨k, k, 1⟩] := hmap.trans hpts
  constructor
  · exact (cross_sect_map_world ops _ _).trans (hmp ▸ List.Perm.refl _)
  · rw [cross_sect_length]
    have := congrArg List.length hmp
    rw [List.length_map] at this
    rw [this]
    rfl

theorem cube_cross_x_empty (ops : FloatOps) (hs : ops.sqrt 1 = 1) (k : ℚ)
    (hk : k < -1 ∨ 1 < k) :
    Plane.cross_sect ops ⟨⟨1, 0, 0⟩, k⟩ (unit_cube_triangulated ops) = [] := by
  have hpts := cube_points_x_empty ops hs k hk
  have hmap := cross_sect_points_map_world ops ⟨⟨1, 0, 0⟩, k⟩ (unit_cube_triangulated ops)
  have hempty : Plane.cross_sect_points ops ⟨⟨1, 0, 0⟩, k⟩ (unit_cube_triangulated ops) = [] :=
    List.map_eq_nil.mp (hmap.trans hpts)
  rw [Plane.cross_sect, hempty]
  rfl

set_option maxHeartbeats 4000000 in
theorem cube_points_y (ops : FloatOps) (hs : ops.sqrt 1 = 1) (k : ℚ)
    (hk1 : -1 ≤ k) (hk2 : k ≤ 1) (h1 : eps ≤ (1 - k) ^ 2) (h2 : eps ≤ (1 + k) ^ 2) :
    cross_points_w ops ⟨⟨0, 1, 0⟩, k⟩ (unit_cube_triangulated ops) =
      [⟨k, k, -1⟩, ⟨1, k, -1⟩, ⟨-1, k, -1⟩, ⟨1, k, k⟩, ⟨1, k, 1⟩, ⟨-1, k, -k⟩, ⟨-1, k, 1⟩, ⟨k, k, 1⟩] := by
  have heps4 : eps ≤ 4 := by norm_num [eps]
  have hD1 : dedup_push_w [] ⟨k, k, -1⟩ = [⟨k, k, -1⟩] := by
    unfold dedup_push_w
    simp
  have hC2 : (([⟨k, k, -1⟩] : List Vec3).any fun q => len_sqr (q - ⟨1, k, -1⟩) < eps) = false := by
    simp only [List.any_cons, List.any_nil, Bool.or_false, Bool.or_eq_false_iff,
      decide_eq_false_iff_not, not_lt, Vec3.sub_mk, len_sqr_mk]
    nlinarith [h1, h2, heps4, sq_nonneg k, sq_nonneg (1 - k), sq_nonneg (1 + k)]
  have hD2 : dedup_push_w [⟨k, k, -1⟩] ⟨1, k, -1⟩ = [⟨k, k, -1⟩, ⟨1, k, -1⟩] := by
    unfold dedup_push_w
    rw [hC2]
    simp
  have hC3 : (([⟨k, k, -1⟩, ⟨1, k, -1⟩] : List Vec3).any fun q => len_sqr (q - ⟨-1, k, -1⟩) < eps) = false := by
    simp only [List.any_cons, List.any_nil, Bool.or_false, Bool.or_eq_false_iff,
      decide_eq_false_iff_not, not_lt, Vec3.sub_mk, len_sqr_mk]
    refine ⟨?_, ?_⟩ <;>
      nlinarith [h1, h2, heps4, sq_nonneg k, sq_nonneg (1 - k), sq_nonneg (1 + k)]
  have hD3 : dedup_push_w [⟨k, k, -1⟩, ⟨1, k, -1⟩] ⟨-1, k, -1⟩ = [⟨k, k, -1⟩, ⟨1, k, -1⟩, ⟨-1, k, -1⟩] := by
    unfold dedup_push_w
    rw [hC3]
    simp
  have hD4 : dedup_push_w [⟨k, k, -1⟩, ⟨1, k, -1⟩, ⟨-1, k, -1⟩] ⟨k, k, -1⟩ = [⟨k, k, -1⟩, ⟨1, k, -1⟩, ⟨-1, k, -1⟩] := by
    unfold dedup_push_w
    rw [if_pos]
    exact List.any_eq_true.mpr ⟨⟨k, k, -1⟩, by simp, by norm_num [eps]⟩
  have hC5 : (([⟨k, k, -1⟩, ⟨1, k, -1⟩, ⟨-1, k, -1⟩] : List Vec3).any fun q => len_sqr (q - ⟨1, k, k⟩) < eps) = false := by
    simp only [List.any_cons, List.any_nil, Bool.or_false, Bool.or_eq_false_iff,
      decide_eq_false_iff_not, not_lt, Vec3.sub_mk, len_sqr_mk]
    refine ⟨?_, ?_, ?_⟩ <;>
      nlinarith [h1, h2, heps4, sq_nonneg k, sq_nonneg (1 - k), sq_nonneg (1 + k)]
  have hD5 : dedup_push_w [⟨k, k, -1⟩, ⟨1, k, -1⟩, ⟨-1, k, -1⟩] ⟨1, k, k⟩ = [⟨k, k, -1⟩, ⟨1, k, -1⟩, ⟨-1, k, -1⟩, ⟨1, k, k⟩] := by
    unfold dedup_push_w
    rw [hC5]
    simp
  have hC6 : (([⟨k, k, -1⟩, ⟨1, k, -1⟩, ⟨-1, k, -1⟩, ⟨1, k, k⟩] : List Vec3).any fun q => len_sqr (q - ⟨1, k, 1⟩) < eps) = false := by
    simp only [List.any_cons, List.any_nil, Bool.or_false, Bool.or_eq_false_iff,
      decide_eq_false_iff_not, not_lt, Vec3.sub_mk, len_sqr_mk]
    refine ⟨?_, ?_, ?_, ?_⟩ <;>
      nlinarith [h1, h2, heps4, sq_nonneg k, sq_nonneg (1 - k), sq_nonneg (1 + k)]
  have hD6 : dedup_push_w [⟨k, k, -1⟩, ⟨1, k, -1⟩, ⟨-1, k, -1⟩, ⟨1, k, k⟩] ⟨1, k, 1⟩ = [⟨k, k, -1⟩, ⟨1, k, -1⟩, ⟨-1, k, -1⟩, ⟨1, k, k⟩, ⟨1, k, 1⟩] := by
    unfold dedup_push_w
    rw [hC6]
    simp
  have hD7 : dedup_push_w [⟨k, k, -1⟩, ⟨1, k, -1⟩, ⟨-1, k, -1⟩, ⟨1, k, k⟩, ⟨1, k, 1⟩] ⟨1, k, -1⟩ = [⟨k, k, -1⟩, ⟨1, k, -1⟩, ⟨-1, k, -1⟩, ⟨1, k, k⟩, ⟨1, k, 1⟩] := by
    unfold dedup_push_w
    rw [if_pos]
    exact List.any_eq_true.mpr ⟨⟨1, k, -1⟩, by simp, by norm_num [eps]⟩
  have hD8 : dedup_push_w [⟨k, k, -1⟩, ⟨1, k, -1⟩, ⟨-1, k, -1⟩, ⟨1, k, k⟩, ⟨1, k, 1⟩] ⟨1, k, k⟩ = [⟨k, k, -1⟩, ⟨1, k, -1⟩, ⟨-1, k, -1⟩, ⟨1, k, k⟩, ⟨1, k, 1⟩] := by
    unfold dedup_push_w
    rw [if_pos]
    exact List.any_eq_true.mpr ⟨⟨1, k, k⟩, by simp, by norm_num [eps]⟩
  have hC9 : (([⟨k, k, -1⟩, ⟨1, k, -1⟩, ⟨-1, k, -1⟩, ⟨1, k, k⟩, ⟨1, k, 1⟩] : List Vec3).any fun q => len_sqr (q - ⟨-1, k, -k⟩) < eps) = false := by
    simp only [List.any_cons, List.any_nil, Bool.or_false, Bool.or_eq_false_iff,
      decide_eq_false_iff_not, not_lt, Vec3.sub_mk, len_sqr_mk]
    refine ⟨?_, ?_, ?_, ?_, ?_⟩ <;>
      nlinarith [h1, h2, heps4, sq_nonneg k, sq_nonneg (1 - k), sq_nonneg (1 + k)]
  have hD9 : dedup_push_w [⟨k, k, -1⟩, ⟨1, k, -1⟩, ⟨-1, k, -1⟩, ⟨1, k, k⟩, ⟨1, k, 1⟩] ⟨-1, k, -k⟩ = [⟨k, k, -1⟩, ⟨1, k, -1⟩, ⟨-1, k, -1⟩, ⟨1, k, k⟩, ⟨1, k, 1⟩, ⟨-1, k, -k⟩] := by
    unfold dedup_push_w
    rw [hC9]
    simp
  have hC10 : (([⟨k, k, -1⟩, ⟨1, k, -1⟩, ⟨-1, k, -1⟩, ⟨1, k, k⟩, ⟨1, k, 1⟩, ⟨-1, k, -k⟩] : List Vec3).any fun q => len_sqr (q - ⟨-1, k, 1⟩) < eps) = false := by
    simp only [List.any_cons, List.any_nil, Bool.or_false, Bool.or_eq_false_iff,
      decide_eq_false_iff_not, not_lt, Vec3.sub_mk, len_sqr_mk]
    refine ⟨?_, ?_, ?_, ?_, ?_, ?_⟩ <;>
      nlinarith [h1, h2, heps4, sq_nonneg k, sq_nonneg (1 - k), sq_nonneg (1 + k)]
  have hD10 : dedup_push_w [⟨k, k, -1⟩, ⟨1, k, -1⟩, ⟨-1, k, -1⟩, ⟨1, k, k⟩, ⟨1, k, 1⟩, ⟨-1, k, -k⟩] ⟨-1, k, 1⟩ = [⟨k, k, -1⟩, ⟨1, k, -1⟩, ⟨-1, k, -1⟩, ⟨1, k, k⟩, ⟨1, k, 1⟩, ⟨-1, k, -k⟩, ⟨-1, k, 1⟩] := by
    unfold dedup_push_w
    rw [hC10]
    simp
  have hD11 : dedup_push_w [⟨k, k, -1⟩, ⟨1, k, -1⟩, ⟨-1, k, -1⟩, ⟨1, k, k⟩, ⟨1, k, 1⟩, ⟨-1, k, -k⟩, ⟨-1, k, 1⟩] ⟨-1, k, -1⟩ = [⟨k, k, -1⟩, ⟨1, k, -1⟩, ⟨-1, k, -1⟩, ⟨1, k, k⟩, ⟨1, k, 1⟩, ⟨-1, k, -k⟩, ⟨-1, k, 1⟩] := by
    unfold dedup_push_w
    rw [if_pos]
    exact List.any_eq_true.mpr ⟨⟨-1, k, -1⟩, by simp, by norm_num [eps]⟩
  have hD12 : dedup_push_w [⟨k, k, -1⟩, ⟨1, k, -1⟩, ⟨-1, k, -1⟩, ⟨1, k, k⟩, ⟨1, k, 1⟩, ⟨-1, k, -k⟩, ⟨-1, k, 1⟩] ⟨-1, k, -k⟩ = [⟨k, k, -1⟩, ⟨1, k, -1⟩, ⟨-1, k, -1⟩, ⟨1, k, k⟩, ⟨1, k, 1⟩, ⟨-1, k, -k⟩, ⟨-1, k, 1⟩] := by
    unfold dedup_push_w
    rw [if_pos]
    exact List.any_eq_true.mpr ⟨⟨-1, k, -k⟩, by simp, by norm_num [eps]⟩
  have hC13 : (([⟨k, k, -1⟩, ⟨1, k, -1⟩, ⟨-1, k, -1⟩, ⟨1, k, k⟩, ⟨1, k, 1⟩, ⟨-1, k, -k⟩, ⟨-1, k, 1⟩] : List Vec3).any fun q => len_sqr (q - ⟨k, k, 1⟩) < eps) = false := by
    simp only [List.any_cons, List.any_nil, Bool.or_false, Bool.or_eq_false_iff,
      decide_eq_false_iff_not, not_lt, Vec3.sub_mk, len_sqr_mk]
    refine ⟨?_, ?_, ?_, ?_, ?_, ?_, ?_⟩ <;>
      nlinarith [h1, h2, heps4, sq_nonneg k, sq_nonneg (1 - k), sq_nonneg (1 + k)]
  have hD13 : dedup_push_w [⟨k, k, -1⟩, ⟨1, k, -1⟩, ⟨-1, k, -1⟩, ⟨1, k, k⟩, ⟨1, k, 1⟩, ⟨-1, k, -k⟩, ⟨-1, k, 1⟩] ⟨k, k, 1⟩ = [⟨k, k, -1⟩, ⟨1, k, -1⟩, ⟨-1, k, -1⟩, ⟨1, k, k⟩, ⟨1, k, 1⟩, ⟨-1, k, -k⟩, ⟨-1, k, 1⟩, ⟨k, k, 1⟩] := by
    unfold dedup_push_w
    rw [hC13]
    simp
  have hD14 : dedup_push_w [⟨k, k, -1⟩, ⟨1, k, -1⟩, ⟨-1, k, -1⟩, ⟨1, k, k⟩, ⟨1, k, 1⟩, ⟨-1, k, -k⟩, ⟨-1, k, 1⟩, ⟨k, k, 1⟩] ⟨-1, k, 1⟩ = [⟨k, k, -1⟩, ⟨1, k, -1⟩, ⟨-1, k, -1⟩, ⟨1, k, k⟩, ⟨1, k, 1⟩, ⟨-1, k, -k⟩, ⟨-1, k, 1⟩, ⟨k, k, 1⟩] := by
    unfold dedup_push_w
    rw [if_pos]
    exact List.any_eq_true.mpr ⟨⟨-1, k, 1⟩, by simp, by norm_num [eps]⟩
  have hD15 : dedup_push_w [⟨k, k, -1⟩, ⟨1, k, -1⟩, ⟨-1, k, -1⟩, ⟨1, k, k⟩, ⟨1, k, 1⟩, ⟨-1, k, -k⟩, ⟨-1, k, 1⟩, ⟨k, k, 1⟩] ⟨k, k, 1⟩ = [⟨k, k, -1⟩, ⟨1, k, -1⟩, ⟨-1, k, -1⟩, ⟨1, k, k⟩, ⟨1, k, 1⟩, ⟨-1, k, -k⟩, ⟨-1, k, 1⟩, ⟨k, k, 1⟩] := by
    unfold dedup_push_w
    rw [if_pos]
    exact List.any_eq_true.mpr ⟨⟨k, k, 1⟩, by simp, by norm_num [eps]⟩
  have hD16 : dedup_push_w [⟨k, k, -1⟩, ⟨1, k, -1⟩, ⟨-1, k, -1⟩, ⟨1, k, k⟩, ⟨1, k, 1⟩, ⟨-1, k, -k⟩, ⟨-1, k, 1⟩, ⟨k, k, 1⟩] ⟨1, k, 1⟩ = [⟨k, k, -1⟩, ⟨1, k, -1⟩, ⟨-1, k, -1⟩, ⟨1, k, k⟩, ⟨1, k, 1⟩, ⟨-1, k, -k⟩, ⟨-1, k, 1⟩, ⟨k, k, 1⟩] := by
    unfold dedup_push_w
    rw [if_pos]
    exact List.any_eq_true.mpr ⟨⟨1, k, 1⟩, by simp, by norm_num [eps]⟩
  rw [unit_cube_triangulated_eq, cross_points_w]
  simp only [List.foldl_cons, List.foldl_nil,
    tri_y_1 ops hs k hk1 hk2,
    tri_y_2 ops hs k hk1 hk2,
    tri_y_3 ops hs k,
    tri_y_4 ops hs k,
    tri_y_5 ops hs k hk1 hk2,
    tri_y_6 ops hs k hk1 hk2,
    tri_y_7 ops hs k hk1 hk2,
    tri_y_8 ops hs k hk1 hk2,
    tri_y_9 ops hs k,
    tri_y_10 ops hs k,
    tri_y_11 ops hs k hk1 hk2,
    tri_y_12 ops hs k hk1 hk2]
  rw [hD1, hD2, hD3, hD4, hD5, hD6, hD7, hD8, hD9, hD10, hD11, hD12, hD13, hD14, hD15, hD16]

set_option maxHeartbeats 1000000 in
theorem cube_points_y_empty (ops : FloatOps) (hs : ops.sqrt 1 = 1) (k : ℚ)
    (hk : k < -1 ∨ 1 < k) :
    cross_points_w ops ⟨⟨0, 1, 0⟩, k⟩ (unit_cube_triangulated ops) = [] := by
  rw [unit_cube_triangulated_eq, cross_points_w]
  simp only [List.foldl_cons, List.foldl_nil,
    tri_y_1o ops hs k hk,
    tri_y_2o ops hs k hk,
    tri_y_3 ops hs k,
    tri_y_4 ops hs k,
    tri_y_5o ops hs k hk,
    tri_y_6o ops hs k hk,
    tri_y_7o ops hs k hk,
    tri_y_8o ops hs k hk,
    tri_y_9 ops hs k,
    tri_y_10 ops hs k,
    tri_y_11o ops hs k hk,
    tri_y_12o ops hs k hk]

theorem cube_cross_y (ops : FloatOps) (hs : ops.sqrt 1 = 1) (k : ℚ)
    (hk1 : -1 ≤ k) (hk2 : k ≤ 1) (h1 : eps ≤ (1 - k) ^ 2) (h2 : eps ≤ (1 + k) ^ 2) :
    ((Plane.cross_sect ops ⟨⟨0, 1, 0⟩, k⟩ (unit_cube_triangulated ops)).map
        CrossSectionVertex.world_pos).Perm
      [⟨k, k, -1⟩, ⟨1, k, -1⟩, ⟨-1, k, -1⟩, ⟨1, k, k⟩, ⟨1, k, 1⟩, ⟨-1, k, -k⟩, ⟨-1, k, 1⟩, ⟨k, k, 1⟩] ∧
    (Plane.cross_sect ops ⟨⟨0, 1, 0⟩, k⟩ (unit_cube_triangulated ops)).length = 8 := by
  have hpts := cube_points_y ops hs k hk1 hk2 h1 h2
  have hmap := cross_sect_points_map_world ops ⟨⟨0, 1, 0⟩, k⟩ (unit_cube_triangulated ops)
  have hmp : (Plane.cross_sect_points ops ⟨⟨0, 1, 0⟩, k⟩
      (unit_cube_triangulated ops)).map CrossSectionVertex.world_pos =
      [⟨k, k, -1⟩, ⟨1, k, -1⟩, ⟨-1, k, -1⟩, ⟨1, k, k⟩, ⟨1, k, 1⟩, ⟨-1, k, -k⟩, ⟨-1, k, 1⟩, ⟨k, k, 1⟩] := hmap.trans hpts
  constructor
  · exact (cross_sect_map_world ops _ _).trans (hmp ▸ List.Perm.refl _)
  · rw [cross_sect_length]
    have := congrArg List.length hmp
    rw [List.length_map] at this
    rw [this]
    rfl

theorem cube_cross_y_empty (ops : FloatOps) (hs : ops.sqrt 1 = 1) (k : ℚ)
    (hk : k < -1 ∨ 1 < k) :
    Plane.cross_sect ops ⟨⟨0, 1, 0⟩, k⟩ (unit_cube_triangulated ops) = [] := by
  have hpts := cube_points_y_empty ops hs k hk
  have hmap := cross_sect_points_map_world ops ⟨⟨0, 1, 0⟩, k⟩ (unit_cube_triangulated ops)
  have hempty : Plane.cross_sect_points ops ⟨⟨0, 1, 0⟩, k⟩ (unit_cube_triangulated ops) = [] :=
    List.map_eq_nil.mp (hmap.trans hpts)
  rw [Plane.cross_sect, hempty]
  rfl

set_option maxHeartbeats 4000000 in
theorem cube_points_z (ops : FloatOps) (hs : ops.sqrt 1 = 1) (k : ℚ)
    (hk1 : -1 ≤ k) (hk2 : k ≤ 1) (h1 : eps ≤ (1 - k) ^ 2) (h2 : eps ≤ (1 + k) ^ 2) :
    cross_points_w ops ⟨⟨0, 0, 1⟩, k⟩ (unit_cube_triangulated ops) =
      [⟨k, -1, k⟩, ⟨-1, -1, k⟩, ⟨1, -1, k⟩, ⟨1, k, k⟩, ⟨1, 1, k⟩, ⟨-1, -k, k⟩, ⟨-1, 1, k⟩, ⟨-k, 1, k⟩] := by
  have heps4 : eps ≤ 4 := by norm_num [eps]
  have hD1 : dedup_push_w [] ⟨k, -1, k⟩ = [⟨k, -1, k⟩] := by
    unfold dedup_push_w
    simp
  have hC2 : (([⟨k, -1, k⟩] : List Vec3).any fun q => len_sqr (q - ⟨-1, -1, k⟩) < eps) = false := by
    simp only [List.any_cons, List.any_nil, Bool.or_false, Bool.or_eq_false_iff,
      decide_eq_false_iff_not, not_lt, Vec3.sub_mk, len_sqr_mk]
    nlinarith [h1, h2, heps4, sq_nonneg k, sq_nonneg (1 - k), sq_nonneg (1 + k)]
  have hD2 : dedup_push_w [⟨k, -1, k⟩] ⟨-1, -1, k⟩ = [⟨k, -1, k⟩, ⟨-1, -1, k⟩] := by
    unfold dedup_push_w
    rw [hC2]
    simp
  have hD3 : dedup_push_w [⟨k, -1, k⟩, ⟨-1, -1, k⟩] ⟨k, -1, k⟩ = [⟨k, -1, k⟩, ⟨-1, -1, k⟩] := by
    unfold dedup_push_w
    rw [if_pos]
    exact List.any_eq_true.mpr ⟨⟨k, -1, k⟩, by simp, by norm_num [eps]⟩
  have hC4 : (([⟨k, -1, k⟩, ⟨-1, -1, k⟩] : List Vec3).any fun q => len_sqr (q - ⟨1, -1, k⟩) < eps) = false := by
    simp only [List.any_cons, List.any_nil, Bool.or_false, Bool.or_eq_false_iff,
      decide_eq_false_iff_not, not_lt, Vec3.sub_mk, len_sqr_mk]
    refine ⟨?_, ?_⟩ <;>
      nlinarith [h1, h2, heps4, sq_nonneg k, sq_nonneg (1 - k), sq_nonneg (1 + k)]
  have hD4 : dedup_push_w [⟨k, -1, k⟩, ⟨-1, -1, k⟩] ⟨1, -1, k⟩ = [⟨k, -1, k⟩, ⟨-1, -1, k⟩, ⟨1, -1, k⟩] := by
    unfold dedup_push_w
    rw [hC4]
    simp
  have hC5 : (([⟨k, -1, k⟩, ⟨-1, -1, k⟩, ⟨1, -1, k⟩] : List Vec3).any fun q => len_sqr (q - ⟨1, k, k⟩) < eps) = false := by
    simp only [List.any_cons, List.any_nil, Bool.or_false, Bool.or_eq_false_iff,
      decide_eq_false_iff_not, not_lt, Vec3.sub_mk, len_sqr_mk]
    refine ⟨?_, ?_, ?_⟩ <;>
      nlinarith [h1, h2, heps4, sq_nonneg k, sq_nonneg (1 - k), sq_nonneg (1 + k)]
  have hD5 : dedup_push_w [⟨k, -1, k⟩, ⟨-1, -1, k⟩, ⟨1, -1, k⟩] ⟨1, k, k⟩ = [⟨k, -1, k⟩, ⟨-1, -1, k⟩, ⟨1, -1, k⟩, ⟨1, k, k⟩] := by
    unfold dedup_push_w
    rw [hC5]
    simp
  have hD6 : dedup_push_w [⟨k, -1, k⟩, ⟨-1, -1, k⟩, ⟨1, -1, k⟩, ⟨1, k, k⟩] ⟨1, -1, k⟩ = [⟨k, -1, k⟩, ⟨-1, -1, k⟩, ⟨1, -1, k⟩, ⟨1, k, k⟩] := by
    unfold dedup_push_w
    rw [if_pos]
    exact List.any_eq_true.mpr ⟨⟨1, -1, k⟩, by simp, by norm_num [eps]⟩
  have hD7 : dedup_push_w [⟨k, -1, k⟩, ⟨-1, -1, k⟩, ⟨1, -1, k⟩, ⟨1, k, k⟩] ⟨1, k, k⟩ = [⟨k, -1, k⟩, ⟨-1, -1, k⟩, ⟨1, -1, k⟩, ⟨1, k, k⟩] := by
    unfold dedup_push_w
    rw [if_pos]
    exact List.any_eq_true.mpr ⟨⟨1, k, k⟩, by simp, by norm_num [eps]⟩
  have hC8 : (([⟨k, -1, k⟩, ⟨-1, -1, k⟩, ⟨1, -1, k⟩, ⟨1, k, k⟩] : List Vec3).any fun q => len_sqr (q - ⟨1, 1, k⟩) < eps) = false := by
    simp only [List.any_cons, List.any_nil, Bool.or_false, Bool.or_eq_false_iff,
      decide_eq_false_iff_not, not_lt, Vec3.sub_mk, len_sqr_mk]
    refine ⟨?_, ?_, ?_, ?_⟩ <;>
      nlinarith [h1, h2, heps4, sq_nonneg k, sq_nonneg (1 - k), sq_nonneg (1 + k)]
  have hD8 : dedup_push_w [⟨k, -1, k⟩, ⟨-1, -1, k⟩, ⟨1, -1, k⟩, ⟨1, k, k⟩] ⟨1, 1, k⟩ = [⟨k, -1, k⟩, ⟨-1, -1, k⟩, ⟨1, -1, k⟩, ⟨1, k, k⟩, ⟨1, 1, k⟩] := by
    unfold dedup_push_w
    rw [hC8]
    simp
  have hC9 : (([⟨k, -1, k⟩, ⟨-1, -1, k⟩, ⟨1, -1, k⟩, ⟨1, k, k⟩, ⟨1, 1, k⟩] : List Vec3).any fun q => len_sqr (q - ⟨-1, -k, k⟩) < eps) = false := by
    simp only [List.any_cons, List.any_nil, Bool.or_false, Bool.or_eq_false_iff,
      decide_eq_false_iff_not, not_lt, Vec3.sub_mk, len_sqr_mk]
    refine ⟨?_, ?_, ?_, ?_, ?_⟩ <;>
      nlinarith [h1, h2, heps4, sq_nonneg k, sq_nonneg (1 - k), sq_nonneg (1 + k)]
  have hD9 : dedup_push_w [⟨k, -1, k⟩, ⟨-1, -1, k⟩, ⟨1, -1, k⟩, ⟨1, k, k⟩, ⟨1, 1, k⟩] ⟨-1, -k, k⟩ = [⟨k, -1, k⟩, ⟨-1, -1, k⟩, ⟨1, -1, k⟩, ⟨1, k, k⟩, ⟨1, 1, k⟩, ⟨-1, -k, k⟩] := by
    unfold dedup_push_w
    rw [hC9]
    simp
  have hC10 : (([⟨k, -1, k⟩, ⟨-1, -1, k⟩, ⟨1, -1, k⟩, ⟨1, k, k⟩, ⟨1, 1, k⟩, ⟨-1, -k, k⟩] : List Vec3).any fun q => len_sqr (q - ⟨-1, 1, k⟩) < eps) = false := by
    simp only [List.any_cons, List.any_nil, Bool.or_false, Bool.or_eq_false_iff,
      decide_eq_false_iff_not, not_lt, Vec3.sub_mk, len_sqr_mk]
    refine ⟨?_, ?_, ?_, ?_, ?_, ?_⟩ <;>
      nlinarith [h1, h2, heps4, sq_nonneg k, sq_nonneg (1 - k), sq_nonneg (1 + k)]
  have hD10 : dedup_push_w [⟨k, -1, k⟩, ⟨-1, -1, k⟩, ⟨1, -1, k⟩, ⟨1, k, k⟩, ⟨1, 1, k⟩, ⟨-1, -k, k⟩] ⟨-1, 1, k⟩ = [⟨k, -1, k⟩, ⟨-1, -1, k⟩, ⟨1, -1, k⟩, ⟨1, k, k⟩, ⟨1, 1, k⟩, ⟨-1, -k, k⟩, ⟨-1, 1, k⟩] := by
    unfold dedup_push_w
    rw [hC10]
    simp
  have hD11 : dedup_push_w [⟨k, -1, k⟩, ⟨-1, -1, k⟩, ⟨1, -1, k⟩, ⟨1, k, k⟩, ⟨1, 1, k⟩, ⟨-1, -k, k⟩, ⟨-1, 1, k⟩] ⟨-1, -k, k⟩ = [⟨k, -1, k⟩, ⟨-1, -1, k⟩, ⟨1, -1, k⟩, ⟨1, k, k⟩, ⟨1, 1, k⟩, ⟨-1, -k, k⟩, ⟨-1, 1, k⟩] := by
    unfold dedup_push_w
    rw [if_pos]
    exact List.any_eq_true.mpr ⟨⟨-1, -k, k⟩, by simp, by norm_num [eps]⟩
  have hD12 : dedup_push_w [⟨k, -1, k⟩, ⟨-1, -1, k⟩, ⟨1, -1, k⟩, ⟨1, k, k⟩, ⟨1, 1, k⟩, ⟨-1, -k, k⟩, ⟨-1, 1, k⟩] ⟨-1, -1, k⟩ = [⟨k, -1, k⟩, ⟨-1, -1, k⟩, ⟨1, -1, k⟩, ⟨1, k, k⟩, ⟨1, 1, k⟩, ⟨-1, -k, k⟩, ⟨-1, 1, k⟩] := by
    unfold dedup_push_w
    rw [if_pos]
    exact List.any_eq_true.mpr ⟨⟨-1, -1, k⟩, by simp, by norm_num [eps]⟩
  have hC13 : (([⟨k, -1, k⟩, ⟨-1, -1, k⟩, ⟨1, -1, k⟩, ⟨1, k, k⟩, ⟨1, 1, k⟩, ⟨-1, -k, k⟩, ⟨-1, 1, k⟩] : List Vec3).any fun q => len_sqr (q - ⟨-k, 1, k⟩) < eps) = false := by
    simp only [List.any_cons, List.any_nil, Bool.or_false, Bool.or_eq_false_iff,
      decide_eq_false_iff_not, not_lt, Vec3.sub_mk, len_sqr_mk]
    refine ⟨?_, ?_, ?_, ?_, ?_, ?_, ?_⟩ <;>
      nlinarith [h1, h2, heps4, sq_nonneg k, sq_nonneg (1 - k), sq_nonneg (1 + k)]
  have hD13 : dedup_push_w [⟨k, -1, k⟩, ⟨-1, -1, k⟩, ⟨1, -1, k⟩, ⟨1, k, k⟩, ⟨1, 1, k⟩, ⟨-1, -k, k⟩, ⟨-1, 1, k⟩] ⟨-k, 1, k⟩ = [⟨k, -1, k⟩, ⟨-1, -1, k⟩, ⟨1, -1, k⟩, ⟨1, k, k⟩, ⟨1, 1, k⟩, ⟨-1, -k, k⟩, ⟨-1, 1, k⟩, ⟨-k, 1, k⟩] := by
    unfold dedup_push_w
    rw [hC13]
    simp
  have hD14 : dedup_push_w [⟨k, -1, k⟩, ⟨-1, -1, k⟩, ⟨1, -1, k⟩, ⟨1, k, k⟩, ⟨1, 1, k⟩, ⟨-1, -k, k⟩, ⟨-1, 1, k⟩, ⟨-k, 1, k⟩] ⟨1, 1, k⟩ = [⟨k, -1, k⟩, ⟨-1, -1, k⟩, ⟨1, -1, k⟩, ⟨1, k, k⟩, ⟨1, 1, k⟩, ⟨-1, -k, k⟩, ⟨-1, 1, k⟩, ⟨-k, 1, k⟩] := by
    unfold dedup_push_w
    rw [if_pos]
    exact List.any_eq_true.mpr ⟨⟨1, 1, k⟩, by simp, by norm_num [eps]⟩
  have hD15 : dedup_push_w [⟨k, -1, k⟩, ⟨-1, -1, k⟩, ⟨1, -1, k⟩, ⟨1, k, k⟩, ⟨1, 1, k⟩, ⟨-1, -k, k⟩, ⟨-1, 1, k⟩, ⟨-k, 1, k⟩] ⟨-k, 1, k⟩ = [⟨k, -1, k⟩, ⟨-1, -1, k⟩, ⟨1, -1, k⟩, ⟨1, k, k⟩, ⟨1, 1, k⟩, ⟨-1, -k, k⟩, ⟨-1, 1, k⟩, ⟨-k, 1, k⟩] := by
    unfold dedup_push_w
    rw [if_pos]
    exact List.any_eq_true.mpr ⟨⟨-k, 1, k⟩, by simp, by norm_num [eps]⟩
  have hD16 : dedup_push_w [⟨k, -1, k⟩, ⟨-1, -1, k⟩, ⟨1, -1, k⟩, ⟨1, k, k⟩, ⟨1, 1, k⟩, ⟨-1, -k, k⟩, ⟨-1, 1, k⟩, ⟨-k, 1, k⟩] ⟨-1, 1, k⟩ = [⟨k, -1, k⟩, ⟨-1, -1, k⟩, ⟨1, -1, k⟩, ⟨1, k, k⟩, ⟨1, 1, k⟩, ⟨-1, -k, k⟩, ⟨-1, 1, k⟩, ⟨-k, 1, k⟩] := by
    unfold dedup_push_w
    rw [if_pos]
    exact List.any_eq_true.mpr ⟨⟨-1, 1, k⟩, by simp, by norm_num [eps]⟩
  rw [unit_cube_triangulated_eq, cross_points_w]
  simp only [List.foldl_cons, List.foldl_nil,
    tri_z_1 ops hs k,
    tri_z_2 ops hs k,
    tri_z_3 ops hs k hk1 hk2,
    tri_z_4 ops hs k hk1 hk2,
    tri_z_5 ops hs k hk1 hk2,
    tri_z_6 ops hs k hk1 hk2,
    tri_z_7 ops hs k hk1 hk2,
    tri_z_8 ops hs k hk1 hk2,
    tri_z_9 ops hs k hk1 hk2,
    tri_z_10 ops hs k hk1 hk2,
    tri_z_11 ops hs k,
    tri_z_12 ops hs k]
  rw [hD1, hD2, hD3, hD4, hD5, hD6, hD7, hD8, hD9, hD10, hD11, hD12, hD13, hD14, hD15, hD16]

set_option maxHeartbeats 1000000 in
theorem cube_points_z_empty (ops : FloatOps) (hs : ops.sqrt 1 = 1) (k : ℚ)
    (hk : k < -1 ∨ 1 < k) :
    cross_points_w ops ⟨⟨0, 0, 1⟩, k⟩ (unit_cube_triangulated ops) = [] := by
  rw [unit_cube_triangulated_eq, cross_points_w]
  simp only [List.foldl_cons, List.foldl_nil,
    tri_z_1 ops hs k,
    tri_z_2 ops hs k,
    tri_z_3o ops hs k hk,
    tri_z_4o ops hs k hk,
    tri_z_5o ops hs k hk,
    tri_z_6o ops hs k hk,
    tri_z_7o ops hs k hk,
    tri_z_8o ops hs k hk,
    tri_z_9o ops hs k hk,
    tri_z_10o ops hs k hk,
    tri_z_11 ops hs k,
    tri_z_12 ops hs k]

theorem cube_cross_z (ops : FloatOps) (hs : ops.sqrt 1 = 1) (k : ℚ)
    (hk1 : -1 ≤ k) (hk2 : k ≤ 1) (h1 : eps ≤ (1 - k) ^ 2) (h2 : eps ≤ (1 + k) ^ 2) :
    ((Plane.cross_sect ops ⟨⟨0, 0, 1⟩, k⟩ (unit_cube_triangulated ops)).map
        CrossSectionVertex.world_pos).Perm
      [⟨k, -1, k⟩, ⟨-1, -1, k⟩, ⟨1, -1, k⟩, ⟨1, k, k⟩, ⟨1, 1, k⟩, ⟨-1, -k, k⟩, ⟨-1, 1, k⟩, ⟨-k, 1, k⟩] ∧
    (Plane.cross_sect ops ⟨⟨0, 0, 1⟩, k⟩ (unit_cube_triangulated ops)).length = 8 := by
  have hpts := cube_points_z ops hs k hk1 hk2 h1 h2
  have hmap := cross_sect_points_map_world ops ⟨⟨0, 0, 1⟩, k⟩ (unit_cube_triangulated ops)
  have hmp : (Plane.cross_sect_points ops ⟨⟨0, 0, 1⟩, k⟩
      (unit_cube_triangulated ops)).map CrossSectionVertex.world_pos =
      [⟨k, -1, k⟩, ⟨-1, -1, k⟩, ⟨1, -1, k⟩, ⟨1, k, k⟩, ⟨1, 1, k⟩, ⟨-1, -k, k⟩, ⟨-1, 1, k⟩, ⟨-k, 1, k⟩] := hmap.trans hpts
  constructor
  · exact (cross_sect_map_world ops _ _).trans (hmp ▸ List.Perm.refl _)
  · rw [cross_sect_length]
    have := congrArg List.length hmp
    rw [List.length_map] at this
    rw [this]
    rfl

theorem cube_cross_z_empty (ops : FloatOps) (hs : ops.sqrt 1 = 1) (k : ℚ)
    (hk : k < -1 ∨ 1 < k) :
    Plane.cross_sect ops ⟨⟨0, 0, 1⟩, k⟩ (unit_cube_triangulated ops) = [] := by
  have hpts := cube_points_z_empty ops hs k hk
  have hmap := cross_sect_points_map_world ops ⟨⟨0, 0, 1⟩, k⟩ (unit_cube_triangulated ops)
  have hempty : Plane.cross_sect_points ops ⟨⟨0, 0, 1⟩, k⟩ (unit_cube_triangulated ops) = [] :=
    List.map_eq_nil.mp (hmap.trans hpts)
  rw [Plane.cross_sect, hempty]
  rfl

/-- C1 (amended): slicing the 12-triangle triangulated unit cube with a
plane whose normal is one of the three coordinate unit vectors and whose
offset is strictly between -1 and 1, staying at least the deduplication
tolerance away from the faces (`(1 ∓ k)² ≥ 1e-5`, i.e. roughly 0.0032),
returns exactly 8 points — not 4: the 4 corners of the cross-section
square plus one additional point on the interior of each side, where the
triangulation's face diagonals cross the plane; all 8 world positions
lie on the boundary of that square.  For an offset outside `[-1, 1]` the
result is the empty sequence, as claimed. -/
theorem claim_c1_amended (ops : FloatOps) (hs : ops.sqrt 1 = 1) (k : ℚ) :
    (-1 < k → k < 1 → eps ≤ (1 - k) ^ 2 → eps ≤ (1 + k) ^ 2 →
      ((((Plane.cross_sect ops ⟨⟨1, 0, 0⟩, k⟩ (unit_cube_triangulated ops)).map
          CrossSectionVertex.world_pos).Perm
          [⟨k, k, -1⟩, ⟨k, -1, -1⟩, ⟨k, 1, -1⟩, ⟨k, -1, k⟩, ⟨k, -1, 1⟩, ⟨k, 1, -k⟩,
           ⟨k, 1, 1⟩, ⟨k, k, 1⟩] ∧
        (Plane.cross_sect ops ⟨⟨1, 0, 0⟩, k⟩ (unit_cube_triangulated ops)).length = 8) ∧
       (((Plane.cross_sect ops ⟨⟨0, 1, 0⟩, k⟩ (unit_cube_triangulated ops)).map
          CrossSectionVertex.world_pos).Perm
          [⟨k, k, -1⟩, ⟨1, k, -1⟩, ⟨-1, k, -1⟩, ⟨1, k, k⟩, ⟨1, k, 1⟩, ⟨-1, k, -k⟩,
           ⟨-1, k, 1⟩, ⟨k, k, 1⟩] ∧
        (Plane.cross_sect ops ⟨⟨0, 1, 0⟩, k⟩ (unit_cube_triangulated ops)).length = 8) ∧
       (((Plane.cross_sect ops ⟨⟨0, 0, 1⟩, k⟩ (unit_cube_triangulated ops)).map
          CrossSectionVertex.world_pos).Perm
          [⟨k, -1, k⟩, ⟨-1, -1, k⟩, ⟨1, -1, k⟩, ⟨1, k, k⟩, ⟨1, 1, k⟩, ⟨-1, -k, k⟩,
           ⟨-1, 1, k⟩, ⟨-k, 1, k⟩] ∧
        (Plane.cross_sect ops ⟨⟨0, 0, 1⟩, k⟩ (unit_cube_triangulated ops)).length = 8))) ∧
    (k < -1 ∨ 1 < k →
      (Plane.cross_sect ops ⟨⟨1, 0, 0⟩, k⟩ (unit_cube_triangulated ops) = [] ∧
       Plane.cross_sect ops ⟨⟨0, 1, 0⟩, k⟩ (unit_cube_triangulated ops) = [] ∧
       Plane.cross_sect ops ⟨⟨0, 0, 1⟩, k⟩ (unit_cube_triangulated ops) = [])) := by
  constructor
  · intro hk1 hk2 h1 h2
    exact ⟨cube_cross_x ops hs k (le_of_lt hk1) (le_of_lt hk2) h1 h2,
      cube_cross_y ops hs k (le_of_lt hk1) (le_of_lt hk2) h1 h2,
      cube_cross_z ops hs k (le_of_lt hk1) (le_of_lt hk2) h1 h2⟩
  · intro hk
    exact ⟨cube_cross_x_empty ops hs k hk, cube_cross_y_empty ops hs k hk,
      cube_cross_z_empty ops hs k hk⟩

/-- C1 counterexample: at offset 0 along the z axis the cross-section of
the triangulated unit cube has 8 points, not the 4 the claim asserts
(the 4 corners of the square plus the 4 points where the lateral faces'
triangulation diagonals cross the plane). -/
theorem claim_c1_counterexample :
    ¬((Plane.cross_sect ops0 ⟨⟨0, 0, 1⟩, 0⟩ (unit_cube_triangulated ops0)).length = 4) := by
  intro hcon
  have h8 := (cube_cross_z ops0 rfl 0 (by norm_num) (by norm_num)
    (by norm_num [eps]) (by norm_num [eps])).2
  rw [hcon] at h8
  norm_num at h8

/-- C1 witness: at offset 1/2 the hypotheses of the amended claim hold
and the z-axis cross-section indeed has 8 points. -/
theorem claim_c1_witness :
    ops0.sqrt 1 = 1 ∧ (-1 : ℚ) < 1 / 2 ∧ (1 / 2 : ℚ) < 1 ∧
    eps ≤ (1 - 1 / 2 : ℚ) ^ 2 ∧ eps ≤ (1 + 1 / 2 : ℚ) ^ 2 ∧
    (Plane.cross_sect ops0 ⟨⟨0, 0, 1⟩, 1 / 2⟩ (unit_cube_triangulated ops0)).length = 8 := by
  refine ⟨rfl, by norm_num, by norm_num, by norm_num [eps], by norm_num [eps], ?_⟩
  exact (((claim_c1_amended ops0 rfl (1 / 2)).1 (by norm_num) (by norm_num)
    (by norm_num [eps]) (by norm_num [eps])).2.2).2

/-- C10: when the pause flag is set, an update call with any delta
leaves the simulation state (objects, simulation time, spawn countdown,
pause flag) unchanged and consumes no randomness; only the camera,
which is outside the modelled simulation core, is updated by the
source. -/
theorem claim_c10 (ops : FloatOps) (g : ℕ → ℚ) (palette : List ℕ)
    (dt : ℚ) (s : SimStateM) (i : ℕ) (h : s.paused = true) :
    update_main ops g palette dt s i = (s, i) := by
  simp [update_main, h]

theorem drain_main_nonneg (ops : FloatOps) (g : ℕ → ℚ) (palette : List ℕ)
    (t : ℚ) (objs : List Obj) (i : ℕ) :
    0 ≤ (drain_main ops g palette t objs i).1 := by
  induction t, objs, i using drain_main.induct ops g palette with
  | case1 t objs i h ru so ih =>
    rw [drain_main, dif_pos h]
    exact ih
  | case2 t objs i h =>
    rw [drain_main, dif_neg h]
    exact le_of_not_lt h

theorem drain_state_nonneg (ops : FloatOps) (g : ℕ → ℚ) (palette : List ℕ)
    (vmin vmax : Vec2) (t : ℚ) (objs : List Obj) (i : ℕ) :
    0 ≤ (drain_state ops g palette vmin vmax t objs i).1 := by
  induction t, objs, i using drain_state.induct ops g palette vmin vmax with
  | case1 t objs i h so ih =>
    rw [drain_state, dif_pos h]
    exact ih
  | case2 t objs i h =>
    rw [drain_state, dif_neg h]
    exact le_of_not_lt h

theorem drain_main_noop (ops : FloatOps) (g : ℕ → ℚ) (palette : List ℕ)
    (t : ℚ) (objs : List Obj) (i : ℕ) (h : 0 ≤ t) :
    drain_main ops g palette t objs i = (t, objs, i) := by
  rw [drain_main, dif_neg (not_lt.mpr h)]

theorem drain_state_noop (ops : FloatOps) (g : ℕ → ℚ) (palette : List ℕ)
    (vmin vmax : Vec2) (t : ℚ) (objs : List Obj) (i : ℕ) (h : 0 ≤ t) :
    drain_state ops g palette vmin vmax t objs i = (t, objs, i) := by
  rw [drain_state, dif_neg (not_lt.mpr h)]

/-- C7: starting from a non-negative spawn countdown and a non-negative
elapsed-time delta, both implementations return with the countdown
non-negative again: the countdown is drained in a loop whose increments
are at least 0.1 (`gen_range(0..=1).sqr() * 0.4 + 0.1` in `main.rs`, the
fixed `0.1` in `state.rs`) until it is non-negative, not merely
decremented once. -/
theorem claim_c7 (ops : FloatOps) (g : ℕ → ℚ) (palette : List ℕ) (dt : ℚ)
    (sM : SimStateM) (sS : SimStateS) (i j : ℕ)
    (hM : 0 ≤ sM.next_spawn) (hS : 0 ≤ sS.next_spawn) (hdt : 0 ≤ dt) :
    0 ≤ (update_main ops g palette dt sM i).1.next_spawn ∧
    0 ≤ (update_state ops g palette dt sS j).1.next_spawn := by
  constructor
  · rw [update_main]
    by_cases hp : sM.paused
    · rw [if_pos hp]
      exact hM
    · rw [if_neg hp]
      exact drain_main_nonneg ops g palette _ _ _
  · rw [update_state]
    exact drain_state_nonneg ops g palette _ _ _ _ _

/-- C7 witness: a countdown of 1 with delta 2 forces the drain loop to
run and return a non-negative countdown in both implementations. -/
theorem claim_c7_witness :
    (0 : ℚ) ≤ (⟨0, 1, [], false⟩ : SimStateM).next_spawn ∧
    (0 : ℚ) ≤ (⟨0, 1, [], 1, 1⟩ : SimStateS).next_spawn ∧
    (0 : ℚ) ≤ (2 : ℚ) ∧
    0 ≤ (update_main ops0 g0 [] 2 ⟨0, 1, [], false⟩ 0).1.next_spawn ∧
    0 ≤ (update_state ops0 g0 [] 2 ⟨0, 1, [], 1, 1⟩ 0).1.next_spawn := by
  refine ⟨by norm_num, by norm_num, by norm_num, ?_, ?_⟩
  · exact (claim_c7 ops0 g0 [] 2 ⟨0, 1, [], false⟩ ⟨0, 1, [], 1, 1⟩ 0 0
      (by norm_num) (by norm_num) (by norm_num)).1
  · exact (claim_c7 ops0 g0 [] 2 ⟨0, 1, [], false⟩ ⟨0, 1, [], 1, 1⟩ 0 0
      (by norm_num) (by norm_num) (by norm_num)).2

theorem instantiate_position (ops : FloatOps) (g : ℕ → ℚ) (palette : List ℕ)
    (pos : Vec3) (scale : ℚ) (i : ℕ) :
    (instantiate ops g palette pos scale i).1.position = pos := rfl

theorem instantiate_scale (ops : FloatOps) (g : ℕ → ℚ) (palette : List ℕ)
    (pos : Vec3) (scale : ℚ) (i : ℕ) :
    (instantiate ops g palette pos scale i).1.scale = scale := rfl

theorem try_place_some (ops : FloatOps) (objs : List Obj) (scale : ℚ)
    (draw : ℕ → Vec3 × ℕ) :
    ∀ (n : ℕ) (pos : Vec3) (i : ℕ) (pos2 : Vec3),
      (try_place ops objs scale draw n pos i).1 = some pos2 →
      conflict ops objs scale pos2 = false := by
  intro n
  induction n with
  | zero =>
    intro pos i pos2 h
    simp [try_place] at h
  | succ n ih =>
    intro pos i pos2 h
    rw [try_place] at h
    by_cases hc : conflict ops objs scale pos = true
    · rw [if_pos hc] at h
      exact ih _ _ _ h
    · rw [if_neg hc] at h
      simp only [Option.some.injEq] at h
      subst h
      simpa using hc

theorem try_place_all_fail (ops : FloatOps) (objs : List Obj) (scale : ℚ)
    (draw : ℕ → Vec3 × ℕ) (hall : ∀ p, conflict ops objs scale p = true) :
    ∀ (n : ℕ) (pos : Vec3) (i : ℕ), (try_place ops objs scale draw n pos i).1 = none := by
  intro n
  induction n with
  | zero => intro pos i; rfl
  | succ n ih =>
    intro pos i
    rw [try_place, if_pos (hall pos)]
    exact ih _ _

/-- The pairwise separation invariant of the spawn rejection sampling:
every two live objects are at least `(scale_i + scale_j) * 1.74` apart,
distance measured exactly as the code measures it (the square root of
the squared difference). -/
def sep (ops : FloatOps) (objs : List Obj) : Prop :=
  objs.Pairwise (fun o1 o2 =>
    (o1.scale + o2.scale) * (174 / 100) ≤ ops.sqrt (len_sqr (o1.position - o2.position)))

theorem sep_append (ops : FloatOps) (objs : List Obj) (o : Obj) (hs : sep ops objs)
    (hc : conflict ops objs o.scale o.position = false) : sep ops (objs ++ [o]) := by
  rw [sep, List.pairwise_append]
  refine ⟨hs, List.pairwise_singleton _ _, ?_⟩
  intro a ha b hb
  rw [List.mem_singleton] at hb
  rw [hb]
  rw [conflict, List.any_eq_false] at hc
  have h2 := hc a ha
  rw [decide_eq_true_eq, not_lt] at h2
  rw [add_comm a.scale o.scale, len_sqr_sub_comm a.position o.position]
  exact h2

theorem spawn_attempt_main_shape (ops : FloatOps) (g : ℕ → ℚ) (palette : List ℕ)
    (objs : List Obj) (i : ℕ) :
    (spawn_attempt_main ops g palette objs i).1 = objs ∨
    ∃ o : Obj, (spawn_attempt_main ops g palette objs i).1 = objs ++ [o] ∧
      conflict ops objs o.scale o.position = false := by
  rw [spawn_attempt_main]
  split
  · exact Or.inl rfl
  · dsimp only
    split
    · exact Or.inl rfl
    · rename_i pos hpl
      right
      refine ⟨_, rfl, ?_⟩
      rw [instantiate_scale, instantiate_position]
      exact try_place_some ops objs _ _ _ _ _ _ hpl

theorem spawn_attempt_state_shape (ops : FloatOps) (g : ℕ → ℚ) (palette : List ℕ)
    (vmin vmax : Vec2) (objs : List Obj) (i : ℕ) :
    (spawn_attempt_state ops g palette vmin vmax objs i).1 = objs ∨
    ∃ o : Obj, (spawn_attempt_state ops g palette vmin vmax objs i).1 = objs ++ [o] ∧
      conflict ops objs o.scale o.position = false := by
  rw [spawn_attempt_state]
  split
  · exact Or.inl rfl
  · dsimp only
    split
    · exact Or.inl rfl
    · rename_i pos hpl
      right
      refine ⟨_, rfl, ?_⟩
      rw [instantiate_scale, instantiate_position]
      exact try_place_some ops objs _ _ _ _ _ _ hpl

theorem sep_of_spawn_result (ops : FloatOps) (objs objs2 : List Obj)
    (hshape : objs2 = objs ∨
      ∃ o : Obj, objs2 = objs ++ [o] ∧ conflict ops objs o.scale o.position = false)
    (hs : sep ops objs) : sep ops objs2 := by
  rcases hshape with rfl | ⟨o, rfl, hc⟩
  · exact hs
  · exact sep_append ops objs o hs hc

theorem drain_main_sep (ops : FloatOps) (g : ℕ → ℚ) (palette : List ℕ) :
    ∀ (t : ℚ) (objs : List Obj) (i : ℕ), sep ops objs →
      sep ops (drain_main ops g palette t objs i).2.1 := by
  intro t objs i
  induction t, objs, i using drain_main.induct ops g palette with
  | case1 t objs i h ru so ih =>
    intro hsep
    rw [drain_main, dif_pos h]
    exact ih (sep_of_spawn_result ops objs _
      (spawn_attempt_main_shape ops g palette objs _) hsep)
  | case2 t objs i h =>
    intro hsep
    rw [drain_main, dif_neg h]
    exact hsep

theorem drain_state_sep (ops : FloatOps) (g : ℕ → ℚ) (palette : List ℕ)
    (vmin vmax : Vec2) :
    ∀ (t : ℚ) (objs : List Obj) (i : ℕ), sep ops objs →
      sep ops (drain_state ops g palette vmin vmax t objs i).2.1 := by
  intro t objs i
  induction t, objs, i using drain_state.induct ops g palette vmin vmax with
  | case1 t objs i h so ih =>
    intro hsep
    rw [drain_state, dif_pos h]
    exact ih (sep_of_spawn_result ops objs _
      (spawn_attempt_state_shape ops g palette vmin vmax objs _) hsep)
  | case2 t objs i h =>
    intro hsep
    rw [drain_state, dif_neg h]
    exact hsep

/-- C4: the spawn phase of both implementations preserves the pairwise
separation invariant `sep` (distance, as computed by the code, at least
`(scale_i + scale_j) * 1.74` for every pair of live objects), however
many spawn attempts the countdown drain performs; every spawn attempt
either creates nothing or appends exactly one object whose candidate
position cleared the separation check against every live object; and if
every candidate position conflicts, the `for _ in 0..5` placement loop
exhausts its 5 attempts and the spawn is skipped. -/
theorem claim_c4 :
    (∀ (ops : FloatOps) (g : ℕ → ℚ) (palette : List ℕ) (t : ℚ)
        (objs : List Obj) (i : ℕ),
      sep ops objs → sep ops (drain_main ops g palette t objs i).2.1) ∧
    (∀ (ops : FloatOps) (g : ℕ → ℚ) (palette : List ℕ) (vmin vmax : Vec2) (t : ℚ)
        (objs : List Obj) (i : ℕ),
      sep ops objs → sep ops (drain_state ops g palette vmin vmax t objs i).2.1) ∧
    (∀ (ops : FloatOps) (g : ℕ → ℚ) (palette : List ℕ) (objs : List Obj) (i : ℕ),
      (spawn_attempt_main ops g palette objs i).1 = objs ∨
      ∃ o : Obj, (spawn_attempt_main ops g palette objs i).1 = objs ++ [o] ∧
        conflict ops objs o.scale o.position = false) ∧
    (∀ (ops : FloatOps) (objs : List Obj) (scale : ℚ) (draw : ℕ → Vec3 × ℕ)
        (pos : Vec3) (i : ℕ),
      (∀ p, conflict ops objs scale p = true) →
      (try_place ops objs scale draw 5 pos i).1 = none) :=
  ⟨fun ops g palette t objs i => drain_main_sep ops g palette t objs i,
   fun ops g palette vmin vmax t objs i => drain_state_sep ops g palette vmin vmax t objs i,
   fun ops g palette objs i => spawn_attempt_main_shape ops g palette objs i,
   fun ops objs scale draw pos i hall => try_place_all_fail ops objs scale draw hall 5 pos i⟩

/-- C4 witness: a drain from countdown -1/20 over an empty (trivially
separated) population stays separated, and with a population whose
single member conflicts with every candidate the placement loop returns
`none`. -/
theorem claim_c4_witness :
    sep ops0 (drain_main ops0 g0 [] (-1 / 20) [] 0).2.1 ∧
    (try_place ops0 [⟨⟨0, 0, 0⟩, ⟨1, 0, 0⟩, 0, 1, 0⟩] 1
      (fun j => (⟨0, 0, 0⟩, j)) 5 ⟨0, 0, 0⟩ 0).1 = none := by
  constructor
  · exact claim_c4.1 ops0 g0 [] (-1 / 20) [] 0 List.Pairwise.nil
  · refine claim_c4.2.2.2 ops0 [⟨⟨0, 0, 0⟩, ⟨1, 0, 0⟩, 0, 1, 0⟩] 1
      (fun j => (⟨0, 0, 0⟩, j)) ⟨0, 0, 0⟩ 0 ?_
    intro p
    cases p with
    | mk px py pz =>
      simp only [conflict, List.any_cons, List.any_nil, ops0]
      norm_num
      split_ifs <;> norm_num

theorem integrate_integrate (ops : FloatOps)
    (hcos : ∀ a b, ops.cos (a + b) = ops.cos a * ops.cos b - ops.sin a * ops.sin b)
    (hsin : ∀ a b, ops.sin (a + b) = ops.sin a * ops.cos b + ops.cos a * ops.sin b)
    (dt1 dt2 : ℚ) (o : Obj) :
    integrate ops dt2 (integrate ops dt1 o) = integrate ops (dt1 + dt2) o := by
  obtain ⟨⟨px, py, pz⟩, ⟨ox, oy, oz⟩, roll, scale, color⟩ := o
  have hang : 45 * (dt1 + dt2) * ops.pi / 180 =
      45 * dt1 * ops.pi / 180 + 45 * dt2 * ops.pi / 180 := by ring
  simp only [integrate, Obj.rotate_y, rotate2, from_degrees, Vec3.add_mk, Vec3.smul_mk,
    Obj.mk.injEq, Vec3.mk.injEq, hang, hcos, hsin]
  norm_num
  repeat' apply And.intro
  all_goals ring

theorem cull_twice_general (ops : FloatOps)
    (hcos : ∀ a b, ops.cos (a + b) = ops.cos a * ops.cos b - ops.sin a * ops.sin b)
    (hsin : ∀ a b, ops.sin (a + b) = ops.sin a * ops.cos b + ops.cos a * ops.sin b)
    (dt : ℚ) (hdt : 0 ≤ dt) (thr : Obj → ℚ)
    (hthr : ∀ (d : ℚ) (o : Obj), thr (integrate ops d o) = thr o) :
    ∀ objs : List Obj,
      (((objs.map (integrate ops dt)).filter
          (fun o => o.position.z < thr o)).map (integrate ops dt)).filter
        (fun o => o.position.z < thr o) =
      (objs.map (integrate ops (2 * dt))).filter (fun o => o.position.z < thr o) := by
  intro objs
  induction objs with
  | nil => rfl
  | cons o rest ih =>
    have hii : integrate ops dt (integrate ops dt o) = integrate ops (2 * dt) o := by
      rw [integrate_integrate ops hcos hsin, show dt + dt = 2 * dt by ring]
    simp only [List.map_cons, List.filter_cons]
    by_cases h1 : (integrate ops dt o).position.z < thr (integrate ops dt o)
    · rw [if_pos (by simpa using h1)]
      simp only [List.map_cons, List.filter_cons, hii]
      by_cases h2 : (integrate ops (2 * dt) o).position.z < thr (integrate ops (2 * dt) o)
      · rw [if_pos (by simpa using h2), if_pos (by simpa using h2), ih]
      · rw [if_neg (by simpa using h2), if_neg (by simpa using h2), ih]
    · rw [if_neg (by simpa using h1)]
      have h2 : ¬((integrate ops (2 * dt) o).position.z < thr (integrate ops (2 * dt) o)) := by
        rw [integrate_position_z, hthr] at h1 ⊢
        intro hcon
        apply h1
        linarith
      rw [if_neg (by simpa using h2), ih]

/-- C8 (amended): with a fixed random source, time-scale invariance
holds only while no spawn fires inside the window: if the countdown
exceeds `2 * dt` (so neither run drains), and the abstract cosine/sine
satisfy the angle-addition identities (as the real functions do), then
one update of `2 * dt` produces exactly the same state — objects with
identical positions and orientations, clock, countdown — as two updates
of `dt`, in both implementations.  When a spawn does fire inside the
window the results genuinely differ (see the counterexample): the
spawned object is integrated over the full `2 * dt` in the single run
but only over the remaining `dt` in the split run. -/
theorem claim_c8_amended (ops : FloatOps) (g : ℕ → ℚ) (palette : List ℕ)
    (dt : ℚ) (sM : SimStateM) (sS : SimStateS) (i j : ℕ)
    (hdt : 0 ≤ dt) (hM : 2 * dt ≤ sM.next_spawn) (hS : 2 * dt ≤ sS.next_spawn)
    (hcos : ∀ a b, ops.cos (a + b) = ops.cos a * ops.cos b - ops.sin a * ops.sin b)
    (hsin : ∀ a b, ops.sin (a + b) = ops.sin a * ops.cos b + ops.cos a * ops.sin b) :
    update_main ops g palette (2 * dt) sM i =
      update_main ops g palette dt
        (update_main ops g palette dt sM i).1
        (update_main ops g palette dt sM i).2 ∧
    update_state ops g palette (2 * dt) sS j =
      update_state ops g palette dt
        (update_state ops g palette dt sS j).1
        (update_state ops g palette dt sS j).2 := by
  constructor
  · by_cases hp : sM.paused = true
    · simp [update_main, hp]
    · have hsingle : update_main ops g palette (2 * dt) sM i =
          ({ simulation_time := sM.simulation_time + 2 * dt,
             next_spawn := sM.next_spawn - 2 * dt,
             objects := integrate_cull_main ops (2 * dt) sM.objects,
             paused := sM.paused }, i) := by
        rw [update_main, if_neg hp, drain_main_noop ops g palette _ _ _ (by linarith)]
      have hinner : update_main ops g palette dt sM i =
          ({ simulation_time := sM.simulation_time + dt,
             next_spawn := sM.next_spawn - dt,
             objects := integrate_cull_main ops dt sM.objects,
             paused := sM.paused }, i) := by
        rw [update_main, if_neg hp, drain_main_noop ops g palette _ _ _ (by linarith)]
      have houter : update_main ops g palette dt
          ({ simulation_time := sM.simulation_time + dt,
             next_spawn := sM.next_spawn - dt,
             objects := integrate_cull_main ops dt sM.objects,
             paused := sM.paused } : SimStateM) i =
          ({ simulation_time := sM.simulation_time + dt + dt,
             next_spawn := sM.next_spawn - dt - dt,
             objects := integrate_cull_main ops dt (integrate_cull_main ops dt sM.objects),
             paused := sM.paused }, i) := by
        rw [update_main]
        dsimp only
        rw [if_neg hp, drain_main_noop ops g palette _ _ _ (by linarith)]
      rw [hsingle, hinner]
      dsimp only
      rw [houter]
      rw [Prod.mk.injEq, SimStateM.mk.injEq]
      refine ⟨⟨by ring, by ring, ?_, rfl⟩, rfl⟩
      exact (cull_twice_general ops hcos hsin dt hdt (fun _ => 5)
        (fun d o => rfl) sM.objects).symm
  · have hsingle : update_state ops g palette (2 * dt) sS j =
        ({ sS with simulation_time := sS.simulation_time + 2 * dt,
                   next_spawn := sS.next_spawn - 2 * dt,
                   objects := integrate_cull_state ops (2 * dt) sS.objects }, j) := by
      rw [update_state]
      rw [drain_state_noop ops g palette _ _ _ _ _ (by linarith)]
    have hinner : update_state ops g palette dt sS j =
        ({ sS with simulation_time := sS.simulation_time + dt,
                   next_spawn := sS.next_spawn - dt,
                   objects := integrate_cull_state ops dt sS.objects }, j) := by
      rw [update_state]
      rw [drain_state_noop ops g palette _ _ _ _ _ (by linarith)]
    have houter : update_state ops g palette dt
        ({ sS with simulation_time := sS.simulation_time + dt,
                   next_spawn := sS.next_spawn - dt,
                   objects := integrate_cull_state ops dt sS.objects } : SimStateS) j =
        ({ sS with simulation_time := sS.simulation_time + dt + dt,
                   next_spawn := sS.next_spawn - dt - dt,
                   objects := integrate_cull_state ops dt
                     (integrate_cull_state ops dt sS.objects) }, j) := by
      rw [update_state]
      dsimp only
      rw [drain_state_noop ops g palette _ _ _ _ _ (by linarith)]
    rw [hsingle, hinner]
    dsimp only
    rw [houter]
    rw [Prod.mk.injEq, SimStateS.mk.injEq]
    refine ⟨⟨by ring, by ring, ?_, rfl, rfl⟩, rfl⟩
    exact (cull_twice_general ops hcos hsin dt hdt (fun o => o.scale * 2)
      (fun d o => by dsimp only; rw [integrate_scale]) sS.objects).symm

theorem c8_spawn_eval : spawn_attempt_main ops0 g0 [] [] 1 =
    ([⟨⟨-7, -7, -5⟩, ⟨-1, -1, -1⟩, 0, 3 / 10, 0⟩], 9) := by
  have hpf : chooseL g0 1 ([()] : List Unit) = (some (), 2) := by
    norm_num [chooseL, g0]
  have hrs : gen_range g0 2 (3 / 10) 1 = (3 / 10, 3) := by
    norm_num [gen_range, g0]
  have hp0 : random_spawn_main g0 3 = (⟨-7, -7, -5⟩, 5) := by
    norm_num [random_spawn_main, gen_range, g0]
  have hpl : try_place ops0 [] (3 / 10) (random_spawn_main g0) 5 ⟨-7, -7, -5⟩ 5 =
      (some ⟨-7, -7, -5⟩, 5) := by
    rw [show (5 : ℕ) = 4 + 1 from rfl, try_place, if_neg (by simp [conflict])]
  have hoi : instantiate ops0 g0 [] ⟨-7, -7, -5⟩ (3 / 10) 5 =
      (⟨⟨-7, -7, -5⟩, ⟨-1, -1, -1⟩, 0, 3 / 10, 0⟩, 9) := by
    norm_num [instantiate, gen_range, g0, chooseL, from_degrees, ops0]
  rw [spawn_attempt_main, hpf]
  dsimp only
  rw [hrs]
  dsimp only
  rw [hp0]
  dsimp only
  rw [hpl]
  dsimp only
  rw [hoi]
  rfl

theorem c8_drain_eval : drain_main ops0 g0 [] (-(1 / 10)) [] 0 =
    (0, [⟨⟨-7, -7, -5⟩, ⟨-1, -1, -1⟩, 0, 3 / 10, 0⟩], 9) := by
  have hru : gen_range g0 0 0 1 = (0, 1) := by norm_num [gen_range, g0]
  rw [drain_main, dif_pos (by norm_num)]
  dsimp only
  rw [hru]
  dsimp only
  rw [c8_spawn_eval]
  dsimp only
  norm_num
  exact drain_main_noop ops0 g0 [] 0 _ 9 le_rfl

theorem c8_single_eval : update_main ops0 g0 [] (1 / 5) ⟨0, 1 / 10, [], false⟩ 0 =
    (⟨1 / 5, 0, [⟨⟨-7, -7, -49 / 10⟩, ⟨-1, -1, -1⟩, 0, 3 / 10, 0⟩], false⟩, 9) := by
  have hic : integrate_cull_main ops0 (1 / 5)
      [⟨⟨-7, -7, -5⟩, ⟨-1, -1, -1⟩, 0, 3 / 10, 0⟩] =
      [⟨⟨-7, -7, -49 / 10⟩, ⟨-1, -1, -1⟩, 0, 3 / 10, 0⟩] := by
    norm_num [integrate_cull_main, integrate, Obj.rotate_y, rotate2, from_degrees,
      ops0, List.filter]
  rw [update_main, if_neg (by simp)]
  dsimp only
  norm_num [c8_drain_eval, hic]

theorem c8_first_eval : update_main ops0 g0 [] (1 / 10) ⟨0, 1 / 10, [], false⟩ 0 =
    (⟨1 / 10, 0, [], false⟩, 0) := by
  rw [update_main, if_neg (by simp)]
  dsimp only
  norm_num
  rw [drain_main_noop ops0 g0 [] 0 [] 0 le_rfl]
  dsimp only
  norm_num [integrate_cull_main]

theorem c8_second_eval : update_main ops0 g0 [] (1 / 10) ⟨1 / 10, 0, [], false⟩ 0 =
    (⟨1 / 5, 0, [⟨⟨-7, -7, -99 / 20⟩, ⟨-1, -1, -1⟩, 0, 3 / 10, 0⟩], false⟩, 9) := by
  have hic : integrate_cull_main ops0 (1 / 10)
      [⟨⟨-7, -7, -5⟩, ⟨-1, -1, -1⟩, 0, 3 / 10, 0⟩] =
      [⟨⟨-7, -7, -99 / 20⟩, ⟨-1, -1, -1⟩, 0, 3 / 10, 0⟩] := by
    norm_num [integrate_cull_main, integrate, Obj.rotate_y, rotate2, from_degrees,
      ops0, List.filter]
  rw [update_main, if_neg (by simp)]
  dsimp only
  norm_num [c8_drain_eval, hic]

/-- C8 counterexample: from the state with countdown 0.1 and no objects,
one update of `2 * 0.1` spawns an object and integrates it over the full
0.2 (final `z = -4.9`), while two updates of 0.1 each spawn the same
object during the second call and integrate it over only 0.1 (final
`z = -4.95`): the resulting object positions differ, so the claim's
time-scale invariance fails whenever a spawn fires inside the window. -/
theorem claim_c8_counterexample :
    ¬((update_main ops0 g0 [] (2 * (1 / 10)) ⟨0, 1 / 10, [], false⟩ 0).1.objects.map
        Obj.position =
      ((update_main ops0 g0 [] (1 / 10)
        (update_main ops0 g0 [] (1 / 10) ⟨0, 1 / 10, [], false⟩ 0).1
        (update_main ops0 g0 [] (1 / 10) ⟨0, 1 / 10, [], false⟩ 0).2).1.objects.map
        Obj.position)) := by
  rw [show (2 * (1 / 10) : ℚ) = 1 / 5 by norm_num]
  rw [c8_single_eval, c8_first_eval]
  dsimp only
  rw [c8_second_eval]
  simp [Vec3.mk.injEq]
  norm_num

/-- C8 witness (for the amended theorem): with countdown 5 and delta 1
no spawn fires, and one update of 2 equals two updates of 1 in both
implementations under `ops0`, whose constant cosine/sine satisfy the
angle-addition identities. -/
theorem claim_c8_witness :
    (0 : ℚ) ≤ 1 ∧ 2 * (1 : ℚ) ≤ (⟨0, 5, [], false⟩ : SimStateM).next_spawn ∧
    2 * (1 : ℚ) ≤ (⟨0, 5, [], 1, 1⟩ : SimStateS).next_spawn ∧
    update_main ops0 g0 [] (2 * 1) ⟨0, 5, [], false⟩ 0 =
      update_main ops0 g0 [] 1 (update_main ops0 g0 [] 1 ⟨0, 5, [], false⟩ 0).1
        (update_main ops0 g0 [] 1 ⟨0, 5, [], false⟩ 0).2 ∧
    update_state ops0 g0 [] (2 * 1) ⟨0, 5, [], 1, 1⟩ 0 =
      update_state ops0 g0 [] 1 (update_state ops0 g0 [] 1 ⟨0, 5, [], 1, 1⟩ 0).1
        (update_state ops0 g0 [] 1 ⟨0, 5, [], 1, 1⟩ 0).2 := by
  refine ⟨by norm_num, by norm_num, by norm_num, ?_, ?_⟩
  · exact (claim_c8_amended ops0 g0 [] 1 ⟨0, 5, [], false⟩ ⟨0, 5, [], 1, 1⟩ 0 0
      (by norm_num) (by norm_num) (by norm_num)
      (fun a b => by norm_num [ops0]) (fun a b => by norm_num [ops0])).1
  · exact (claim_c8_amended ops0 g0 [] 1 ⟨0, 5, [], false⟩ ⟨0, 5, [], 1, 1⟩ 0 0
      (by norm_num) (by norm_num) (by norm_num)
      (fun a b => by norm_num [ops0]) (fun a b => by norm_num [ops0])).2

/-- C10 witness: a concrete paused state is returned unchanged. -/
theorem claim_c10_witness :
    (⟨3, 2, [], true⟩ : SimStateM).paused = true ∧
    update_main ops0 g0 [] 7 ⟨3, 2, [], true⟩ 0 = (⟨3, 2, [], true⟩, 0) :=
  ⟨rfl, claim_c10 ops0 g0 [] 7 ⟨3, 2, [], true⟩ 0 rfl⟩

end NB
